import Mathlib

/-!
# v1-health-check: the per-check state machines

A shallow embedding of the check engines of the health-check daemon
(`syscheck/usecase/syscheck_disk_ucase.go`, `srvcheck/usecase/srvcheck_*_ucase.go`)
and of the history component they fill (`domain/srvcheck.go`), followed by the public
entry points that store the record, the CPU probe of `agent/system/agent_cpu.go` and the
config getters of `syscheck/config/syscheck.go` and `srvcheck/config/srvcheck.go` that
the checks read their thresholds from.

Conventions of the embedding

* A Go `error` is identified with its text; a nil error is `none`, and a call
  returning `(value, err)` is an `Except String value`.
* `bytesize.ByteSize` is a number of bytes (`Nat`); Go `int` shard counts are `Int`
  and their sum is the Go sum, which wraps around at the ends of the 64-bit range
  (`intAdd`); `time.Time` and `time.Duration` are `Nat`.
* One tick is a pure function of the entry status, the configuration and the agencies.
  An agency method is a function of the number of calls already made to that method
  in the tick (and of its arguments), so that successive calls may answer differently.
* A tick returns the status it leaves in the usecase, the history record it hands to the
  repository and the ordered list of the agency calls and status writes it executed.
* In the CPU probe the conversions `float64(...)` of the `uint64` counters round as Go
  does (`float64OfUint64`); the arithmetic on the converted values is over exact
  rationals (`Rat`).
* Ticks that overlap are schedules of atomic steps: the read of the `status` field, the
  events of the trace, and `setStatus` as the write of the field.
* A config getter is a function of the config struct (its cached fields) and of the
  config reader, and returns the value together with both after the call.
-/

namespace HealthCheck

/-! ## Process levels (`srvcheck/usecase/srvcheck.go`) -/

def healthyLevel : String := "HEALTHY"
def warningLevel : String := "WARNING"
def weakDetectedLevel : String := "WEAK_DETECTED"
def recoveringLevel : String := "RECOVERING"
def recoveredLevel : String := "RECOVERED"
def unhealthyLevel : String := "UNHEALTHY"
def errorLevel : String := "ERROR"

/-- Status of a check: the `iota` constants `...StatusHealthy`, `...StatusRecovering`,
`...StatusUnhealthy` that each usecase file declares with the same shape. -/
inductive CheckStatus
  | Healthy
  | Recovering
  | Unhealthy
  deriving DecidableEq, Repr

/-- Text of `errors.Wrap(err, msg)` for a non-nil `err` (github.com/pkg/errors). -/
def errorsWrap (err : String) (msg : String) : String := msg ++ ": " ++ err

/-! ## Comparators (`srvcheck/usecase/srvcheck.go`) -/

structure intComparator where
  V : Int

def intComparator.isMoreThan (comparator : intComparator) (target : Int) : Bool :=
  decide (comparator.V > target)

def intComparator.isLessThan (comparator : intComparator) (target : Int) : Bool :=
  decide (comparator.V < target)

structure bytesizeComparator where
  V : Nat

def bytesizeComparator.isMoreThan (comparator : bytesizeComparator) (target : Nat) : Bool :=
  decide (comparator.V > target)

def bytesizeComparator.isLessThan (comparator : bytesizeComparator) (target : Nat) : Bool :=
  decide (comparator.V < target)

/-! ## History component (`domain/srvcheck.go`) -/

/-- Process level list, `srvcheckProcessLevel`. -/
abbrev srvcheckProcessLevel := List String

/-- Method `Set`: overwrite the list with the one level. -/
def srvcheckProcessLevel.Set (_pl : srvcheckProcessLevel) (level : String) :
    srvcheckProcessLevel :=
  [level]

/-- Method `Append`: return unchanged when the level is found, else append it. -/
def srvcheckProcessLevel.Append (pl : srvcheckProcessLevel) (level : String) :
    srvcheckProcessLevel :=
  if level ∈ pl then pl else pl ++ [level]

/-- Method `String`: the levels joined with `" | "`. -/
def srvcheckProcessLevel.String (pl : srvcheckProcessLevel) : String :=
  " | ".intercalate pl

/-- Common component of every history record, `serviceCheckHistoryComponent`.
The default values are the Go zero values of `new(...)`. -/
structure serviceCheckHistoryComponent where
  agent : String := ""
  version : String := ""
  timestamp : Nat := 0
  domain : String := ""
  _type : String := ""
  UUID : String := ""
  ProcessLevel : srvcheckProcessLevel := []
  Message : String := ""
  Error : Option String := none
  alerted : Bool := false
  alarmText : String := ""
  alarmTime : Nat := 0
  alarmErr : Option String := none
  deriving DecidableEq, Repr

/-- Method `FillPrivateComponent` of `serviceCheckHistoryComponent`; the package
constant `version` and the reading of `time.Now()` are parameters. -/
def serviceCheckHistoryComponent.FillPrivateComponent (sch : serviceCheckHistoryComponent)
    (version : String) (now : Nat) : serviceCheckHistoryComponent :=
  { sch with
    version := version
    agent := "sms-health-check"
    domain := "srvcheck"
    _type := "None"
    timestamp := now }

/-- Method `SetAlarmResult`. -/
def serviceCheckHistoryComponent.SetAlarmResult (sch : serviceCheckHistoryComponent)
    (t : Nat) (text : String) (err : Option String) : serviceCheckHistoryComponent :=
  { sch with alerted := true, alarmTime := t, alarmText := text, alarmErr := err }

/-- Method `SetError`, for a non-nil error with text `err`. -/
def serviceCheckHistoryComponent.SetError (sch : serviceCheckHistoryComponent)
    (err : String) : serviceCheckHistoryComponent :=
  { sch with Message := err, Error := some err }

/-- Modelled from the spec: the per-check history types (`DiskCheckHistory`,
`ElasticsearchCheckHistory`, `SwarmpitCheckHistory`, `ConsulCheckHistory`) and the
system-check twin of the component are declared in files of `domain/` that are not
among the sources. Per the data model they share the common header and the same
`Set`/`Append`/`SetError`/`SetAlarmResult` rules, and the header carries the domain
(`"srvcheck"` or `"syscheck"`) and the check name as type. -/
def newHistory (version : String) (now : Nat) (domain checkType : String) :
    serviceCheckHistoryComponent :=
  { ({} : serviceCheckHistoryComponent).FillPrivateComponent version now with
    domain := domain
    _type := checkType }

/-! ## Agency calls and the tick state -/

/-- One observable step of a tick: an agency method call with its arguments, a call of
the usecase's `setStatus`, or a call of the record's `SetAlarmResult`. -/
inductive Event
  | GetRemainDiskCapacity
  | PruneDockerSystem
  | GetClusterHealth
  | GetIndicesWithPatterns (patterns : List String)
  | SetMinLifeCycle (cycle : Nat)
  | IndexNames
  | DeleteIndices (indices : List String)
  | GetContainerWithServiceName (srv : String)
  | RemoveContainer (containerID : String) (force : Bool)
  | GetServices (srv : String)
  | DeregisterInstance (id : String)
  | PingToCheckConn (timeout : Nat) (target : String)
  | SendMessage (emoji text uuid : String)
  | setStatus (status : CheckStatus)
  | SetAlarmResult
  deriving DecidableEq, Repr

/-- The agency methods, used to number the calls of a tick. -/
inductive Method
  | GetRemainDiskCapacity
  | PruneDockerSystem
  | GetClusterHealth
  | GetIndicesWithPatterns
  | DeleteIndices
  | GetContainerWithServiceName
  | RemoveContainer
  | GetServices
  | DeregisterInstance
  | PingToCheckConn
  | SendMessage
  deriving DecidableEq, Repr

/-- The agency method an event is a call of, if any. -/
def Event.method : Event → Option Method
  | .GetRemainDiskCapacity => some .GetRemainDiskCapacity
  | .PruneDockerSystem => some .PruneDockerSystem
  | .GetClusterHealth => some .GetClusterHealth
  | .GetIndicesWithPatterns _ => some .GetIndicesWithPatterns
  | .SetMinLifeCycle _ => none
  | .IndexNames => none
  | .DeleteIndices _ => some .DeleteIndices
  | .GetContainerWithServiceName _ => some .GetContainerWithServiceName
  | .RemoveContainer _ _ => some .RemoveContainer
  | .GetServices _ => some .GetServices
  | .DeregisterInstance _ => some .DeregisterInstance
  | .PingToCheckConn _ _ => some .PingToCheckConn
  | .SendMessage _ _ _ => some .SendMessage
  | .setStatus _ => none
  | .SetAlarmResult => none

/-- Number of calls of method `m` recorded in a trace. -/
def callsOf (m : Method) (trace : List Event) : Nat :=
  trace.countP (fun e => decide (e.method = some m))

/-- What a tick needs from its surroundings besides the check's own agencies:
the package version, the clock, the fresh uuid, the chat agency and the rendering of
byte sizes used by `fmt.Sprintf`. `SendMessage n emoji text uuid` is the answer
`(t, _text, err)` of the call number `n` (from 0) of the tick to `slackChatAgency.SendMessage`. -/
structure Runtime where
  version : String
  now : Nat
  uuid : String
  SendMessage : Nat → String → String → String → Nat × String × Option String
  fmtByteSize : Nat → String

/-- State threaded through a tick: the usecase's `status` field, the history record
under construction (common component and check-specific fields), and the trace. -/
structure Tick (P : Type) where
  status : CheckStatus
  history : serviceCheckHistoryComponent
  fields : P
  trace : List Event

namespace Tick

variable {P : Type}

/-- Start of every `check...` method: `uuid.New()`, `new(History)`,
`FillPrivateComponent()`, `history.UUID = _uuid`. -/
def start (rt : Runtime) (domain checkType : String) (status : CheckStatus) (fields : P) :
    Tick P :=
  { status := status
    history := { newHistory rt.version rt.now domain checkType with UUID := rt.uuid }
    fields := fields
    trace := [] }

def log (t : Tick P) (e : Event) : Tick P :=
  { t with trace := t.trace ++ [e] }

/-- Method `setStatus` of the usecase (taken under the mutex). -/
def setStatus (t : Tick P) (status : CheckStatus) : Tick P :=
  { t with status := status, trace := t.trace ++ [Event.setStatus status] }

/-- `history.ProcessLevel.Set(level)`. -/
def SetLevel (t : Tick P) (level : String) : Tick P :=
  { t with history := { t.history with ProcessLevel := t.history.ProcessLevel.Set level } }

/-- `history.ProcessLevel.Append(level)`. -/
def AppendLevel (t : Tick P) (level : String) : Tick P :=
  { t with history := { t.history with ProcessLevel := t.history.ProcessLevel.Append level } }

/-- `history.Message = msg`. -/
def SetMessage (t : Tick P) (msg : String) : Tick P :=
  { t with history := { t.history with Message := msg } }

/-- `history.SetError(err)`. -/
def SetError (t : Tick P) (err : String) : Tick P :=
  { t with history := t.history.SetError err }

/-- `history.SetAlarmResult(t, text, err)`. -/
def SetAlarmResult (t : Tick P) (r : Nat × String × Option String) : Tick P :=
  { t with
    history := t.history.SetAlarmResult r.1 r.2.1 r.2.2
    trace := t.trace ++ [Event.SetAlarmResult] }

/-- Answer of the chat agency to the next `SendMessage(emoji, text, _uuid)` of the tick. -/
def chatAnswer (t : Tick P) (rt : Runtime) (emoji text : String) :
    Nat × String × Option String :=
  rt.SendMessage (callsOf Method.SendMessage t.trace) emoji text rt.uuid

/-- `_, _, _ = slackChatAgency.SendMessage(emoji, text, _uuid)`: the call is made and
its answer dropped. -/
def SendMessage (t : Tick P) (rt : Runtime) (emoji text : String) : Tick P :=
  t.log (Event.SendMessage emoji text rt.uuid)

/-- `history.SetAlarmResult(slackChatAgency.SendMessage(emoji, text, _uuid))`. -/
def SendAlarm (t : Tick P) (rt : Runtime) (emoji text : String) : Tick P :=
  (t.SendMessage rt emoji text).SetAlarmResult (t.chatAnswer rt emoji text)

end Tick

/-! ## Disk check (`syscheck/usecase/syscheck_disk_ucase.go`) -/

/-- Config getter `DiskMinCapacity` (constant during a tick). -/
structure diskCheckUsecaseConfig where
  DiskMinCapacity : Nat

/-- Interface `diskSysAgency`; the argument is the number of earlier calls of the
method in the tick. -/
structure diskSysAgency where
  GetRemainDiskCapacity : Nat → Except String Nat
  PruneDockerSystem : Nat → Except String Nat

/-- Check-specific fields of `DiskCheckHistory`. -/
structure DiskCheckFields where
  RemainingCap : Nat := 0
  ReclaimedCap : Nat := 0
  deriving DecidableEq, Repr

/-- Method `checkDisk`, from the statement after the first probe succeeded. -/
def checkDiskProbed (cfg : diskCheckUsecaseConfig) (rt : Runtime) (dsa : diskSysAgency)
    (du : Tick DiskCheckFields) (_remainCap : Nat) : Tick DiskCheckFields :=
  let du := { du with fields := { du.fields with RemainingCap := _remainCap } }
  let remainCap : bytesizeComparator := { V := _remainCap }
  match du.status with
  | .Recovering =>
    (du.SetLevel recoveringLevel).SetMessage "pruning docker system is already on process"
  | .Unhealthy =>
    if remainCap.isMoreThan cfg.DiskMinCapacity then
      let du := du.setStatus .Healthy
      let du := du.SetLevel recoveredLevel
      let du := du.SetMessage "disk check is recovered to be healthy"
      let msg := "!disk check recovered to health! remain capacity - " ++
        rt.fmtByteSize remainCap.V
      du.SendMessage rt "heart" msg
    else
      let du := du.SetLevel unhealthyLevel
      du.SetMessage "disk check is unhealthy now"
  | .Healthy =>
    if remainCap.isLessThan cfg.DiskMinCapacity then
      let du := du.setStatus .Recovering
      let du := du.SetLevel weakDetectedLevel
      let msg := "!disk check weak detected! start to prune docker system"
      let du := du.SendAlarm rt "pill" msg
      let pruned := dsa.PruneDockerSystem (callsOf .PruneDockerSystem du.trace)
      let du := du.log .PruneDockerSystem
      match pruned with
      | .error err =>
        let du := du.setStatus .Unhealthy
        let du := du.AppendLevel warningLevel
        let msg := "!disk check error occurred! failed to prune docker system"
        let du := du.SendMessage rt "anger" msg
        du.SetError (errorsWrap err "failed to prune docker system")
      | .ok r =>
        let du := { du with fields := { du.fields with ReclaimedCap := r } }
        let du := du.SetMessage
          "pruned docker system as current disk capacity is less than the minimum"
        let again := dsa.GetRemainDiskCapacity (callsOf .GetRemainDiskCapacity du.trace)
        let du := du.log .GetRemainDiskCapacity
        match again with
        | .error err =>
          let du := du.setStatus .Unhealthy
          let du := du.AppendLevel errorLevel
          let msg := "!disk check error occurred! failed to again get disk capacity, " ++
            "please check for yourself"
          let du := du.SendMessage rt "broken_heart" msg
          du.SetError (errorsWrap err "failed to again get remain disk capacity")
        | .ok _againRemainCap =>
          let againRemainCap : bytesizeComparator := { V := _againRemainCap }
          if againRemainCap.isMoreThan cfg.DiskMinCapacity then
            let du := du.setStatus .Healthy
            let msg := "!disk check is healthy by pruning! remain capacity - " ++
              rt.fmtByteSize againRemainCap.V
            du.SendMessage rt "heart" msg
          else
            let du := du.setStatus .Unhealthy
            let msg := "!disk check has deteriorated! please check for yourself"
            du.SendMessage rt "broken_heart" msg
    else
      let du := du.SetLevel healthyLevel
      du.SetMessage "disk system is healthy now"

/-- Method `checkDisk` of `diskCheckUsecase`, entered with `status` in the usecase. -/
def checkDisk (cfg : diskCheckUsecaseConfig) (rt : Runtime) (dsa : diskSysAgency)
    (status : CheckStatus) : Tick DiskCheckFields :=
  let du : Tick DiskCheckFields := Tick.start rt "syscheck" "disk" status {}
  let probe := dsa.GetRemainDiskCapacity (callsOf .GetRemainDiskCapacity du.trace)
  let du := du.log .GetRemainDiskCapacity
  match probe with
  | .error err =>
    let du := du.SetLevel errorLevel
    let du := du.SetError (errorsWrap err "failed to get disk capacity")
    let msg := "!disk check error occurred! unable to get remain disk capacity"
    du.SendAlarm rt "x" msg
  | .ok _remainCap => checkDiskProbed cfg rt dsa du _remainCap

/-! ## Elasticsearch check (`srvcheck/usecase/srvcheck_elasticsearch_ucase.go`) -/

/-- The Go `int` congruent to `x` modulo 2^64: an `int` is 64 bits wide on the platforms
the daemon is built for, from -2^63 = -9223372036854775808 to 2^63 - 1, and arithmetic
that leaves the range wraps around. -/
def intWrap (x : Int) : Int :=
  (x + 9223372036854775808) % 18446744073709551616 - 9223372036854775808

/-- The Go expression `a + b` on `int` values. -/
def intAdd (a b : Int) : Int := intWrap (a + b)

/-- Config getters of `elasticsearchCheckUsecaseConfig` (constant during a tick). -/
structure elasticsearchCheckUsecaseConfig where
  MaximumShardsNumber : Int
  JaegerIndexPattern : String
  JaegerIndexMinLifeCycle : Nat

/-- Cluster health view returned by `GetClusterHealth`. -/
structure ClusterHealth where
  ActivePrimaryShards : Int
  ActiveShards : Int
  UnassignedShards : Int
  ActiveShardsPercent : Rat
  deriving DecidableEq

/-- Indices view returned by `GetIndicesWithPatterns`: the min life cycle set so far and
the index names it lists, which may depend on the number of earlier `IndexNames` calls on
the view and on the life cycle set. -/
structure Indices where
  cycle : Option Nat := none
  names : Nat → Option Nat → List String

def Indices.SetMinLifeCycle (indices : Indices) (cycle : Nat) : Indices :=
  { indices with cycle := some cycle }

/-- Method `IndexNames` of the view; `n` is the number of earlier calls of the method on
this view. -/
def Indices.IndexNames (indices : Indices) (n : Nat) : List String :=
  indices.names n indices.cycle

/-- Interface `elasticsearchAgency`; the first argument of a method is the number of
earlier calls of that method in the tick. -/
structure elasticsearchAgency where
  GetClusterHealth : Nat → Except String ClusterHealth
  GetIndicesWithPatterns : Nat → List String → Except String Indices
  DeleteIndices : Nat → List String → Option String

/-- Check-specific fields of `ElasticsearchCheckHistory`. -/
structure ElasticsearchCheckFields where
  ActivePrimaryShards : Int := 0
  ActiveShards : Int := 0
  UnassignedShards : Int := 0
  ActiveShardsPercent : Rat := 0
  IfJaegerIndexDeleted : Bool := false
  DeletedJaegerIndices : List String := []
  deriving DecidableEq

/-- Modelled from the spec: `SetClusterHealth` is declared with the history type, outside
the sources; it stores the four values of the cluster health view in the record. -/
def ElasticsearchCheckFields.SetClusterHealth (f : ElasticsearchCheckFields)
    (cluster : ClusterHealth) : ElasticsearchCheckFields :=
  { f with
    ActivePrimaryShards := cluster.ActivePrimaryShards
    ActiveShards := cluster.ActiveShards
    UnassignedShards := cluster.UnassignedShards
    ActiveShardsPercent := cluster.ActiveShardsPercent }

/-- Method `checkElasticsearch`, from the statement after the first probe succeeded. -/
def checkElasticsearchProbed (cfg : elasticsearchCheckUsecaseConfig) (rt : Runtime)
    (ea : elasticsearchAgency) (ecu : Tick ElasticsearchCheckFields)
    (cluster : ClusterHealth) : Tick ElasticsearchCheckFields :=
  let ecu := { ecu with fields := ecu.fields.SetClusterHealth cluster }
  let totalShards : intComparator := { V := intAdd cluster.ActiveShards cluster.UnassignedShards }
  match ecu.status with
  | .Recovering =>
    (ecu.SetLevel recoveringLevel).SetMessage
      "recovering elasticsearch health is already on process"
  | .Unhealthy =>
    if totalShards.isLessThan cfg.MaximumShardsNumber then
      let ecu := ecu.setStatus .Healthy
      let ecu := ecu.SetLevel recoveredLevel
      let ecu := ecu.SetMessage "elasticsearch check is recovered to be healthy"
      let msg := "!elasticsearch check recovered to health! total shards - " ++
        toString totalShards.V
      ecu.SendMessage rt "heart" msg
    else
      let ecu := ecu.SetLevel unhealthyLevel
      ecu.SetMessage "elasticsearch check is unhealthy now"
  | .Healthy =>
    if totalShards.isMoreThan cfg.MaximumShardsNumber then
      let ecu := ecu.setStatus .Recovering
      let ecu := ecu.SetLevel weakDetectedLevel
      let msg := "!elasticsearch check weak detected! start to delete jaeger index"
      let ecu := ecu.SendAlarm rt "pill" msg
      let got := ea.GetIndicesWithPatterns (callsOf .GetIndicesWithPatterns ecu.trace)
        [cfg.JaegerIndexPattern]
      let ecu := ecu.log (.GetIndicesWithPatterns [cfg.JaegerIndexPattern])
      match got with
      | .error err =>
        let ecu := ecu.setStatus .Unhealthy
        let ecu := ecu.AppendLevel errorLevel
        let msg := "!elasticsearch check error occurred! failed to get indices, " ++
          "please check for yourself"
        let ecu := ecu.SendMessage rt "broken_heart" msg
        ecu.SetError (errorsWrap err "failed to get indices with pattern")
      | .ok indices =>
        let indices := indices.SetMinLifeCycle cfg.JaegerIndexMinLifeCycle
        let ecu := ecu.log (.SetMinLifeCycle cfg.JaegerIndexMinLifeCycle)
        let ecu := ecu.log .IndexNames
        let deleted := ea.DeleteIndices (callsOf .DeleteIndices ecu.trace)
          (indices.IndexNames 0)
        let ecu := ecu.log (.DeleteIndices (indices.IndexNames 0))
        match deleted with
        | some err =>
          let ecu := ecu.setStatus .Unhealthy
          let ecu := ecu.AppendLevel errorLevel
          let msg := "!elasticsearch check error occurred! failed to delete indices, " ++
            "please check for yourself"
          let ecu := ecu.SendMessage rt "anger" msg
          ecu.SetError (errorsWrap err "failed to delete indices")
        | none =>
          let ecu := ecu.log .IndexNames
          let ecu := { ecu with fields := { ecu.fields with
            IfJaegerIndexDeleted := true
            DeletedJaegerIndices := indices.IndexNames 1 } }
          let ecu := ecu.SetMessage
            "pruned docker system as current disk capacity is less than the minimum"
          let again := ea.GetClusterHealth (callsOf .GetClusterHealth ecu.trace)
          let ecu := ecu.log .GetClusterHealth
          match again with
          | .error err =>
            let ecu := ecu.setStatus .Unhealthy
            let ecu := ecu.AppendLevel errorLevel
            let msg := "!elasticsearch check error occurred! failed to again get " ++
              "cluster health, please check for yourself"
            let ecu := ecu.SendMessage rt "broken_heart" msg
            ecu.SetError (errorsWrap err "failed to again get cluster health again")
          | .ok againCluster =>
            let ecu := { ecu with fields := ecu.fields.SetClusterHealth againCluster }
            let againTotalShards : intComparator :=
              { V := intAdd againCluster.ActiveShards againCluster.UnassignedShards }
            if againTotalShards.isLessThan cfg.MaximumShardsNumber then
              let ecu := ecu.setStatus .Healthy
              let msg := "!elasticsearch check is recovered! total shards - " ++
                toString againTotalShards.V
              ecu.SendMessage rt "heart" msg
            else
              let ecu := ecu.setStatus .Unhealthy
              let msg := "!elasticsearch check has deteriorated! please check for yourself"
              ecu.SendMessage rt "broken_heart" msg
    else
      let ecu := ecu.SetLevel healthyLevel
      ecu.SetMessage "elasticsearch service is healthy now"

/-- Method `checkElasticsearch` of `elasticsearchCheckUsecase`, entered with `status`. -/
def checkElasticsearch (cfg : elasticsearchCheckUsecaseConfig) (rt : Runtime)
    (ea : elasticsearchAgency) (status : CheckStatus) : Tick ElasticsearchCheckFields :=
  let ecu : Tick ElasticsearchCheckFields := Tick.start rt "srvcheck" "elasticsearch" status {}
  let probe := ea.GetClusterHealth (callsOf .GetClusterHealth ecu.trace)
  let ecu := ecu.log .GetClusterHealth
  match probe with
  | .error err =>
    let ecu := ecu.SetLevel errorLevel
    let ecu := ecu.SetError (errorsWrap err "failed to get cluster health")
    let msg := "!elasticsearch check error occurred! unable to get cluster health"
    ecu.SendAlarm rt "x" msg
  | .ok cluster => checkElasticsearchProbed cfg rt ea ecu cluster

/-! ## Docker agency (`srvcheck/usecase/srvcheck.go`) -/

/-- Container view returned by `GetContainerWithServiceName`. -/
structure Container where
  ID : String
  MemoryUsage : Nat
  deriving DecidableEq, Repr

/-- The docker type `types.ContainerRemoveOptions`. -/
structure ContainerRemoveOptions where
  RemoveVolumes : Bool := false
  RemoveLinks : Bool := false
  Force : Bool := false
  deriving DecidableEq, Repr

/-- Interface `dockerAgency`; the first argument of a method is the number of earlier
calls of that method in the tick. -/
structure dockerAgency where
  GetContainerWithServiceName : Nat → String → Except String Container
  RemoveContainer : Nat → String → ContainerRemoveOptions → Option String

/-! ## Swarmpit check (`srvcheck/usecase/srvcheck_swarmpit_ucase.go`) -/

/-- Config getters of `swarmpitCheckUsecaseConfig` (constant during a tick). -/
structure swarmpitCheckUsecaseConfig where
  SwarmpitAppServiceName : String
  SwarmpitAppMaxMemoryUsage : Nat

/-- Check-specific fields of `SwarmpitCheckHistory`. -/
structure SwarmpitCheckFields where
  SwarmpitAppMemoryUsage : Nat := 0
  IfSwarmpitAppRestarted : Bool := false
  deriving DecidableEq, Repr

/-- Method `checkSwarmpit`, from the statement after the probe succeeded. -/
def checkSwarmpitProbed (cfg : swarmpitCheckUsecaseConfig) (rt : Runtime) (da : dockerAgency)
    (scu : Tick SwarmpitCheckFields) (ctn : Container) : Tick SwarmpitCheckFields :=
  let scu := { scu with fields := { scu.fields with SwarmpitAppMemoryUsage := ctn.MemoryUsage } }
  let memoryUsage : bytesizeComparator := { V := ctn.MemoryUsage }
  match scu.status with
  | .Recovering =>
    (scu.SetLevel recoveringLevel).SetMessage "recovering swarmpit health is already on process"
  | .Unhealthy =>
    if memoryUsage.isLessThan cfg.SwarmpitAppMaxMemoryUsage then
      let scu := scu.setStatus .Healthy
      let scu := scu.SetLevel recoveredLevel
      let scu := scu.SetMessage "swarmpit check is recovered to be healthy"
      let msg := "!swarmpit check recovered to health! memory usage - " ++
        rt.fmtByteSize memoryUsage.V
      scu.SendMessage rt "heart" msg
    else
      let scu := scu.SetLevel unhealthyLevel
      scu.SetMessage "swarmpit check is unhealthy now"
  | .Healthy =>
    if memoryUsage.isMoreThan cfg.SwarmpitAppMaxMemoryUsage then
      let scu := scu.setStatus .Recovering
      let scu := scu.SetLevel weakDetectedLevel
      let msg := "!swarmpit check weak detected! start to restart swarmpit app"
      let scu := scu.SendAlarm rt "pill" msg
      let removed := da.RemoveContainer (callsOf .RemoveContainer scu.trace) ctn.ID
        { Force := true }
      let scu := scu.log (.RemoveContainer ctn.ID true)
      match removed with
      | some err =>
        let scu := scu.setStatus .Unhealthy
        let scu := scu.AppendLevel errorLevel
        let msg := "!swarmpit check error occurred! failed to remove swarmpit app, " ++
          "please check for yourself"
        let scu := scu.SendMessage rt "anger" msg
        scu.SetError (errorsWrap err "failed to remove swarmpit app")
      | none =>
        let scu := scu.setStatus .Healthy
        let scu := { scu with fields := { scu.fields with IfSwarmpitAppRestarted := true } }
        let scu := scu.SetMessage
          "restart swarmpit app as swarmpit app memory usage is more than the maximum"
        let msg := "!swarmpit check is recovered! succeed to restart swarmpit app"
        scu.SendMessage rt "heart" msg
    else
      let scu := scu.SetLevel healthyLevel
      scu.SetMessage "swarmpit service is healthy now"

/-- Method `checkSwarmpit` of `swarmpitCheckUsecase`, entered with `status`. -/
def checkSwarmpit (cfg : swarmpitCheckUsecaseConfig) (rt : Runtime) (da : dockerAgency)
    (status : CheckStatus) : Tick SwarmpitCheckFields :=
  let scu : Tick SwarmpitCheckFields := Tick.start rt "srvcheck" "swarmpit" status {}
  let probe := da.GetContainerWithServiceName (callsOf .GetContainerWithServiceName scu.trace)
    cfg.SwarmpitAppServiceName
  let scu := scu.log (.GetContainerWithServiceName cfg.SwarmpitAppServiceName)
  match probe with
  | .error err =>
    let scu := scu.SetLevel errorLevel
    let scu := scu.SetError (errorsWrap err "failed to get swarmpit app docker container")
    let msg := "!swarmpit check error occurred! unable to get swarmpit app container"
    scu.SendAlarm rt "x" msg
  | .ok ctn => checkSwarmpitProbed cfg rt da scu ctn

/-! ## Consul check (`srvcheck/usecase/srvcheck_consul_ucase.go`) -/

/-- A Go `map[string][]T`, kept as an association list in insertion order. -/
abbrev GoMap (α : Type) := List (String × List α)

namespace GoMap

variable {α : Type}

/-- The test `_, ok := m[k]`. -/
def has (m : GoMap α) (k : String) : Bool := (List.lookup k m).isSome

/-- The read `m[k]`, the nil slice when the key is missing. -/
def index (m : GoMap α) (k : String) : List α := (List.lookup k m).getD []

/-- The write `m[k] = v`. -/
def assign : GoMap α → String → List α → GoMap α
  | [], k, v => [(k, v)]
  | (k0, v0) :: rest, k, v =>
    if k == k0 then (k0, v) :: rest else (k0, v0) :: assign rest k v

/-- The keys of the map. -/
def keys (m : GoMap α) : List String := m.map Prod.fst

end GoMap

/-- Order in which a `for ... range` statement visits the keys of a map: some
rearrangement of the keys, chosen by the Go runtime. -/
abbrev MapRange := (ks : List String) → { l : List String // l.Perm ks }

/-- Config getters of `consulCheckUsecaseConfig` (constant during a tick). -/
structure consulCheckUsecaseConfig where
  CheckTargetServices : List String
  ConsulServiceNameSpace : String
  DockerServiceNameSpace : String
  ConnCheckPingTimeOut : Nat

/-- An element `struct{ id, addr string }` of a service iterator. -/
structure Instance where
  id : String
  addr : String
  deriving DecidableEq, Repr

/-- Interface `consulAgency`; the first argument of a method is the number of earlier
calls of that method in the tick. The iterator answered by `GetServices` is the finite
list of the `(id, addr)` pairs that `HasNext`/`Next` enumerate. -/
structure consulAgency where
  GetServices : Nat → String → Except String (List Instance)
  DeregisterInstance : Nat → String → Option String

/-- What the usecase observes of one ping: whether the deadline context `toCtx` has an
error after the call (the ping timed out), and the error returned by the call. -/
structure PingOutcome where
  ctxErr : Bool
  err : Option String
  deriving DecidableEq, Repr

/-- Interface `gRPCAgency`: call number, timeout of the context, target address. -/
structure gRPCAgency where
  PingToCheckConn : Nat → Nat → String → PingOutcome

/-- Check-specific fields of `ConsulCheckHistory`. -/
structure ConsulCheckFields where
  InstancesPerService : GoMap String := []
  IfInstanceDeregistered : Bool := false
  IfContainerRestarted : Bool := false
  DeregisteredInstances : List String := []
  DeregisterFailedInstances : List String := []
  deriving DecidableEq, Repr

/-- Outcome of a part of a method body: the method executed `return`, or control goes
on to the next statement with the local variables `a`. -/
inductive Flow (P α : Type)
  | returned (t : Tick P)
  | next (t : Tick P) (a : α)

/-- First loop of `checkConsul`: over `CheckTargetServices()`, filling
`history.InstancesPerService` and the local map `srvM`. The inner loop over the
iterator appends its elements one by one, which is the concatenation written here. -/
def consulGetServices (cfg : consulCheckUsecaseConfig) (rt : Runtime) (ca : consulAgency) :
    List String → Tick ConsulCheckFields → GoMap Instance →
    Flow ConsulCheckFields (GoMap Instance)
  | [], ccu, srvM => .next ccu srvM
  | srv :: rest, ccu, srvM =>
    let cslSrv := cfg.ConsulServiceNameSpace ++ srv
    let got := ca.GetServices (callsOf .GetServices ccu.trace) cslSrv
    let ccu := ccu.log (.GetServices cslSrv)
    match got with
    | .error err =>
      let ccu := ccu.SetLevel errorLevel
      let ccu := ccu.SetError (errorsWrap err "failed to get services in consul")
      let msg := "!consul check error occurred! unable to get services in consul"
      .returned (ccu.SendAlarm rt "x" msg)
    | .ok iter =>
      let ips := ccu.fields.InstancesPerService
      let ips := if ips.has cslSrv then ips else ips.assign cslSrv []
      let srvM := if srvM.has cslSrv then srvM else srvM.assign cslSrv []
      let ips := ips.assign cslSrv (ips.index cslSrv ++ iter.map Instance.id)
      let srvM := srvM.assign cslSrv (srvM.index cslSrv ++ iter)
      let ccu := { ccu with fields := { ccu.fields with InstancesPerService := ips } }
      consulGetServices cfg rt ca rest ccu srvM

/-- Inner ping loop of `checkConsul`, over the instances of one service. -/
def consulPingInstances (cfg : consulCheckUsecaseConfig) (ga : gRPCAgency) :
    List Instance → Tick ConsulCheckFields → List String →
    Flow ConsulCheckFields (List String)
  | [], ccu, unableSrvIDs => .next ccu unableSrvIDs
  | srv :: rest, ccu, unableSrvIDs =>
    let out := ga.PingToCheckConn (callsOf .PingToCheckConn ccu.trace)
      cfg.ConnCheckPingTimeOut srv.addr
    let ccu := ccu.log (.PingToCheckConn cfg.ConnCheckPingTimeOut srv.addr)
    if out.ctxErr then
      consulPingInstances cfg ga rest ccu (unableSrvIDs ++ [srv.id])
    else
      match out.err with
      | some err =>
        let ccu := ccu.SetLevel errorLevel
        .returned (ccu.SetError
          (errorsWrap err ("failed to ping connection check, id: " ++ srv.id)))
      | none => consulPingInstances cfg ga rest ccu unableSrvIDs

/-- Outer ping loop of `checkConsul`, over the keys of `srvM` in the order `ks`. -/
def consulPingServices (cfg : consulCheckUsecaseConfig) (ga : gRPCAgency)
    (srvM : GoMap Instance) :
    List String → Tick ConsulCheckFields → List String →
    Flow ConsulCheckFields (List String)
  | [], ccu, unableSrvIDs => .next ccu unableSrvIDs
  | k :: ks, ccu, unableSrvIDs =>
    match consulPingInstances cfg ga (srvM.index k) ccu unableSrvIDs with
    | .returned t => .returned t
    | .next ccu unableSrvIDs => consulPingServices cfg ga srvM ks ccu unableSrvIDs

/-- Deregistration loop of `checkConsul`, with the locals `successIDs`, `failIDs`. -/
def consulDeregister (rt : Runtime) (ca : consulAgency) :
    List String → Tick ConsulCheckFields → List String → List String →
    Tick ConsulCheckFields × List String × List String
  | [], ccu, successIDs, failIDs => (ccu, successIDs, failIDs)
  | srvID :: rest, ccu, successIDs, failIDs =>
    let res := ca.DeregisterInstance (callsOf .DeregisterInstance ccu.trace) srvID
    let ccu := ccu.log (.DeregisterInstance srvID)
    match res with
    | some err =>
      let failIDs := failIDs ++ [srvID]
      let ccu := ccu.AppendLevel errorLevel
      let msg := "!consul check error occurred! failed to deregister service, id: " ++
        srvID ++ ", err: " ++ err
      let ccu := ccu.SendMessage rt "broken_heart" msg
      let ccu := ccu.SetError (errorsWrap err "failed to deregister service")
      consulDeregister rt ca rest ccu successIDs failIDs
    | none => consulDeregister rt ca rest ccu (successIDs ++ [srvID]) failIDs

/-- Container restart loop of `checkConsul`, with the locals `successSrvs`, `failSrvs`. -/
def consulRestart (rt : Runtime) (da : dockerAgency) :
    List String → Tick ConsulCheckFields → List String → List String →
    Tick ConsulCheckFields × List String × List String
  | [], ccu, successSrvs, failSrvs => (ccu, successSrvs, failSrvs)
  | srv :: rest, ccu, successSrvs, failSrvs =>
    let got := da.GetContainerWithServiceName
      (callsOf .GetContainerWithServiceName ccu.trace) srv
    let ccu := ccu.log (.GetContainerWithServiceName srv)
    match got with
    | .error err =>
      let failSrvs := failSrvs ++ [srv]
      let ccu := ccu.AppendLevel errorLevel
      let msg := "!consul check error occurred! failed to get container, srv: " ++
        srv ++ ", err: " ++ err
      let ccu := ccu.SendMessage rt "broken_heart" msg
      let ccu := ccu.SetError (errorsWrap err "failed to get container")
      consulRestart rt da rest ccu successSrvs failSrvs
    | .ok container =>
      let res := da.RemoveContainer (callsOf .RemoveContainer ccu.trace) container.ID
        { Force := true }
      let ccu := ccu.log (.RemoveContainer container.ID true)
      match res with
      | some err =>
        let failSrvs := failSrvs ++ [srv]
        let ccu := ccu.AppendLevel errorLevel
        let msg := "!consul check error occurred! failed to restart container, id: " ++
          container.ID ++ ", err: " ++ err
        let ccu := ccu.SendMessage rt "broken_heart" msg
        let ccu := ccu.SetError (errorsWrap err "failed to restart container")
        consulRestart rt da rest ccu successSrvs failSrvs
      | none => consulRestart rt da rest ccu (successSrvs ++ [srv]) failSrvs

/-- The local `unableSrvs` of `checkConsul`: the docker service name of every target
service whose entry in `srvM` has length 0, in the order of `CheckTargetServices()`. -/
def consulUnableSrvs (cfg : consulCheckUsecaseConfig) (srvM : GoMap Instance) : List String :=
  (cfg.CheckTargetServices.filter
    (fun srv => (srvM.index (cfg.ConsulServiceNameSpace ++ srv)).length == 0)).map
    (fun srv => cfg.DockerServiceNameSpace ++ srv)

/-- Method `checkConsul`, from the comment `recover(deregister) if any connection unable
service is exist` on, with the locals `srvM` and `unableSrvIDs` of the probes. -/
def checkConsulProbed (cfg : consulCheckUsecaseConfig) (rt : Runtime) (ca : consulAgency)
    (da : dockerAgency) (ccu : Tick ConsulCheckFields) (srvM : GoMap Instance)
    (unableSrvIDs : List String) : Tick ConsulCheckFields :=
  if unableSrvIDs.length > 0 then
    let ccu := ccu.setStatus .Recovering
    let ccu := ccu.SetLevel weakDetectedLevel
    let ccu := ccu.SetMessage
      "deregistered services in consul which is unable to check connection pick"
    let msg := "!consul check weak detected! start to deregister unable services"
    let ccu := ccu.SendAlarm rt "pill" msg
    let ccu := { ccu with fields := { ccu.fields with IfInstanceDeregistered := true } }
    match consulDeregister rt ca unableSrvIDs ccu [] [] with
    | (ccu, successIDs, failIDs) =>
      let ccu := { ccu with fields := { ccu.fields with
        DeregisteredInstances := successIDs
        DeregisterFailedInstances := failIDs } }
      ccu.setStatus .Healthy
  else
    let unableSrvs := consulUnableSrvs cfg srvM
    let ccu :=
      if unableSrvs.length > 0 then
        let ccu := ccu.setStatus .Recovering
        let ccu := ccu.SetLevel weakDetectedLevel
        let ccu := ccu.SetMessage
          "restart container in docker which is don't have any instances in consul"
        let msg := "!consul check weak detected! start to restart container"
        let ccu := ccu.SendAlarm rt "pill" msg
        let ccu := { ccu with fields := { ccu.fields with IfContainerRestarted := true } }
        match consulRestart rt da unableSrvs ccu [] [] with
        | (ccu, successSrvs, failSrvs) =>
          let ccu := { ccu with fields := { ccu.fields with
            DeregisteredInstances := successSrvs
            DeregisterFailedInstances := failSrvs } }
          ccu.setStatus .Healthy
      else ccu
    ccu.SetLevel healthyLevel

/-- Method `checkConsul` of `consulCheckUsecase`, entered with `status`; `range` is the
order in which the ping loop visits the keys of `srvM`. -/
def checkConsul (cfg : consulCheckUsecaseConfig) (rt : Runtime) (ca : consulAgency)
    (ga : gRPCAgency) (da : dockerAgency) (range : MapRange) (status : CheckStatus) :
    Tick ConsulCheckFields :=
  let ccu : Tick ConsulCheckFields := Tick.start rt "srvcheck" "consul" status {}
  match ccu.status with
  | .Recovering =>
    (ccu.SetLevel recoveringLevel).SetMessage "recovering consul health is already on process"
  | .Unhealthy =>
    (ccu.SetLevel unhealthyLevel).SetMessage "consul check is unhealthy now"
  | .Healthy =>
    match consulGetServices cfg rt ca cfg.CheckTargetServices ccu [] with
    | .returned t => t
    | .next ccu srvM =>
      match consulPingServices cfg ga srvM (range srvM.keys).val ccu [] with
      | .returned t => t
      | .next ccu unableSrvIDs => checkConsulProbed cfg rt ca da ccu srvM unableSrvIDs

/-! ## Observations on a tick -/

/-- The statuses written by the `setStatus` calls of a trace, in order. -/
def statusWrites : List Event → List CheckStatus
  | [] => []
  | .setStatus s :: rest => s :: statusWrites rest
  | _ :: rest => statusWrites rest

/-- The emojis of the chat messages sent in a trace, in order. -/
def sentEmojis : List Event → List String
  | [] => []
  | .SendMessage emoji _ _ :: rest => emoji :: sentEmojis rest
  | _ :: rest => sentEmojis rest

/-- Calls of the remediation-class agency methods: `PruneDockerSystem`,
`GetIndicesWithPatterns`, `DeleteIndices`, `RemoveContainer`, `DeregisterInstance`. -/
def Event.isRemediation : Event → Bool
  | .PruneDockerSystem => true
  | .GetIndicesWithPatterns _ => true
  | .DeleteIndices _ => true
  | .RemoveContainer _ _ => true
  | .DeregisterInstance _ => true
  | _ => false

/-- Calls of the probe agency methods: `GetRemainDiskCapacity`, `GetClusterHealth`,
`GetContainerWithServiceName`, `GetServices`, `PingToCheckConn`. -/
def Event.isProbe : Event → Bool
  | .GetRemainDiskCapacity => true
  | .GetClusterHealth => true
  | .GetContainerWithServiceName _ => true
  | .GetServices _ => true
  | .PingToCheckConn _ _ => true
  | _ => false

/-! ## Sample surroundings, used to run the checks on concrete inputs -/

def GiB : Nat := 1024 * 1024 * 1024

/-- A chat agency that stamps the call number as time and echoes the text. -/
def sampleRuntime : Runtime :=
  { version := "v.1.0.0"
    now := 1
    uuid := "uuid-0"
    SendMessage := fun n _ text _ => (100 + n, text, none)
    fmtByteSize := fun v => toString v ++ "B" }

/-- Disk agency answering the probes with `first` and then `again`, and the prune
with `pruned`. -/
def sampleDisk (first again pruned : Except String Nat) : diskSysAgency :=
  { GetRemainDiskCapacity := fun n => if n = 0 then first else again
    PruneDockerSystem := fun _ => pruned }

/-- Elasticsearch agency reporting `active` active and `unassigned` unassigned shards. -/
def sampleElasticsearch (active unassigned : Int) : elasticsearchAgency :=
  { GetClusterHealth := fun _ =>
      .ok { ActivePrimaryShards := active, ActiveShards := active,
            UnassignedShards := unassigned, ActiveShardsPercent := 100 }
    GetIndicesWithPatterns := fun _ _ => .ok { names := fun _ _ => [] }
    DeleteIndices := fun _ _ => none }

/-- Docker agency whose containers use `usage` bytes of memory and cannot be removed. -/
def sampleDocker (usage : Nat) : dockerAgency :=
  { GetContainerWithServiceName := fun _ srv => .ok { ID := "id-" ++ srv, MemoryUsage := usage }
    RemoveContainer := fun _ _ _ => some "removal refused" }

def sampleElasticsearchConfig : elasticsearchCheckUsecaseConfig :=
  { MaximumShardsNumber := 900, JaegerIndexPattern := "jaeger-*", JaegerIndexMinLifeCycle := 720 }

def sampleSwarmpitConfig : swarmpitCheckUsecaseConfig :=
  { SwarmpitAppServiceName := "swarmpit_app", SwarmpitAppMaxMemoryUsage := 4 * GiB }

def sampleConsulConfig : consulCheckUsecaseConfig :=
  { CheckTargetServices := ["auth"]
    ConsulServiceNameSpace := "DMS.SMS.v1.service."
    DockerServiceNameSpace := "DSM_SMS_service-"
    ConnCheckPingTimeOut := 5 }

/-- Consul agency answering every `GetServices` with `answer`. -/
def sampleConsul (answer : Except String (List Instance)) : consulAgency :=
  { GetServices := fun _ _ => answer
    DeregisterInstance := fun _ _ => none }

/-- A gRPC agency whose every ping succeeds before the deadline. -/
def sampleGRPC : gRPCAgency :=
  { PingToCheckConn := fun _ _ _ => { ctxErr := false, err := none } }

/-- The map range order that visits the keys in insertion order. -/
def sampleRange : MapRange := fun ks => ⟨ks, List.Perm.refl ks⟩

/-! ## Further samples, observations and the quantities the Consul claims speak of -/

/-- Elasticsearch agency whose first cluster health reports `first` and whose later ones
report `again` (active and unassigned shards), listing one jaeger index to delete. -/
def sampleElasticsearchThen (first again : Int × Int) : elasticsearchAgency :=
  { GetClusterHealth := fun n =>
      if n = 0 then
        .ok { ActivePrimaryShards := first.1, ActiveShards := first.1,
              UnassignedShards := first.2, ActiveShardsPercent := 100 }
      else
        .ok { ActivePrimaryShards := again.1, ActiveShards := again.1,
              UnassignedShards := again.2, ActiveShardsPercent := 100 }
    GetIndicesWithPatterns := fun _ _ => .ok { names := fun _ _ => ["jaeger-span-2020-01-01"] }
    DeleteIndices := fun _ _ => none }

/-- The probe and remediation calls of a trace, in order. -/
def agencyWork (trace : List Event) : List Event :=
  trace.filter (fun e => e.isProbe || e.isRemediation)

/-- The service names passed to `GetContainerWithServiceName` in a trace, in order. -/
def lookupCalls : List Event → List String
  | [] => []
  | .GetContainerWithServiceName srv :: rest => srv :: lookupCalls rest
  | _ :: rest => lookupCalls rest

/-- The container ids and force flags passed to `RemoveContainer` in a trace, in order. -/
def removeCalls : List Event → List (String × Bool)
  | [] => []
  | .RemoveContainer containerID force :: rest => (containerID, force) :: removeCalls rest
  | _ :: rest => removeCalls rest

/-- The instance ids passed to `DeregisterInstance` in a trace, in order. -/
def deregisterCalls : List Event → List String
  | [] => []
  | .DeregisterInstance id :: rest => id :: deregisterCalls rest
  | _ :: rest => deregisterCalls rest

/-- Docker agency whose containers use `usage` bytes of memory and are removed on request. -/
def sampleDockerOk (usage : Nat) : dockerAgency :=
  { GetContainerWithServiceName := fun _ srv => .ok { ID := "id-" ++ srv, MemoryUsage := usage }
    RemoveContainer := fun _ _ _ => none }

/-- The local map `srvM` that the first loop of `checkConsul` builds in a tick entered
HEALTHY, when every `GetServices` call of the loop succeeds. -/
def consulSrvM (cfg : consulCheckUsecaseConfig) (rt : Runtime) (ca : consulAgency) :
    Option (GoMap Instance) :=
  match consulGetServices cfg rt ca cfg.CheckTargetServices
    (Tick.start rt "srvcheck" "consul" .Healthy {}) [] with
  | .next _ srvM => some srvM
  | .returned _ => none

/-- The instances the ping loops visit, in order, when the keys of `srvM` are ranged
over in the order `ks`. -/
def pingTargets (srvM : GoMap Instance) (ks : List String) : List Instance :=
  (ks.map srvM.index).flatten

/-- Ids of the instances of `l` whose ping times out, the pings being numbered from `n`. -/
def timedOutIDs (cfg : consulCheckUsecaseConfig) (ga : gRPCAgency) :
    Nat → List Instance → List String
  | _, [] => []
  | n, srv :: rest =>
    if (ga.PingToCheckConn n cfg.ConnCheckPingTimeOut srv.addr).ctxErr then
      srv.id :: timedOutIDs cfg ga (n + 1) rest
    else timedOutIDs cfg ga (n + 1) rest

/-- No ping of the instances of `l`, numbered from `n`, returns an error without timing
out. -/
def noPingError (cfg : consulCheckUsecaseConfig) (ga : gRPCAgency) :
    Nat → List Instance → Bool
  | _, [] => true
  | n, srv :: rest =>
    ((ga.PingToCheckConn n cfg.ConnCheckPingTimeOut srv.addr).ctxErr ||
      (ga.PingToCheckConn n cfg.ConnCheckPingTimeOut srv.addr).err.isNone) &&
    noPingError cfg ga (n + 1) rest

/-- The ids of `l` whose deregistration succeeds, the calls being numbered from `n`. -/
def deregisterSucceeded (ca : consulAgency) : Nat → List String → List String
  | _, [] => []
  | n, id :: rest =>
    if (ca.DeregisterInstance n id).isNone then id :: deregisterSucceeded ca (n + 1) rest
    else deregisterSucceeded ca (n + 1) rest

/-- The ids of `l` whose deregistration fails, the calls being numbered from `n`. -/
def deregisterFailed (ca : consulAgency) : Nat → List String → List String
  | _, [] => []
  | n, id :: rest =>
    if (ca.DeregisterInstance n id).isNone then deregisterFailed ca (n + 1) rest
    else id :: deregisterFailed ca (n + 1) rest

/-- The ids of the containers found for the services of `l`, the lookups being numbered
from `n`. -/
def foundContainers (da : dockerAgency) : Nat → List String → List String
  | _, [] => []
  | n, srv :: rest =>
    match da.GetContainerWithServiceName n srv with
    | .ok container => container.ID :: foundContainers da (n + 1) rest
    | .error _ => foundContainers da (n + 1) rest

/-- A gRPC agency whose pings to the address `stale` time out and whose other pings
succeed. -/
def sampleGRPCStale (stale : String) : gRPCAgency :=
  { PingToCheckConn := fun _ _ addr =>
      if addr = stale then { ctxErr := true, err := some "context deadline exceeded" }
      else { ctxErr := false, err := none } }

/-- A gRPC agency whose pings to the address `broken` fail at once and whose other pings
time out. -/
def sampleGRPCBroken (broken : String) : gRPCAgency :=
  { PingToCheckConn := fun _ _ addr =>
      if addr = broken then { ctxErr := false, err := some "connection refused" }
      else { ctxErr := true, err := some "context deadline exceeded" } }

/-- The first chat message sent in a trace: emoji, text and uuid. -/
def firstSend : List Event → Option (String × String × String)
  | [] => none
  | .SendMessage emoji text uuid :: _ => some (emoji, text, uuid)
  | _ :: rest => firstSend rest

/-- The answer `(t, _text, err)` of the chat agency to the first chat message of a trace. -/
def firstSendAnswer (rt : Runtime) (trace : List Event) :
    Option (Nat × String × Option String) :=
  (firstSend trace).map (fun m => rt.SendMessage 0 m.1 m.2.1 m.2.2)

/-- The alarm sub-record of a history record, as `(alarmTime, alarmText, alarmErr)`. -/
def serviceCheckHistoryComponent.alarm (sch : serviceCheckHistoryComponent) :
    Nat × String × Option String :=
  (sch.alarmTime, sch.alarmText, sch.alarmErr)

/-- A history record with the values of its alarm time, text and error erased. -/
def serviceCheckHistoryComponent.clearAlarm (sch : serviceCheckHistoryComponent) :
    serviceCheckHistoryComponent :=
  { sch with alarmTime := 0, alarmText := "", alarmErr := none }

/-- Two ticks end alike except for the alarm time, text and error of their records:
same status, same trace of calls, same check-specific fields, same remaining record. -/
def Tick.sameButAlarm {P : Type} (a b : Tick P) : Prop :=
  a.status = b.status ∧ a.trace = b.trace ∧ a.fields = b.fields ∧
  a.history.clearAlarm = b.history.clearAlarm

/-! ## Entry points and the history repository -/

/-- Interface method `Store` of a history repository: handed the record of a tick (common
component and check-specific fields), it answers the response bytes and an error. -/
structure historyRepository (P : Type) where
  Store : serviceCheckHistoryComponent → P → String × Option String

/-- What one call of a public entry point did: the tick it ran, the records it handed to
`historyRepo.Store` in order, and the error it returned to its caller. -/
structure Entry (P : Type) where
  tick : Tick P
  stored : List (serviceCheckHistoryComponent × P)
  err : Option String

/-- Method `CheckDisk` of `diskCheckUsecase`. -/
def CheckDisk (cfg : diskCheckUsecaseConfig) (rt : Runtime) (dsa : diskSysAgency)
    (historyRepo : historyRepository DiskCheckFields) (status : CheckStatus) :
    Entry DiskCheckFields :=
  let history := checkDisk cfg rt dsa status
  match historyRepo.Store history.history history.fields with
  | (b, some err) =>
    { tick := history
      stored := [(history.history, history.fields)]
      err := some (errorsWrap err ("failed to store disk check history, response: " ++ b)) }
  | (_, none) =>
    { tick := history, stored := [(history.history, history.fields)], err := none }

/-- Method `CheckElasticsearch` of `elasticsearchCheckUsecase`; the bare `return` gives the
named result `err`, which is nil there. -/
def CheckElasticsearch (cfg : elasticsearchCheckUsecaseConfig) (rt : Runtime)
    (ea : elasticsearchAgency) (historyRepo : historyRepository ElasticsearchCheckFields)
    (status : CheckStatus) : Entry ElasticsearchCheckFields :=
  let history := checkElasticsearch cfg rt ea status
  match historyRepo.Store history.history history.fields with
  | (b, some err) =>
    { tick := history
      stored := [(history.history, history.fields)]
      err := some (errorsWrap err
        ("failed to store elasticsearch check history, response: " ++ b)) }
  | (_, none) =>
    { tick := history, stored := [(history.history, history.fields)], err := none }

/-- Method `CheckSwarmpit` of `swarmpitCheckUsecase`. -/
def CheckSwarmpit (cfg : swarmpitCheckUsecaseConfig) (rt : Runtime) (da : dockerAgency)
    (historyRepo : historyRepository SwarmpitCheckFields) (status : CheckStatus) :
    Entry SwarmpitCheckFields :=
  let history := checkSwarmpit cfg rt da status
  match historyRepo.Store history.history history.fields with
  | (b, some err) =>
    { tick := history
      stored := [(history.history, history.fields)]
      err := some (errorsWrap err ("failed to store swarmpit check history, response: " ++ b)) }
  | (_, none) =>
    { tick := history, stored := [(history.history, history.fields)], err := none }

/-- Method `CheckConsul` of `consulCheckUsecase`. -/
def CheckConsul (cfg : consulCheckUsecaseConfig) (rt : Runtime) (ca : consulAgency)
    (ga : gRPCAgency) (da : dockerAgency) (range : MapRange)
    (historyRepo : historyRepository ConsulCheckFields) (status : CheckStatus) :
    Entry ConsulCheckFields :=
  let history := checkConsul cfg rt ca ga da range status
  match historyRepo.Store history.history history.fields with
  | (b, some err) =>
    { tick := history
      stored := [(history.history, history.fields)]
      err := some (errorsWrap err ("failed to store consul check history, response: " ++ b)) }
  | (_, none) =>
    { tick := history, stored := [(history.history, history.fields)], err := none }

/-- A repository that refuses every record with the error `refusal`. -/
def sampleRepoRefusing (P : Type) (refusal : String) : historyRepository P :=
  { Store := fun _ _ => ("status 503", some refusal) }

/-- A repository that accepts every record. -/
def sampleRepo (P : Type) : historyRepository P :=
  { Store := fun _ _ => ("status 201", none) }

/-! ## Process level lists built by `Set` and `Append` -/

/-- The loop of method `Append`, as written: scan the elements still to visit for `level`
and return at the first one found; after the loop, append. -/
def appendLoop (pl : srvcheckProcessLevel) (level : String) :
    List String → srvcheckProcessLevel
  | [] => pl ++ [level]
  | l :: rest => if l == level then pl else appendLoop pl level rest

/-- One call on a process level list. -/
inductive LevelOp
  | Set (level : String)
  | Append (level : String)
  deriving DecidableEq, Repr

/-- Effect of one call on the list. -/
def LevelOp.apply (pl : srvcheckProcessLevel) : LevelOp → srvcheckProcessLevel
  | .Set level => pl.Set level
  | .Append level => pl.Append level

/-- The list that a sequence of calls builds from the empty list (the zero value of the
field in a new record). -/
def buildLevels (ops : List LevelOp) : srvcheckProcessLevel :=
  ops.foldl LevelOp.apply []

/-! ## Sequences of ticks -/

/-- The `status` field set by `NewDiskCheckUsecase`. -/
def NewDiskCheckUsecase : CheckStatus := .Healthy

/-- The `status` field set by `NewElasticsearchCheckUsecase`. -/
def NewElasticsearchCheckUsecase : CheckStatus := .Healthy

/-- The `status` field set by `NewSwarmpitCheckUsecase`. -/
def NewSwarmpitCheckUsecase : CheckStatus := .Healthy

/-- The `status` field set by `NewConsulCheckUsecase`. -/
def NewConsulCheckUsecase : CheckStatus := .Healthy

/-- Status a usecase is left with by a sequence of ticks that do not overlap: each tick
is entered with the status the one before left. `step w s` is the status left by the
tick run in the surroundings `w` and entered with status `s`. -/
def statusAfter {W : Type} (step : W → CheckStatus → CheckStatus) :
    List W → CheckStatus → CheckStatus
  | [], s => s
  | w :: ws, s => statusAfter step ws (step w s)

/-- Surroundings of one Consul tick: runtime, Consul, gRPC and Docker agencies, and the
order of the map range. -/
structure ConsulWorld where
  rt : Runtime
  ca : consulAgency
  ga : gRPCAgency
  da : dockerAgency
  range : MapRange

/-! ## Config getters (`syscheck/config/syscheck.go`, `srvcheck/config/srvcheck.go`) -/

/-- A value the config reader holds for a key: a string or an int, the two kinds the
getters below ask for. -/
inductive ConfigValue
  | str (s : String)
  | int (i : Int)
  deriving DecidableEq, Repr

/-- The config reader (`viper`): the value it holds for each key, if any. -/
structure Viper where
  values : String → Option ConfigValue

/-- The call `viper.Get(key)`; `none` is the nil interface of an unset key. -/
def Viper.Get (v : Viper) (key : String) : Option ConfigValue := v.values key

/-- The call `viper.Set(key, value)`. -/
def Viper.Set (v : Viper) (key : String) (value : ConfigValue) : Viper :=
  { values := fun k => if k = key then some value else v.values k }

/-- The call `viper.GetString(key)`: the string held, the decimal numeral of an int, the
empty string for an unset key. -/
def Viper.GetString (v : Viper) (key : String) : String :=
  match v.Get key with
  | some (.str s) => s
  | some (.int i) => toString i
  | none => ""

/-- The call `viper.GetInt(key)`: the int held, the number a held string spells in
decimal (0 when it spells none), 0 for an unset key. -/
def Viper.GetInt (v : Viper) (key : String) : Int :=
  match v.Get key with
  | some (.int i) => i
  | some (.str s) => s.toInt?.getD 0
  | none => 0

/-- The call `strings.Split(s, sep)` for a separator of one character, on the characters
still to read and the characters of the current piece in reverse. -/
def splitChars (sep : Char) : List Char → List Char → List String
  | [], piece => [String.mk piece.reverse]
  | c :: rest, piece =>
    if c = sep then String.mk piece.reverse :: splitChars sep rest []
    else splitChars sep rest (c :: piece)

/-- The call `strings.Split(s, ",")` and its like. -/
def stringsSplit (s : String) (sep : Char) : List String :=
  splitChars sep s.data []

/-- Constant `defaultDiskMinCapacity`, `bytesize.GB * 2` with `bytesize.GB` of 2^30 bytes. -/
def defaultDiskMinCapacity : Nat := GiB * 2

/-- Constant `defaultMaximumShardsNumber`. -/
def defaultMaximumShardsNumber : Int := 900

/-- Constant `defaultCheckTargetServices`. -/
def defaultCheckTargetServices : String := "announcement,auth,club,outing,schedule"

/-- The fields of `syscheckConfig` that `DiskMinCapacity` uses; nil is `none`. -/
structure syscheckConfig where
  diskMinCapacity : Option Nat := none
  deriving DecidableEq, Repr

/-- The fields of `srvcheckConfig` that `MaximumShardsNumber` and `CheckTargetServices`
use; nil is `none`. -/
structure srvcheckConfig where
  maximumShardsNumber : Option Int := none
  checkTargetServices : Option (List String) := none
  deriving DecidableEq, Repr

/-- Method `DiskMinCapacity` of `syscheckConfig`: the value returned, the config after the
call and the reader after the call. `Parse` is `bytesize.Parse` and `fmtByteSize` the
`String` method of a byte size. -/
def syscheckConfig.DiskMinCapacity (sc : syscheckConfig) (viper : Viper)
    (Parse : String → Except String Nat) (fmtByteSize : Nat → String) :
    Nat × syscheckConfig × Viper :=
  let key := "syscheck.diskcheck.minCapacity"
  match sc.diskMinCapacity with
  | some size => (size, sc, viper)
  | none =>
    match Parse (viper.GetString key) with
    | .error _ =>
      let viper := viper.Set key (.str (fmtByteSize defaultDiskMinCapacity))
      let size := defaultDiskMinCapacity
      (size, { sc with diskMinCapacity := some size }, viper)
    | .ok size => (size, { sc with diskMinCapacity := some size }, viper)

/-- Method `MaximumShardsNumber` of `srvcheckConfig`. -/
def srvcheckConfig.MaximumShardsNumber (sc : srvcheckConfig) (viper : Viper) :
    Int × srvcheckConfig × Viper :=
  let key := "srvcheck.elasticsearch.maximumShardsNumber"
  match sc.maximumShardsNumber with
  | none =>
    let viper :=
      match viper.Get key with
      | some (.int _) => viper
      | _ => viper.Set key (.int defaultMaximumShardsNumber)
    (viper.GetInt key, { sc with maximumShardsNumber := some (viper.GetInt key) }, viper)
  | some n => (n, sc, viper)

/-- Method `CheckTargetServices` of `srvcheckConfig`. -/
def srvcheckConfig.CheckTargetServices (sc : srvcheckConfig) (viper : Viper) :
    List String × srvcheckConfig × Viper :=
  let key := "srvcheck.consul.checkTargetServices"
  match sc.checkTargetServices with
  | none =>
    let viper :=
      match viper.Get key with
      | some (.str _) => viper
      | _ => viper.Set key (.str defaultCheckTargetServices)
    let sep := stringsSplit (viper.GetString key) ','
    (sep, { sc with checkTargetServices := some sep }, viper)
  | some sep => (sep, sc, viper)

/-- A config reader that holds the int `shards` for the maximum shards key and nothing
else. -/
def sampleViper (shards : Int) : Viper :=
  { values := fun k =>
      if k = "srvcheck.elasticsearch.maximumShardsNumber" then some (.int shards) else none }

/-! ## CPU probe (`agent/system/agent_cpu.go`) -/

/-- The docker type `types.CPUUsage`, with the two fields the probe reads; `TotalUsage`
is a `uint64` counter, below 2^64. -/
structure CPUUsage where
  TotalUsage : Nat
  PercpuUsage : List Nat
  deriving DecidableEq, Repr

/-- The docker type `types.CPUStats`, with the fields the probe reads; `SystemUsage` is a
`uint64` counter. -/
structure CPUStats where
  CPUUsage : CPUUsage
  SystemUsage : Nat
  deriving DecidableEq, Repr

/-- The docker type `types.StatsJSON`, with the fields the probe reads. -/
structure StatsJSON where
  CPUStats : CPUStats
  PreCPUStats : HealthCheck.CPUStats
  deriving DecidableEq, Repr

/-- The multiple of `2^k` nearest to `x`, the even one of the two on a tie. -/
def roundToEven (x k : Nat) : Nat :=
  if 2 * (x % 2 ^ k) > 2 ^ k ∨ (2 * (x % 2 ^ k) = 2 ^ k ∧ (x / 2 ^ k) % 2 = 1) then
    (x / 2 ^ k + 1) * 2 ^ k
  else x / 2 ^ k * 2 ^ k

/-- Number of low bits of `x` beyond the 53 bits a `float64` keeps: the least `k` with
`x < 2^(53 + k)`, searched up to `fuel`. -/
def excessBits : Nat → Nat → Nat
  | 0, _ => 0
  | fuel + 1, x => if x < 2 ^ 53 then 0 else excessBits fuel (x / 2) + 1

/-- The Go conversion `float64(x)` of a `uint64` value `x`: exact below 2^53, and above it
`x` rounded to 53 significant bits, to nearest and to even on a tie (a `uint64` has at
most 11 bits beyond 53). The result is a whole number. -/
def float64OfUint64 (x : Nat) : Nat :=
  roundToEven x (excessBits 11 x)

/-- Function `getCPUUsagePercentFrom`. The four conversions `float64(...)` of the counters
round as Go does, which decides the branch taken; the subtractions, the division and the
products on the converted values are exact rationals (the rounding of a `float64`
difference keeps its sign, so the test `systemDelta > 0.0 && cpuDelta > 0.0` is the one
of the source). -/
def getCPUUsagePercentFrom (v : StatsJSON) : Rat :=
  let cpuDelta : Rat := (float64OfUint64 v.CPUStats.CPUUsage.TotalUsage : Rat) -
    (float64OfUint64 v.PreCPUStats.CPUUsage.TotalUsage : Rat)
  let systemDelta : Rat := (float64OfUint64 v.CPUStats.SystemUsage : Rat) -
    (float64OfUint64 v.PreCPUStats.SystemUsage : Rat)
  if systemDelta > 0 ∧ cpuDelta > 0 then
    (cpuDelta / systemDelta) * (v.CPUStats.CPUUsage.PercpuUsage.length : Rat) * 100
  else 0

/-- The per-container percent in the words of the specification, over the exact values
of the counters: `(cpuDelta / systemDelta) * number of per-cpu entries * 100` if both
deltas are strictly positive, and 0 otherwise. -/
def percentOverRationals (v : StatsJSON) : Rat :=
  let cpuDelta : Rat := (v.CPUStats.CPUUsage.TotalUsage : Rat) -
    (v.PreCPUStats.CPUUsage.TotalUsage : Rat)
  let systemDelta : Rat := (v.CPUStats.SystemUsage : Rat) - (v.PreCPUStats.SystemUsage : Rat)
  if systemDelta > 0 ∧ cpuDelta > 0 then
    (cpuDelta / systemDelta) * (v.CPUStats.CPUUsage.PercpuUsage.length : Rat) * 100
  else 0

/-- What `GetTotalCPUUsage` uses of its surroundings: the docker client's container
listing (the ids of the containers), its stats call (call number, container id; the
answer is the response body) and the JSON decoding of a body into `StatsJSON`. -/
structure dockerCli where
  ContainerList : Except String (List String)
  ContainerStats : Nat → String → Except String String
  Decode : String → Except String StatsJSON

/-- The `for` loop of `GetTotalCPUUsage` over the containers still to visit, with the
number `n` of stats calls made so far and the running value of `usage`; the result is the
pair `(usage, err)` at the `return` inside the loop or at the end of the loop. The sum is
an exact rational. -/
def totalCPUUsageLoop (cli : dockerCli) : List String → Nat → Rat → Rat × Option String
  | [], _, usage => (usage, none)
  | id :: rest, n, usage =>
    match cli.ContainerStats n id with
    | .error err => (usage, some (errorsWrap err "failed to get container stats from docker"))
    | .ok stats =>
      match cli.Decode stats with
      | .error err =>
        (usage, some (errorsWrap err "failed to decode stats response body to struct"))
      | .ok v => totalCPUUsageLoop cli rest (n + 1) (usage + getCPUUsagePercentFrom v)

/-- Method `GetTotalCPUUsage` of `sysAgent`, with the value of `runtime.NumCPU()` as a
parameter; the result is the pair of named results `(usage, err)`. The scaling by
`cpu_count / 100` is an exact rational. -/
def GetTotalCPUUsage (numCPU : Nat) (cli : dockerCli) : Rat × Option String :=
  match cli.ContainerList with
  | .error err => (0, some (errorsWrap err "failed to get container list from docker"))
  | .ok lists =>
    match totalCPUUsageLoop cli lists 0 0 with
    | (usage, some err) => (usage, some err)
    | (usage, none) => ((numCPU : Rat) / 100 * usage, none)

/-- The stats of the containers `lists`, read and decoded in order with the stats calls
numbered from `n`, when every read and decoding succeeds. -/
def readAllStats (cli : dockerCli) : List String → Nat → Option (List StatsJSON)
  | [], _ => some []
  | id :: rest, n =>
    match cli.ContainerStats n id with
    | .error _ => none
    | .ok stats =>
      match cli.Decode stats with
      | .error _ => none
      | .ok v => (readAllStats cli rest (n + 1)).map (fun vs => v :: vs)

/-- The four counters of a stats value are below 2^53, where `float64` is exact. -/
abbrev countersExact (v : StatsJSON) : Prop :=
  v.CPUStats.CPUUsage.TotalUsage < 2 ^ 53 ∧ v.PreCPUStats.CPUUsage.TotalUsage < 2 ^ 53 ∧
  v.CPUStats.SystemUsage < 2 ^ 53 ∧ v.PreCPUStats.SystemUsage < 2 ^ 53

/-- Stats of a container that used `cpu` out of `system` counter units between the two
readings, on `cores` cores. -/
def sampleStats (cpu system cores : Nat) : StatsJSON :=
  { CPUStats := { CPUUsage := { TotalUsage := 1000 + cpu, PercpuUsage := List.replicate cores 0 }
                  SystemUsage := 5000 + system }
    PreCPUStats := { CPUUsage := { TotalUsage := 1000, PercpuUsage := List.replicate cores 0 }
                     SystemUsage := 5000 } }

/-- A docker client listing the containers `a` and `b`; the body of a stats answer is the
container id, decoded to the stats of a container that used 1 of 4 units on 2 cores for
`a` and 1 of 8 units on 2 cores for any other. -/
def sampleDockerCli : dockerCli :=
  { ContainerList := .ok ["a", "b"]
    ContainerStats := fun _ id => .ok id
    Decode := fun body => .ok (if body = "a" then sampleStats 1 4 2 else sampleStats 1 8 2) }

/-- Stats of a long-running container on 2 cores: the cpu counter went from 2^53 to
2^53 + 1 while the system counter went from 5000 to 5004. -/
def sampleStatsLong : StatsJSON :=
  { CPUStats := { CPUUsage := { TotalUsage := 9007199254740993, PercpuUsage := [0, 0] }
                  SystemUsage := 5004 }
    PreCPUStats := { CPUUsage := { TotalUsage := 9007199254740992, PercpuUsage := [0, 0] }
                     SystemUsage := 5000 } }

/-- A docker client listing the one container `a`, whose stats are `sampleStatsLong`. -/
def sampleDockerCliLong : dockerCli :=
  { ContainerList := .ok ["a"]
    ContainerStats := fun _ id => .ok id
    Decode := fun _ => .ok sampleStatsLong }

/-! ## Ticks that overlap -/

/-- Consul agency listing the instance `A` for every service, whose first
`DeregisterInstance` call succeeds and whose later ones fail. -/
def sampleConsulOnce : consulAgency :=
  { GetServices := fun _ _ => .ok [{ id := "A", addr := "10.0.0.1:80" }]
    DeregisterInstance := fun n _ => if n = 0 then none else some "unknown service id" }

/-- Elasticsearch agency with 1000 and then 100 active shards, whose indices view lists
one jaeger index at the first `IndexNames` call and none at the later ones. -/
def sampleElasticsearchLazy : elasticsearchAgency :=
  { sampleElasticsearchThen (1000, 0) (100, 0) with
    GetIndicesWithPatterns := fun _ _ =>
      .ok { names := fun n _ => if n = 0 then ["jaeger-span-2020-01-01"] else [] } }

/-! ## Proofs -/

attribute [simp] Tick.start Tick.log Tick.setStatus Tick.SetLevel Tick.AppendLevel Tick.SetMessage
  Tick.SetError Tick.SetAlarmResult Tick.chatAnswer Tick.SendMessage Tick.SendAlarm
  serviceCheckHistoryComponent.SetAlarmResult serviceCheckHistoryComponent.SetError
  serviceCheckHistoryComponent.FillPrivateComponent newHistory
  srvcheckProcessLevel.Set srvcheckProcessLevel.Append
  bytesizeComparator.isMoreThan bytesizeComparator.isLessThan
  intComparator.isMoreThan intComparator.isLessThan
  callsOf Event.method statusWrites sentEmojis Event.isRemediation Event.isProbe
  healthyLevel warningLevel weakDetectedLevel recoveringLevel recoveredLevel unhealthyLevel errorLevel

theorem GoMap.lookup_assign {α : Type} (m : GoMap α) (k k1 : String) (v : List α) :
    List.lookup k1 (m.assign k v) = if k1 = k then some v else List.lookup k1 m := by
  induction m with
  | nil =>
    by_cases h1 : k1 = k
    · simp [GoMap.assign, List.lookup, h1]
    · have hb : (k1 == k) = false := by simp [h1]
      simp [GoMap.assign, List.lookup, h1, hb]
  | cons p rest ih =>
    obtain ⟨k0, v0⟩ := p
    by_cases h : k = k0
    · subst h
      by_cases h1 : k1 = k
      · simp [GoMap.assign, List.lookup, h1]
      · have hb : (k1 == k) = false := by simp [h1]
        simp [GoMap.assign, List.lookup, h1, hb]
    · have hb0 : (k == k0) = false := by simp [h]
      by_cases h1 : k1 = k0
      · subst h1
        have hne : ¬ k1 = k := fun e => h e.symm
        simp [GoMap.assign, List.lookup, hb0, hne]
      · have hb1 : (k1 == k0) = false := by simp [h1]
        simp [GoMap.assign, List.lookup, hb0, hb1, ih]

theorem GoMap.index_assign {α : Type} (m : GoMap α) (k k1 : String) (v : List α) :
    (m.assign k v).index k1 = if k1 = k then v else m.index k1 := by
  unfold GoMap.index
  rw [GoMap.lookup_assign]
  split <;> simp

theorem statusWrites_append (a b : List Event) :
    statusWrites (a ++ b) = statusWrites a ++ statusWrites b := by
  induction a with
  | nil => simp
  | cons e rest ih => cases e <;> simp [ih]

theorem sentEmojis_append (a b : List Event) :
    sentEmojis (a ++ b) = sentEmojis a ++ sentEmojis b := by
  induction a with
  | nil => simp
  | cons e rest ih => cases e <;> simp [ih]

theorem consulGetServices_next (cfg : consulCheckUsecaseConfig) (rt : Runtime) (ca : consulAgency) :
    ∀ (l : List String) (ccu : Tick ConsulCheckFields) (m : GoMap Instance)
      (t : Tick ConsulCheckFields) (m1 : GoMap Instance),
    consulGetServices cfg rt ca l ccu m = .next t m1 →
    t.status = ccu.status ∧ t.history = ccu.history ∧
    t.fields.IfInstanceDeregistered = ccu.fields.IfInstanceDeregistered ∧
    t.fields.IfContainerRestarted = ccu.fields.IfContainerRestarted ∧
    t.fields.DeregisteredInstances = ccu.fields.DeregisteredInstances ∧
    t.fields.DeregisterFailedInstances = ccu.fields.DeregisterFailedInstances ∧
    ∃ ext, t.trace = ccu.trace ++ ext ∧ ∀ e ∈ ext, e.method = some .GetServices := by
  intro l
  induction l with
  | nil =>
    intro ccu m t m1 h
    simp only [consulGetServices, Flow.next.injEq] at h
    obtain ⟨rfl, rfl⟩ := h
    exact ⟨rfl, rfl, rfl, rfl, rfl, rfl, [], by simp, by simp⟩
  | cons srv rest ih =>
    intro ccu m t m1 h
    simp only [consulGetServices] at h
    split at h
    · cases h
    · obtain ⟨h1, h2, h3, h4, h5, h6, ext, h7, h8⟩ := ih _ _ _ _ h
      refine ⟨by simpa using h1, by simpa using h2, by simpa using h3, by simpa using h4,
        by simpa using h5, by simpa using h6,
        Event.GetServices (cfg.ConsulServiceNameSpace ++ srv) :: ext, by simpa using h7, ?_⟩
      intro e he
      rcases List.mem_cons.mp he with rfl | he
      · rfl
      · exact h8 e he

theorem consulGetServices_returned (cfg : consulCheckUsecaseConfig) (rt : Runtime)
    (ca : consulAgency) :
    ∀ (l : List String) (ccu : Tick ConsulCheckFields) (m : GoMap Instance)
      (t : Tick ConsulCheckFields),
    consulGetServices cfg rt ca l ccu m = .returned t →
    t.status = ccu.status ∧ t.history.ProcessLevel = [errorLevel] ∧
    (∃ e, t.history.Error = some e ∧ t.history.Message = e) ∧
    t.history.alerted = true ∧
    (t.history.alarmTime, t.history.alarmText, t.history.alarmErr) =
      rt.SendMessage (callsOf .SendMessage ccu.trace) "x"
        "!consul check error occurred! unable to get services in consul" rt.uuid ∧
    t.fields.IfInstanceDeregistered = ccu.fields.IfInstanceDeregistered ∧
    t.fields.IfContainerRestarted = ccu.fields.IfContainerRestarted ∧
    ∃ ext, t.trace = ccu.trace ++ ext ++
        [Event.SendMessage "x" "!consul check error occurred! unable to get services in consul"
          rt.uuid, Event.SetAlarmResult] ∧
      ∀ e ∈ ext, e.method = some .GetServices := by
  intro l
  induction l with
  | nil =>
    intro ccu m t h
    simp [consulGetServices] at h
  | cons srv rest ih =>
    intro ccu m t h
    simp only [consulGetServices] at h
    split at h
    · simp only [Flow.returned.injEq] at h
      subst h
      refine ⟨by simp, by simp, ⟨_, rfl, rfl⟩, by simp, by simp, by simp, by simp,
        [Event.GetServices (cfg.ConsulServiceNameSpace ++ srv)], by simp, by simp⟩
    · obtain ⟨h1, h2, h3, h4, h5, h6, h7, ext, h8, h9⟩ := ih _ _ _ h
      refine ⟨by simpa using h1, h2, h3, h4, by simpa using h5, by simpa using h6,
        by simpa using h7,
        Event.GetServices (cfg.ConsulServiceNameSpace ++ srv) :: ext, by simpa using h8, ?_⟩
      intro e he
      rcases List.mem_cons.mp he with rfl | he
      · rfl
      · exact h9 e he

theorem consulGetServices_fails (cfg : consulCheckUsecaseConfig) (rt : Runtime)
    (ca : consulAgency) :
    ∀ (l : List String) (ccu : Tick ConsulCheckFields) (m : GoMap Instance)
      (k : Nat) (srv e : String),
    l[k]? = some srv →
    ca.GetServices (callsOf .GetServices ccu.trace + k) (cfg.ConsulServiceNameSpace ++ srv) =
      .error e →
    ∃ t, consulGetServices cfg rt ca l ccu m = .returned t := by
  intro l
  induction l with
  | nil => intro ccu m k srv e hk; simp at hk
  | cons s rest ih =>
    intro ccu m k srv e hk he
    simp only [consulGetServices]
    split
    · exact ⟨_, rfl⟩
    · rename_i iter hok
      cases k with
      | zero =>
        simp only [List.getElem?_cons_zero, Option.some.injEq] at hk
        subst hk
        simp only [Nat.add_zero] at he
        rw [he] at hok
        cases hok
      | succ k =>
        simp only [List.getElem?_cons_succ] at hk
        refine ih _ _ k srv e hk ?_
        have : callsOf Method.GetServices
            (ccu.log (Event.GetServices (cfg.ConsulServiceNameSpace ++ s))).trace
            = callsOf Method.GetServices ccu.trace + 1 := by simp
        simp only [Tick.log] at this ⊢
        rw [this]
        rw [← he]
        congr 1
        omega

theorem consulPingInstances_next (cfg : consulCheckUsecaseConfig) (ga : gRPCAgency) :
    ∀ (l : List Instance) (ccu : Tick ConsulCheckFields) (ids : List String)
      (t : Tick ConsulCheckFields) (ids1 : List String),
    consulPingInstances cfg ga l ccu ids = .next t ids1 →
    t.status = ccu.status ∧ t.history = ccu.history ∧ t.fields = ccu.fields ∧
    ∃ ext, t.trace = ccu.trace ++ ext ∧ ∀ e ∈ ext, e.method = some .PingToCheckConn := by
  intro l
  induction l with
  | nil =>
    intro ccu ids t ids1 h
    simp only [consulPingInstances, Flow.next.injEq] at h
    obtain ⟨rfl, rfl⟩ := h
    exact ⟨rfl, rfl, rfl, [], by simp, by simp⟩
  | cons srv rest ih =>
    intro ccu ids t ids1 h
    simp only [consulPingInstances] at h
    have step : ∀ ids0, consulPingInstances cfg ga rest
        (ccu.log (Event.PingToCheckConn cfg.ConnCheckPingTimeOut srv.addr)) ids0 = .next t ids1 →
        t.status = ccu.status ∧ t.history = ccu.history ∧ t.fields = ccu.fields ∧
        ∃ ext, t.trace = ccu.trace ++ ext ∧ ∀ e ∈ ext, e.method = some .PingToCheckConn := by
      intro ids0 h0
      obtain ⟨h1, h2, h3, ext, h4, h5⟩ := ih _ _ _ _ h0
      refine ⟨by simpa using h1, by simpa using h2, by simpa using h3,
        Event.PingToCheckConn cfg.ConnCheckPingTimeOut srv.addr :: ext, by simpa using h4, ?_⟩
      intro e he
      rcases List.mem_cons.mp he with rfl | he
      · rfl
      · exact h5 e he
    split at h
    · exact step _ h
    · split at h
      · cases h
      · exact step _ h

theorem consulPingInstances_returned (cfg : consulCheckUsecaseConfig) (ga : gRPCAgency) :
    ∀ (l : List Instance) (ccu : Tick ConsulCheckFields) (ids : List String)
      (t : Tick ConsulCheckFields),
    consulPingInstances cfg ga l ccu ids = .returned t →
    t.status = ccu.status ∧ t.history.ProcessLevel = [errorLevel] ∧
    (∃ e, t.history.Error = some e ∧ t.history.Message = e) ∧
    t.history.alerted = ccu.history.alerted ∧ t.history.alarmText = ccu.history.alarmText ∧
    t.fields = ccu.fields ∧
    ∃ ext, t.trace = ccu.trace ++ ext ∧ ∀ e ∈ ext, e.method = some .PingToCheckConn := by
  intro l
  induction l with
  | nil =>
    intro ccu ids t h
    simp [consulPingInstances] at h
  | cons srv rest ih =>
    intro ccu ids t h
    simp only [consulPingInstances] at h
    have step : ∀ ids0, consulPingInstances cfg ga rest
        (ccu.log (Event.PingToCheckConn cfg.ConnCheckPingTimeOut srv.addr)) ids0 = .returned t →
        t.status = ccu.status ∧ t.history.ProcessLevel = [errorLevel] ∧
        (∃ e, t.history.Error = some e ∧ t.history.Message = e) ∧
        t.history.alerted = ccu.history.alerted ∧ t.history.alarmText = ccu.history.alarmText ∧
        t.fields = ccu.fields ∧
        ∃ ext, t.trace = ccu.trace ++ ext ∧ ∀ e ∈ ext, e.method = some .PingToCheckConn := by
      intro ids0 h0
      obtain ⟨h1, h2, h3, h4, h5, h6, ext, h7, h8⟩ := ih _ _ _ h0
      refine ⟨by simpa using h1, h2, h3, by simpa using h4, by simpa using h5,
        by simpa using h6,
        Event.PingToCheckConn cfg.ConnCheckPingTimeOut srv.addr :: ext, by simpa using h7, ?_⟩
      intro e he
      rcases List.mem_cons.mp he with rfl | he
      · rfl
      · exact h8 e he
    split at h
    · exact step _ h
    · split at h
      · simp only [Flow.returned.injEq] at h
        subst h
        exact ⟨by simp, by simp, ⟨_, rfl, rfl⟩, by simp, by simp, by simp,
          [Event.PingToCheckConn cfg.ConnCheckPingTimeOut srv.addr], by simp, by simp⟩
      · exact step _ h

theorem consulPingServices_next (cfg : consulCheckUsecaseConfig) (ga : gRPCAgency)
    (srvM : GoMap Instance) :
    ∀ (ks : List String) (ccu : Tick ConsulCheckFields) (ids : List String)
      (t : Tick ConsulCheckFields) (ids1 : List String),
    consulPingServices cfg ga srvM ks ccu ids = .next t ids1 →
    t.status = ccu.status ∧ t.history = ccu.history ∧ t.fields = ccu.fields ∧
    ∃ ext, t.trace = ccu.trace ++ ext ∧ ∀ e ∈ ext, e.method = some .PingToCheckConn := by
  intro ks
  induction ks with
  | nil =>
    intro ccu ids t ids1 h
    simp only [consulPingServices, Flow.next.injEq] at h
    obtain ⟨rfl, rfl⟩ := h
    exact ⟨rfl, rfl, rfl, [], by simp, by simp⟩
  | cons k rest ih =>
    intro ccu ids t ids1 h
    simp only [consulPingServices] at h
    split at h
    · cases h
    · rename_i ccu1 ids0 hin
      obtain ⟨a1, a2, a3, ext1, a4, a5⟩ := consulPingInstances_next cfg ga _ _ _ _ _ hin
      obtain ⟨b1, b2, b3, ext2, b4, b5⟩ := ih _ _ _ _ h
      refine ⟨b1.trans a1, b2.trans a2, b3.trans a3, ext1 ++ ext2, ?_, ?_⟩
      · rw [b4, a4, List.append_assoc]
      · intro e he
        rcases List.mem_append.mp he with he | he
        · exact a5 e he
        · exact b5 e he

theorem consulPingServices_returned (cfg : consulCheckUsecaseConfig) (ga : gRPCAgency)
    (srvM : GoMap Instance) :
    ∀ (ks : List String) (ccu : Tick ConsulCheckFields) (ids : List String)
      (t : Tick ConsulCheckFields),
    consulPingServices cfg ga srvM ks ccu ids = .returned t →
    t.status = ccu.status ∧ t.history.ProcessLevel = [errorLevel] ∧
    (∃ e, t.history.Error = some e ∧ t.history.Message = e) ∧
    t.history.alerted = ccu.history.alerted ∧ t.history.alarmText = ccu.history.alarmText ∧
    t.fields = ccu.fields ∧
    ∃ ext, t.trace = ccu.trace ++ ext ∧ ∀ e ∈ ext, e.method = some .PingToCheckConn := by
  intro ks
  induction ks with
  | nil =>
    intro ccu ids t h
    simp [consulPingServices] at h
  | cons k rest ih =>
    intro ccu ids t h
    simp only [consulPingServices] at h
    split at h
    · rename_i t1 hin
      simp only [Flow.returned.injEq] at h
      subst h
      exact consulPingInstances_returned cfg ga _ _ _ _ hin
    · rename_i ccu1 ids0 hin
      obtain ⟨a1, a2, a3, ext1, a4, a5⟩ := consulPingInstances_next cfg ga _ _ _ _ _ hin
      obtain ⟨b1, b2, b3, b4, b5, b6, ext2, b7, b8⟩ := ih _ _ _ h
      refine ⟨b1.trans a1, b2, b3, by rw [b4, a2], by rw [b5, a2], b6.trans a3,
        ext1 ++ ext2, ?_, ?_⟩
      · rw [b7, a4, List.append_assoc]
      · intro e he
        rcases List.mem_append.mp he with he | he
        · exact a5 e he
        · exact b8 e he

theorem consulPingInstances_ok (cfg : consulCheckUsecaseConfig) (ga : gRPCAgency) :
    ∀ (l : List Instance) (ccu : Tick ConsulCheckFields) (ids : List String),
    (∀ i ∈ l, ∀ n, ga.PingToCheckConn n cfg.ConnCheckPingTimeOut i.addr =
      { ctxErr := false, err := none }) →
    ∃ t, consulPingInstances cfg ga l ccu ids = .next t ids := by
  intro l
  induction l with
  | nil => intro ccu ids _; exact ⟨ccu, rfl⟩
  | cons srv rest ih =>
    intro ccu ids h
    simp only [consulPingInstances]
    rw [h srv (List.mem_cons_self _ _)]
    simp only [Bool.false_eq_true, if_false]
    exact ih _ _ (fun i hi n => h i (List.mem_cons_of_mem _ hi) n)

theorem consulPingServices_ok (cfg : consulCheckUsecaseConfig) (ga : gRPCAgency)
    (srvM : GoMap Instance) :
    ∀ (ks : List String) (ccu : Tick ConsulCheckFields) (ids : List String),
    (∀ k, ∀ i ∈ srvM.index k, ∀ n, ga.PingToCheckConn n cfg.ConnCheckPingTimeOut i.addr =
      { ctxErr := false, err := none }) →
    ∃ t, consulPingServices cfg ga srvM ks ccu ids = .next t ids := by
  intro ks
  induction ks with
  | nil => intro ccu ids _; exact ⟨ccu, rfl⟩
  | cons k rest ih =>
    intro ccu ids h
    simp only [consulPingServices]
    obtain ⟨t1, h1⟩ := consulPingInstances_ok cfg ga (srvM.index k) ccu ids (h k)
    rw [h1]
    exact ih _ _ h

theorem consulDeregister_frame (rt : Runtime) (ca : consulAgency) :
    ∀ (l : List String) (ccu : Tick ConsulCheckFields) (s f : List String),
    (consulDeregister rt ca l ccu s f).1.status = ccu.status ∧
    (consulDeregister rt ca l ccu s f).1.fields = ccu.fields ∧
    (consulDeregister rt ca l ccu s f).1.history.alerted = ccu.history.alerted ∧
    ((ccu.history.Error ≠ none → errorLevel ∈ ccu.history.ProcessLevel) →
      (consulDeregister rt ca l ccu s f).1.history.Error ≠ none →
      errorLevel ∈ (consulDeregister rt ca l ccu s f).1.history.ProcessLevel) ∧
    ∃ ext, (consulDeregister rt ca l ccu s f).1.trace = ccu.trace ++ ext ∧
      ∀ e ∈ ext, e.method = some .DeregisterInstance ∨ e.method = some .SendMessage := by
  intro l
  induction l with
  | nil =>
    intro ccu s f
    exact ⟨rfl, rfl, rfl, fun h => h, [], by simp [consulDeregister], by simp⟩
  | cons srvID rest ih =>
    intro ccu s f
    simp only [consulDeregister]
    split
    · rename_i err herr
      obtain ⟨h1, h2, h3, h4, ext, h5, h6⟩ := ih
        ((((ccu.log (Event.DeregisterInstance srvID)).AppendLevel errorLevel).SendMessage rt
          "broken_heart" ("!consul check error occurred! failed to deregister service, id: " ++
            srvID ++ ", err: " ++ err)).SetError
          (errorsWrap err "failed to deregister service")) s (f ++ [srvID])
      refine ⟨by simpa using h1, by simpa using h2, by simpa using h3, ?_,
        Event.DeregisterInstance srvID :: Event.SendMessage "broken_heart"
          ("!consul check error occurred! failed to deregister service, id: " ++
            srvID ++ ", err: " ++ err) rt.uuid :: ext, by simpa using h5, ?_⟩
      · intro _
        apply h4
        intro _
        simp only [Tick.SetError, Tick.SendMessage, Tick.log, Tick.AppendLevel,
          serviceCheckHistoryComponent.SetError, srvcheckProcessLevel.Append]
        split
        · assumption
        · simp
      · intro e he
        rcases List.mem_cons.mp he with rfl | he
        · exact Or.inl rfl
        · rcases List.mem_cons.mp he with rfl | he
          · exact Or.inr rfl
          · exact h6 e he
    · obtain ⟨h1, h2, h3, h4, ext, h5, h6⟩ := ih (ccu.log (Event.DeregisterInstance srvID))
        (s ++ [srvID]) f
      refine ⟨by simpa using h1, by simpa using h2, by simpa using h3, by simpa using h4,
        Event.DeregisterInstance srvID :: ext, by simpa using h5, ?_⟩
      intro e he
      rcases List.mem_cons.mp he with rfl | he
      · exact Or.inl rfl
      · exact h6 e he

theorem consulRestart_frame (rt : Runtime) (da : dockerAgency) :
    ∀ (l : List String) (ccu : Tick ConsulCheckFields) (s f : List String),
    (consulRestart rt da l ccu s f).1.status = ccu.status ∧
    (consulRestart rt da l ccu s f).1.fields = ccu.fields ∧
    (consulRestart rt da l ccu s f).1.history.alerted = ccu.history.alerted ∧
    ∃ ext, (consulRestart rt da l ccu s f).1.trace = ccu.trace ++ ext ∧
      ∀ e ∈ ext, e.method = some .GetContainerWithServiceName ∨
        e.method = some .RemoveContainer ∨ e.method = some .SendMessage := by
  intro l
  induction l with
  | nil =>
    intro ccu s f
    exact ⟨rfl, rfl, rfl, [], by simp [consulRestart], by simp⟩
  | cons srv rest ih =>
    intro ccu s f
    simp only [consulRestart]
    split
    · rename_i err herr
      obtain ⟨h1, h2, h3, ext, h5, h6⟩ := ih
        ((((ccu.log (Event.GetContainerWithServiceName srv)).AppendLevel errorLevel).SendMessage
          rt "broken_heart" ("!consul check error occurred! failed to get container, srv: " ++
            srv ++ ", err: " ++ err)).SetError
          (errorsWrap err "failed to get container")) s (f ++ [srv])
      refine ⟨by simpa using h1, by simpa using h2, by simpa using h3,
        Event.GetContainerWithServiceName srv :: Event.SendMessage "broken_heart"
          ("!consul check error occurred! failed to get container, srv: " ++
            srv ++ ", err: " ++ err) rt.uuid :: ext, by simpa using h5, ?_⟩
      intro e he
      rcases List.mem_cons.mp he with rfl | he
      · exact Or.inl rfl
      · rcases List.mem_cons.mp he with rfl | he
        · exact Or.inr (Or.inr rfl)
        · exact h6 e he
    · rename_i container hok
      split
      · rename_i err herr
        obtain ⟨h1, h2, h3, ext, h5, h6⟩ := ih
          (((((ccu.log (Event.GetContainerWithServiceName srv)).log
            (Event.RemoveContainer container.ID true)).AppendLevel errorLevel).SendMessage
            rt "broken_heart" ("!consul check error occurred! failed to restart container, id: " ++
              container.ID ++ ", err: " ++ err)).SetError
            (errorsWrap err "failed to restart container")) s (f ++ [srv])
        refine ⟨by simpa using h1, by simpa using h2, by simpa using h3,
          Event.GetContainerWithServiceName srv :: Event.RemoveContainer container.ID true ::
            Event.SendMessage "broken_heart"
            ("!consul check error occurred! failed to restart container, id: " ++
              container.ID ++ ", err: " ++ err) rt.uuid :: ext, by simpa using h5, ?_⟩
        intro e he
        rcases List.mem_cons.mp he with rfl | he
        · exact Or.inl rfl
        · rcases List.mem_cons.mp he with rfl | he
          · exact Or.inr (Or.inl rfl)
          · rcases List.mem_cons.mp he with rfl | he
            · exact Or.inr (Or.inr rfl)
            · exact h6 e he
      · obtain ⟨h1, h2, h3, ext, h5, h6⟩ := ih
          ((ccu.log (Event.GetContainerWithServiceName srv)).log
            (Event.RemoveContainer container.ID true)) (s ++ [srv]) f
        refine ⟨by simpa using h1, by simpa using h2, by simpa using h3,
          Event.GetContainerWithServiceName srv :: Event.RemoveContainer container.ID true :: ext,
          by simpa using h5, ?_⟩
        intro e he
        rcases List.mem_cons.mp he with rfl | he
        · exact Or.inl rfl
        · rcases List.mem_cons.mp he with rfl | he
          · exact Or.inr (Or.inl rfl)
          · exact h6 e he

theorem statusWrites_nil_of (ext : List Event) (h : ∀ e ∈ ext, e.method ≠ none) :
    statusWrites ext = [] := by
  induction ext with
  | nil => rfl
  | cons e rest ih =>
    have he := h e (List.mem_cons_self _ _)
    have hr := ih (fun x hx => h x (List.mem_cons_of_mem _ hx))
    cases e <;> simp_all

theorem sentEmojis_nil_of (ext : List Event) (h : ∀ e ∈ ext, e.method ≠ some .SendMessage) :
    sentEmojis ext = [] := by
  induction ext with
  | nil => rfl
  | cons e rest ih =>
    have he := h e (List.mem_cons_self _ _)
    have hr := ih (fun x hx => h x (List.mem_cons_of_mem _ hx))
    cases e <;> simp_all

theorem remediation_nil_of (ext : List Event)
    (h : ∀ e ∈ ext, e.method = some .GetServices ∨ e.method = some .PingToCheckConn ∨
      e.method = some .SendMessage ∨ e.method = none) :
    ext.filter Event.isRemediation = [] := by
  rw [List.filter_eq_nil_iff]
  intro e he
  have := h e he
  cases e <;> simp_all

theorem GoMap.index_step {α : Type} (m : GoMap α) (c k : String) (v : List α) :
    ((if m.has c then m else m.assign c []).assign c
      ((if m.has c then m else m.assign c []).index c ++ v)).index k =
    if k = c then m.index c ++ v else m.index k := by
  by_cases hc : m.has c = true
  · simp only [hc, if_true]
    rw [GoMap.index_assign]
  · have hnone : List.lookup c m = none := by
      cases hl : List.lookup c m with
      | none => rfl
      | some x => simp [GoMap.has, hl] at hc
    have hfalse : m.has c = false := by simpa using hc
    simp only [hfalse, Bool.false_eq_true, if_false]
    rw [GoMap.index_assign, GoMap.index_assign, GoMap.index_assign]
    by_cases hk : k = c
    · subst hk
      simp [GoMap.index, hnone]
    · simp [hk]

theorem consulGetServices_ok (cfg : consulCheckUsecaseConfig) (rt : Runtime)
    (ca : consulAgency) (R : Instance → Prop)
    (hR : ∀ n s v, ca.GetServices n s = .ok v → ∀ i ∈ v, R i) :
    ∀ (l : List String) (ccu : Tick ConsulCheckFields) (m : GoMap Instance),
    (∀ n srv, srv ∈ l →
      ∃ v, ca.GetServices n (cfg.ConsulServiceNameSpace ++ srv) = .ok v ∧ v ≠ []) →
    (∀ k, ∀ i ∈ m.index k, R i) →
    ∃ t m1, consulGetServices cfg rt ca l ccu m = .next t m1 ∧
      (∀ k, ∀ i ∈ m1.index k, R i) ∧
      (∀ srv ∈ l, m1.index (cfg.ConsulServiceNameSpace ++ srv) ≠ []) ∧
      (∀ k, m.index k ≠ [] → m1.index k ≠ []) := by
  intro l
  induction l with
  | nil =>
    intro ccu m _ hm
    exact ⟨ccu, m, rfl, hm, by simp, fun _ h => h⟩
  | cons srv rest ih =>
    intro ccu m hget hm
    obtain ⟨v, hv, hne⟩ := hget (callsOf .GetServices ccu.trace) srv (List.mem_cons_self _ _)
    simp only [consulGetServices]
    rw [hv]
    simp only
    have hidx := fun k => GoMap.index_step m (cfg.ConsulServiceNameSpace ++ srv) k v
    obtain ⟨t, m1, h1, h2, h3, h4⟩ := ih
      { ccu.log (Event.GetServices (cfg.ConsulServiceNameSpace ++ srv)) with
        fields := { (ccu.log (Event.GetServices (cfg.ConsulServiceNameSpace ++ srv))).fields with
          InstancesPerService :=
            (if GoMap.has ccu.fields.InstancesPerService (cfg.ConsulServiceNameSpace ++ srv)
              then ccu.fields.InstancesPerService
              else GoMap.assign ccu.fields.InstancesPerService
                (cfg.ConsulServiceNameSpace ++ srv) []).assign
              (cfg.ConsulServiceNameSpace ++ srv)
              ((if GoMap.has ccu.fields.InstancesPerService (cfg.ConsulServiceNameSpace ++ srv)
                then ccu.fields.InstancesPerService
                else GoMap.assign ccu.fields.InstancesPerService
                  (cfg.ConsulServiceNameSpace ++ srv) []).index
                (cfg.ConsulServiceNameSpace ++ srv) ++ v.map Instance.id) } }
      ((if m.has (cfg.ConsulServiceNameSpace ++ srv) then m
          else m.assign (cfg.ConsulServiceNameSpace ++ srv) []).assign
        (cfg.ConsulServiceNameSpace ++ srv)
        ((if m.has (cfg.ConsulServiceNameSpace ++ srv) then m
          else m.assign (cfg.ConsulServiceNameSpace ++ srv) []).index
          (cfg.ConsulServiceNameSpace ++ srv) ++ v))
      (fun n s hs => hget n s (List.mem_cons_of_mem _ hs))
      (by
        intro k i hi
        rw [hidx k] at hi
        split at hi
        · rcases List.mem_append.mp hi with hi | hi
          · exact hm _ i hi
          · exact hR _ _ _ hv i hi
        · exact hm k i hi)
    refine ⟨t, m1, h1, h2, ?_, ?_⟩
    · intro s hs
      rcases List.mem_cons.mp hs with rfl | hs
      · apply h4
        rw [hidx]
        simp [hne]
      · exact h3 s hs
    · intro k hk
      apply h4
      rw [hidx]
      split
      · rename_i hkc
        subst hkc
        simp [hk]
      · exact hk

theorem checkConsul_start (rt : Runtime) (status : CheckStatus) :
    (Tick.start rt "srvcheck" "consul" status ({} : ConsulCheckFields)).status = status ∧
    (Tick.start rt "srvcheck" "consul" status ({} : ConsulCheckFields)).trace = [] ∧
    (Tick.start rt "srvcheck" "consul" status ({} : ConsulCheckFields)).history.Error = none ∧
    (Tick.start rt "srvcheck" "consul" status ({} : ConsulCheckFields)).history.alerted = false := by
  simp

theorem checkConsul_steady (cfg : consulCheckUsecaseConfig) (rt : Runtime) (ca : consulAgency)
    (ga : gRPCAgency) (da : dockerAgency) (range : MapRange)
    (hget : ∀ n srv, srv ∈ cfg.CheckTargetServices →
      ∃ v, ca.GetServices n (cfg.ConsulServiceNameSpace ++ srv) = .ok v ∧ v ≠ [])
    (hping : ∀ n s v, ca.GetServices n s = .ok v → ∀ i ∈ v, ∀ k,
      ga.PingToCheckConn k cfg.ConnCheckPingTimeOut i.addr = { ctxErr := false, err := none }) :
    (checkConsul cfg rt ca ga da range .Healthy).status = .Healthy ∧
    (checkConsul cfg rt ca ga da range .Healthy).history.ProcessLevel = [healthyLevel] ∧
    sentEmojis (checkConsul cfg rt ca ga da range .Healthy).trace = [] ∧
    (checkConsul cfg rt ca ga da range .Healthy).history.alerted = false ∧
    (checkConsul cfg rt ca ga da range .Healthy).trace.filter Event.isRemediation = [] := by
  obtain ⟨t1, m1, h1, hR, hne, _⟩ := consulGetServices_ok cfg rt ca
    (fun i => ∀ k, ga.PingToCheckConn k cfg.ConnCheckPingTimeOut i.addr =
      { ctxErr := false, err := none }) hping cfg.CheckTargetServices
    (Tick.start rt "srvcheck" "consul" .Healthy {}) [] hget (by simp [GoMap.index])
  obtain ⟨t2, h2⟩ := consulPingServices_ok cfg ga m1 (range m1.keys).val t1 [] hR
  obtain ⟨a1, a2, _, _, _, _, ext1, a3, a4⟩ := consulGetServices_next cfg rt ca _ _ _ _ _ h1
  obtain ⟨b1, b2, _, ext2, b3, b4⟩ := consulPingServices_next cfg ga m1 _ _ _ _ _ h2
  have hun : consulUnableSrvs cfg m1 = [] := by
    unfold consulUnableSrvs
    rw [List.map_eq_nil_iff, List.filter_eq_nil_iff]
    intro srv hs
    have := hne srv hs
    simpa using this
  have hres : checkConsul cfg rt ca ga da range .Healthy = t2.SetLevel healthyLevel := by
    unfold checkConsul
    simp only [(checkConsul_start rt .Healthy).1]
    rw [h1]
    simp only
    rw [h2]
    simp [checkConsulProbed, hun]
  have htr : t2.trace = ext1 ++ ext2 := by
    rw [b3, a3]; simp
  have hmeth : ∀ e ∈ ext1 ++ ext2,
      e.method = some .GetServices ∨ e.method = some .PingToCheckConn := by
    intro e he
    rcases List.mem_append.mp he with he | he
    · exact Or.inl (a4 e he)
    · exact Or.inr (b4 e he)
  rw [hres]
  refine ⟨?_, by simp, ?_, ?_, ?_⟩
  · simp [b1, a1]
  · simp only [Tick.SetLevel, htr]
    apply sentEmojis_nil_of
    intro e he
    rcases hmeth e he with h | h <;> rw [h] <;> decide
  · simp [b2, a2]
  · simp only [Tick.SetLevel, htr]
    apply remediation_nil_of
    intro e he
    rcases hmeth e he with h | h
    · exact Or.inl h
    · exact Or.inr (Or.inl h)

theorem checkConsul_probe_failed (cfg : consulCheckUsecaseConfig) (rt : Runtime)
    (ca : consulAgency) (ga : gRPCAgency) (da : dockerAgency) (range : MapRange)
    (k : Nat) (srv e : String) (hk : cfg.CheckTargetServices[k]? = some srv)
    (he : ca.GetServices k (cfg.ConsulServiceNameSpace ++ srv) = .error e) :
    (checkConsul cfg rt ca ga da range .Healthy).history.ProcessLevel = [errorLevel] ∧
    (∃ err, (checkConsul cfg rt ca ga da range .Healthy).history.Error = some err ∧
      (checkConsul cfg rt ca ga da range .Healthy).history.Message = err) ∧
    sentEmojis (checkConsul cfg rt ca ga da range .Healthy).trace = ["x"] ∧
    (checkConsul cfg rt ca ga da range .Healthy).history.alerted = true ∧
    ((checkConsul cfg rt ca ga da range .Healthy).history.alarmTime,
      (checkConsul cfg rt ca ga da range .Healthy).history.alarmText,
      (checkConsul cfg rt ca ga da range .Healthy).history.alarmErr) =
      rt.SendMessage 0 "x" "!consul check error occurred! unable to get services in consul"
        rt.uuid ∧
    (checkConsul cfg rt ca ga da range .Healthy).trace.filter Event.isRemediation = [] ∧
    (checkConsul cfg rt ca ga da range .Healthy).status = .Healthy := by
  obtain ⟨t, ht⟩ := consulGetServices_fails cfg rt ca cfg.CheckTargetServices
    (Tick.start rt "srvcheck" "consul" .Healthy {}) [] k srv e hk (by simpa using he)
  obtain ⟨a1, a2, a3, a4, a5, _, _, ext, a6, a7⟩ := consulGetServices_returned cfg rt ca _ _ _ _ ht
  have hres : checkConsul cfg rt ca ga da range .Healthy = t := by
    unfold checkConsul
    simp only [(checkConsul_start rt .Healthy).1]
    rw [ht]
  rw [hres]
  refine ⟨a2, a3, ?_, a4, by simpa using a5, ?_, by simpa using a1⟩
  · rw [a6]
    simp only [Tick.start, List.nil_append, sentEmojis_append]
    rw [sentEmojis_nil_of ext (fun e he => by rw [a7 e he]; decide)]
    simp
  · rw [a6]
    apply remediation_nil_of
    intro x hx
    simp only [Tick.start, List.nil_append, List.mem_append, List.mem_cons,
      List.mem_singleton, List.not_mem_nil, or_false] at hx
    rcases hx with hx | rfl | rfl
    · exact Or.inl (a7 x hx)
    · exact Or.inr (Or.inr (Or.inl rfl))
    · exact Or.inr (Or.inr (Or.inr rfl))

theorem checkConsulProbed_writes (cfg : consulCheckUsecaseConfig) (rt : Runtime)
    (ca : consulAgency) (da : dockerAgency) (ccu : Tick ConsulCheckFields)
    (srvM : GoMap Instance) (ids : List String) :
    statusWrites (checkConsulProbed cfg rt ca da ccu srvM ids).trace = statusWrites ccu.trace ∨
    statusWrites (checkConsulProbed cfg rt ca da ccu srvM ids).trace =
      statusWrites ccu.trace ++ [.Recovering, .Healthy] := by
  unfold checkConsulProbed
  by_cases hlen : ids.length > 0
  · simp only [hlen, if_true]
    right
    obtain ⟨_, _, _, _, ext, h5, h6⟩ := consulDeregister_frame rt ca ids
      { ((ccu.setStatus .Recovering).SetLevel weakDetectedLevel |>.SetMessage
          "deregistered services in consul which is unable to check connection pick"
          |>.SendAlarm rt "pill"
          "!consul check weak detected! start to deregister unable services") with
        fields := { ccu.fields with IfInstanceDeregistered := true } } [] []
    simp only [Tick.setStatus, Tick.SetLevel, Tick.SetMessage, Tick.SendAlarm, Tick.SendMessage,
      Tick.SetAlarmResult, Tick.log] at h5 ⊢
    rw [h5]
    simp only [statusWrites_append, statusWrites_nil_of ext
      (fun e he => by rcases h6 e he with h | h <;> rw [h] <;> decide)]
    simp
  · simp only [hlen, if_false]
    by_cases hlen2 : (consulUnableSrvs cfg srvM).length > 0
    · simp only [hlen2, if_true]
      right
      obtain ⟨_, _, _, ext, h5, h6⟩ := consulRestart_frame rt da (consulUnableSrvs cfg srvM)
        { ((ccu.setStatus .Recovering).SetLevel weakDetectedLevel |>.SetMessage
            "restart container in docker which is don't have any instances in consul"
            |>.SendAlarm rt "pill"
            "!consul check weak detected! start to restart container") with
          fields := { ccu.fields with IfContainerRestarted := true } } [] []
      simp only [Tick.setStatus, Tick.SetLevel, Tick.SetMessage, Tick.SendAlarm,
        Tick.SendMessage, Tick.SetAlarmResult, Tick.log] at h5 ⊢
      rw [h5]
      simp only [statusWrites_append, statusWrites_nil_of ext
        (fun e he => by rcases h6 e he with h | h | h <;> rw [h] <;> decide)]
      simp
    · simp only [hlen2, if_false]
      left
      simp

theorem checkConsul_writes (cfg : consulCheckUsecaseConfig) (rt : Runtime) (ca : consulAgency)
    (ga : gRPCAgency) (da : dockerAgency) (range : MapRange) (status : CheckStatus) :
    statusWrites (checkConsul cfg rt ca ga da range status).trace = [] ∨
    statusWrites (checkConsul cfg rt ca ga da range status).trace = [.Recovering, .Healthy] := by
  cases status with
  | Recovering => left; simp [checkConsul]
  | Unhealthy => left; simp [checkConsul]
  | Healthy =>
    unfold checkConsul
    simp only [(checkConsul_start rt .Healthy).1]
    split
    · rename_i t ht
      obtain ⟨_, _, _, _, _, _, _, ext, a6, a7⟩ := consulGetServices_returned cfg rt ca _ _ _ _ ht
      left
      rw [a6]
      simp only [statusWrites_append, statusWrites_nil_of ext
        (fun e he => by rw [a7 e he]; decide)]
      simp
    · rename_i t1 m1 h1
      obtain ⟨_, _, _, _, _, _, ext1, a3, a4⟩ := consulGetServices_next cfg rt ca _ _ _ _ _ h1
      have w1 : statusWrites t1.trace = [] := by
        rw [a3]
        simp only [statusWrites_append, statusWrites_nil_of ext1
          (fun e he => by rw [a4 e he]; decide)]
        simp
      split
      · rename_i t ht
        obtain ⟨_, _, _, _, _, _, ext2, b7, b8⟩ := consulPingServices_returned cfg ga m1 _ _ _ _ ht
        left
        rw [b7, statusWrites_append, w1, statusWrites_nil_of ext2
          (fun e he => by rw [b8 e he]; decide)]
        rfl
      · rename_i t2 ids h2
        obtain ⟨_, _, _, ext2, b3, b4⟩ := consulPingServices_next cfg ga m1 _ _ _ _ _ h2
        have w2 : statusWrites t2.trace = [] := by
          rw [b3, statusWrites_append, w1, statusWrites_nil_of ext2
            (fun e he => by rw [b4 e he]; decide)]
          rfl
        rcases checkConsulProbed_writes cfg rt ca da t2 m1 ids with h | h
        · left; rw [h, w2]
        · right; rw [h, w2]; rfl

theorem checkConsulProbed_error (cfg : consulCheckUsecaseConfig) (rt : Runtime)
    (ca : consulAgency) (da : dockerAgency) (ccu : Tick ConsulCheckFields)
    (srvM : GoMap Instance) (ids : List String) (herr : ccu.history.Error = none)
    (hflag : (checkConsulProbed cfg rt ca da ccu srvM ids).fields.IfContainerRestarted = false)
    (hne : (checkConsulProbed cfg rt ca da ccu srvM ids).history.Error ≠ none) :
    errorLevel ∈ (checkConsulProbed cfg rt ca da ccu srvM ids).history.ProcessLevel := by
  unfold checkConsulProbed at hflag hne ⊢
  by_cases hlen : ids.length > 0
  · simp only [hlen, if_true] at hflag hne ⊢
    obtain ⟨_, _, _, h4, _⟩ := consulDeregister_frame rt ca ids
      { ((ccu.setStatus .Recovering).SetLevel weakDetectedLevel |>.SetMessage
          "deregistered services in consul which is unable to check connection pick"
          |>.SendAlarm rt "pill"
          "!consul check weak detected! start to deregister unable services") with
        fields := { ccu.fields with IfInstanceDeregistered := true } } [] []
    simp only [Tick.setStatus, Tick.SetLevel, Tick.SetMessage, Tick.SendAlarm, Tick.SendMessage,
      Tick.SetAlarmResult, Tick.log, serviceCheckHistoryComponent.SetAlarmResult] at h4 hne ⊢
    exact h4 (fun h => absurd herr h) hne
  · simp only [hlen, if_false] at hflag hne ⊢
    by_cases hlen2 : (consulUnableSrvs cfg srvM).length > 0
    · exfalso
      simp only [hlen2, if_true] at hflag
      obtain ⟨_, h2, _⟩ := consulRestart_frame rt da (consulUnableSrvs cfg srvM)
        { ((ccu.setStatus .Recovering).SetLevel weakDetectedLevel |>.SetMessage
            "restart container in docker which is don't have any instances in consul"
            |>.SendAlarm rt "pill"
            "!consul check weak detected! start to restart container") with
          fields := { ccu.fields with IfContainerRestarted := true } } [] []
      simp only [Tick.setStatus, Tick.SetLevel, Tick.SetMessage, Tick.SendAlarm,
        Tick.SendMessage, Tick.SetAlarmResult, Tick.log] at h2 hflag
      rw [h2] at hflag
      simp at hflag
    · exfalso
      simp only [hlen2, if_false] at hne
      apply hne
      simpa using herr

theorem checkConsul_error (cfg : consulCheckUsecaseConfig) (rt : Runtime) (ca : consulAgency)
    (ga : gRPCAgency) (da : dockerAgency) (range : MapRange) (status : CheckStatus)
    (hflag : (checkConsul cfg rt ca ga da range status).fields.IfContainerRestarted = false)
    (hne : (checkConsul cfg rt ca ga da range status).history.Error ≠ none) :
    errorLevel ∈ (checkConsul cfg rt ca ga da range status).history.ProcessLevel := by
  cases status with
  | Recovering => simp [checkConsul] at hne
  | Unhealthy => simp [checkConsul] at hne
  | Healthy =>
    unfold checkConsul at hflag hne ⊢
    simp only [(checkConsul_start rt .Healthy).1] at hflag hne ⊢
    split
    · rename_i t ht
      obtain ⟨_, a2, _⟩ := consulGetServices_returned cfg rt ca _ _ _ _ ht
      rw [a2]; simp
    · rename_i t1 m1 h1
      obtain ⟨_, a2, _⟩ := consulGetServices_next cfg rt ca _ _ _ _ _ h1
      rw [h1] at hflag hne
      simp only at hflag hne
      split
      · rename_i t ht
        obtain ⟨_, b2, _⟩ := consulPingServices_returned cfg ga m1 _ _ _ _ ht
        rw [b2]; simp
      · rename_i t2 ids h2
        obtain ⟨_, b2, _⟩ := consulPingServices_next cfg ga m1 _ _ _ _ _ h2
        rw [h2] at hflag hne
        simp only at hflag hne
        refine checkConsulProbed_error cfg rt ca da t2 m1 ids ?_ hflag hne
        rw [b2, a2]
        simp

theorem mem_of_mem_statusWrites (s : CheckStatus) :
    ∀ tr : List Event, s ∈ statusWrites tr → Event.setStatus s ∈ tr := by
  intro tr
  induction tr with
  | nil => simp
  | cons e rest ih =>
    intro h
    cases e <;> simp_all
    rcases h with h | h
    · exact Or.inl h
    · exact Or.inr (ih h)

theorem guarded_of_writes (tr : List Event)
    (h : statusWrites tr ∈
      [[], [.Healthy], [.Recovering, .Healthy], [.Recovering, .Unhealthy]])
    (pre post : List Event) (hsplit : tr = pre ++ Event.setStatus .Unhealthy :: post) :
    Event.setStatus .Recovering ∈ pre ∧ (statusWrites pre).getLast? = some .Recovering := by
  have hw : statusWrites tr = statusWrites pre ++ .Unhealthy :: statusWrites post := by
    rw [hsplit, statusWrites_append]
    rfl
  have hpre : statusWrites pre = [.Recovering] := by
    rw [hw] at h
    generalize statusWrites pre = l at h
    generalize statusWrites post = l1 at h
    rcases l with _ | ⟨a, _ | ⟨b, l⟩⟩ <;> simp_all
  refine ⟨mem_of_mem_statusWrites _ pre (by rw [hpre]; simp), by rw [hpre]; rfl⟩

theorem checkDisk_writes (cfg : diskCheckUsecaseConfig) (rt : Runtime) (dsa : diskSysAgency)
    (s : CheckStatus) :
    statusWrites (checkDisk cfg rt dsa s).trace ∈
      [[], [.Healthy], [.Recovering, .Healthy], [.Recovering, .Unhealthy]] := by
  unfold checkDisk checkDiskProbed
  cases s <;> simp <;> (repeat' split) <;> simp

theorem checkElasticsearch_writes (cfg : elasticsearchCheckUsecaseConfig) (rt : Runtime)
    (ea : elasticsearchAgency) (s : CheckStatus) :
    statusWrites (checkElasticsearch cfg rt ea s).trace ∈
      [[], [.Healthy], [.Recovering, .Healthy], [.Recovering, .Unhealthy]] := by
  unfold checkElasticsearch checkElasticsearchProbed
  cases s <;> simp <;> (repeat' split) <;> simp

theorem checkSwarmpit_writes (cfg : swarmpitCheckUsecaseConfig) (rt : Runtime)
    (da : dockerAgency) (s : CheckStatus) :
    statusWrites (checkSwarmpit cfg rt da s).trace ∈
      [[], [.Healthy], [.Recovering, .Healthy], [.Recovering, .Unhealthy]] := by
  unfold checkSwarmpit checkSwarmpitProbed
  cases s <;> simp <;> (repeat' split) <;> simp

/-- C1: in every tick of the Disk, Elasticsearch, Swarmpit and Consul checks, whatever the
agencies answer, each `setStatus(UNHEALTHY)` of the tick comes after a
`setStatus(RECOVERING)` of the same tick, and the status write just before it is that of
RECOVERING, so the status never goes from HEALTHY directly to UNHEALTHY. -/
theorem C1_unhealthy_written_only_after_recovering
    (dcfg : diskCheckUsecaseConfig) (ecfg : elasticsearchCheckUsecaseConfig)
    (scfg : swarmpitCheckUsecaseConfig) (ccfg : consulCheckUsecaseConfig) (rt : Runtime)
    (dsa : diskSysAgency) (ea : elasticsearchAgency) (da : dockerAgency) (ca : consulAgency)
    (ga : gRPCAgency) (range : MapRange) (status : CheckStatus) (pre post : List Event) :
    ((checkDisk dcfg rt dsa status).trace = pre ++ Event.setStatus .Unhealthy :: post →
      Event.setStatus .Recovering ∈ pre ∧ (statusWrites pre).getLast? = some .Recovering) ∧
    ((checkElasticsearch ecfg rt ea status).trace = pre ++ Event.setStatus .Unhealthy :: post →
      Event.setStatus .Recovering ∈ pre ∧ (statusWrites pre).getLast? = some .Recovering) ∧
    ((checkSwarmpit scfg rt da status).trace = pre ++ Event.setStatus .Unhealthy :: post →
      Event.setStatus .Recovering ∈ pre ∧ (statusWrites pre).getLast? = some .Recovering) ∧
    ((checkConsul ccfg rt ca ga da range status).trace =
        pre ++ Event.setStatus .Unhealthy :: post →
      Event.setStatus .Recovering ∈ pre ∧ (statusWrites pre).getLast? = some .Recovering) := by
  refine ⟨guarded_of_writes _ (checkDisk_writes dcfg rt dsa status) pre post,
    guarded_of_writes _ (checkElasticsearch_writes ecfg rt ea status) pre post,
    guarded_of_writes _ (checkSwarmpit_writes scfg rt da status) pre post,
    guarded_of_writes _ ?_ pre post⟩
  rcases checkConsul_writes ccfg rt ca ga da range status with h | h <;> rw [h] <;> simp

/-- C1 at a run: the disk tick with 1 GiB left and a failing prune writes UNHEALTHY after
the five events listed, among them the write of RECOVERING. -/
theorem C1_witness :
    Event.setStatus .Recovering ∈
      [Event.GetRemainDiskCapacity, Event.setStatus .Recovering,
        Event.SendMessage "pill" "!disk check weak detected! start to prune docker system"
          "uuid-0",
        Event.SetAlarmResult, Event.PruneDockerSystem] ∧
    (statusWrites
      [Event.GetRemainDiskCapacity, Event.setStatus .Recovering,
        Event.SendMessage "pill" "!disk check weak detected! start to prune docker system"
          "uuid-0",
        Event.SetAlarmResult, Event.PruneDockerSystem]).getLast? = some .Recovering :=
  (C1_unhealthy_written_only_after_recovering { DiskMinCapacity := 2 * GiB }
    sampleElasticsearchConfig sampleSwarmpitConfig sampleConsulConfig sampleRuntime
    (sampleDisk (.ok GiB) (.ok GiB) (.error "prune refused")) (sampleElasticsearch 500 100)
    (sampleDocker 0) (sampleConsul (.ok [])) sampleGRPC sampleRange .Healthy
    [Event.GetRemainDiskCapacity, Event.setStatus .Recovering,
      Event.SendMessage "pill" "!disk check weak detected! start to prune docker system"
        "uuid-0",
      Event.SetAlarmResult, Event.PruneDockerSystem]
    [Event.SendMessage "anger" "!disk check error occurred! failed to prune docker system"
      "uuid-0"]).1 (by decide)

/-- C2 (the code departs from the claim): the Disk, Elasticsearch and Swarmpit checks call
their probe before they look at the status, so a tick entered with status RECOVERING makes
exactly one probe call; when the probe succeeds the record carries the probed value (disk,
10 GiB remaining), and when it fails (disk, "no device") the record is `[ERROR]` with an
error, one "x" chat and an alarm. Only the Consul check returns before any call. -/
theorem C2_recovering_tick_still_probes
    (dcfg : diskCheckUsecaseConfig) (ecfg : elasticsearchCheckUsecaseConfig)
    (scfg : swarmpitCheckUsecaseConfig) (ccfg : consulCheckUsecaseConfig) (rt : Runtime)
    (dsa : diskSysAgency) (ea : elasticsearchAgency) (da : dockerAgency) (ca : consulAgency)
    (ga : gRPCAgency) (range : MapRange) :
    (checkDisk dcfg rt dsa .Recovering).trace.filter Event.isProbe =
      [Event.GetRemainDiskCapacity] ∧
    (checkElasticsearch ecfg rt ea .Recovering).trace.filter Event.isProbe =
      [Event.GetClusterHealth] ∧
    (checkSwarmpit scfg rt da .Recovering).trace.filter Event.isProbe =
      [Event.GetContainerWithServiceName scfg.SwarmpitAppServiceName] ∧
    (checkConsul ccfg rt ca ga da range .Recovering).trace = [] ∧
    (checkDisk { DiskMinCapacity := 2 * GiB } sampleRuntime
      (sampleDisk (.ok (10 * GiB)) (.ok (10 * GiB)) (.ok 0)) .Recovering).fields.RemainingCap =
      10 * GiB ∧
    (checkDisk { DiskMinCapacity := 2 * GiB } sampleRuntime
      (sampleDisk (.error "no device") (.ok GiB) (.ok 0)) .Recovering).history.ProcessLevel =
      [errorLevel] ∧
    (checkDisk { DiskMinCapacity := 2 * GiB } sampleRuntime
      (sampleDisk (.error "no device") (.ok GiB) (.ok 0)) .Recovering).history.Error =
      some "failed to get disk capacity: no device" ∧
    (checkDisk { DiskMinCapacity := 2 * GiB } sampleRuntime
      (sampleDisk (.error "no device") (.ok GiB) (.ok 0)) .Recovering).history.alerted = true ∧
    sentEmojis (checkDisk { DiskMinCapacity := 2 * GiB } sampleRuntime
      (sampleDisk (.error "no device") (.ok GiB) (.ok 0)) .Recovering).trace = ["x"] := by
  refine ⟨?_, ?_, ?_, ?_, ?_, ?_, ?_, ?_, ?_⟩
  · unfold checkDisk checkDiskProbed
    simp
    split <;> simp
  · unfold checkElasticsearch checkElasticsearchProbed
    simp
    split <;> simp
  · unfold checkSwarmpit checkSwarmpitProbed
    simp
    split <;> simp
  · simp [checkConsul]
  · simp [checkDisk, checkDiskProbed, sampleDisk]
  · simp [checkDisk, checkDiskProbed, sampleDisk]
  · simp [checkDisk, checkDiskProbed, sampleDisk, errorsWrap]
  · simp [checkDisk, checkDiskProbed, sampleDisk]
  · simp [checkDisk, checkDiskProbed, sampleDisk]

/-- C3: a tick entered with status RECOVERING or UNHEALTHY calls no remediation-class
agency method (`PruneDockerSystem`, `GetIndicesWithPatterns`, `DeleteIndices`,
`RemoveContainer`, `DeregisterInstance`), for each of the four checks and whatever the
agencies answer. -/
theorem C3_no_remediation_unless_entered_healthy
    (dcfg : diskCheckUsecaseConfig) (ecfg : elasticsearchCheckUsecaseConfig)
    (scfg : swarmpitCheckUsecaseConfig) (ccfg : consulCheckUsecaseConfig) (rt : Runtime)
    (dsa : diskSysAgency) (ea : elasticsearchAgency) (da : dockerAgency) (ca : consulAgency)
    (ga : gRPCAgency) (range : MapRange) (status : CheckStatus)
    (h : status = .Recovering ∨ status = .Unhealthy) :
    (checkDisk dcfg rt dsa status).trace.filter Event.isRemediation = [] ∧
    (checkElasticsearch ecfg rt ea status).trace.filter Event.isRemediation = [] ∧
    (checkSwarmpit scfg rt da status).trace.filter Event.isRemediation = [] ∧
    (checkConsul ccfg rt ca ga da range status).trace.filter Event.isRemediation = [] := by
  refine ⟨?_, ?_, ?_, ?_⟩
  · unfold checkDisk checkDiskProbed
    rcases h with rfl | rfl <;> simp <;> (repeat' split) <;> simp
  · unfold checkElasticsearch checkElasticsearchProbed
    rcases h with rfl | rfl <;> simp <;> (repeat' split) <;> simp
  · unfold checkSwarmpit checkSwarmpitProbed
    rcases h with rfl | rfl <;> simp <;> (repeat' split) <;> simp
  · rcases h with rfl | rfl <;> simp [checkConsul]

/-- C3 at a run: ticks entered UNHEALTHY with weak probe values call no remediation. -/
theorem C3_witness :
    (checkDisk { DiskMinCapacity := 2 * GiB } sampleRuntime
      (sampleDisk (.ok GiB) (.ok GiB) (.ok 0)) .Unhealthy).trace.filter Event.isRemediation = [] ∧
    (checkElasticsearch sampleElasticsearchConfig sampleRuntime (sampleElasticsearch 900 100)
      .Unhealthy).trace.filter Event.isRemediation = [] ∧
    (checkSwarmpit sampleSwarmpitConfig sampleRuntime (sampleDocker (5 * GiB))
      .Unhealthy).trace.filter Event.isRemediation = [] ∧
    (checkConsul sampleConsulConfig sampleRuntime (sampleConsul (.ok [])) sampleGRPC
      (sampleDocker 0) sampleRange .Unhealthy).trace.filter Event.isRemediation = [] :=
  C3_no_remediation_unless_entered_healthy { DiskMinCapacity := 2 * GiB }
    sampleElasticsearchConfig sampleSwarmpitConfig sampleConsulConfig sampleRuntime
    (sampleDisk (.ok GiB) (.ok GiB) (.ok 0)) (sampleElasticsearch 900 100)
    (sampleDocker (5 * GiB)) (sampleConsul (.ok [])) sampleGRPC sampleRange .Unhealthy
    (Or.inr rfl)

/-- C4 as stated fails at the threshold itself: entered UNHEALTHY with a probed value equal
to the threshold (which does not meet the weakness condition), each of the Disk,
Elasticsearch and Swarmpit checks stays UNHEALTHY with process level `[UNHEALTHY]`. -/
theorem C4_counterexample :
    (2 * GiB ≥ 2 * GiB ∧
      (checkDisk { DiskMinCapacity := 2 * GiB } sampleRuntime
        (sampleDisk (.ok (2 * GiB)) (.ok (2 * GiB)) (.ok 0)) .Unhealthy).status = .Unhealthy ∧
      (checkDisk { DiskMinCapacity := 2 * GiB } sampleRuntime
        (sampleDisk (.ok (2 * GiB)) (.ok (2 * GiB)) (.ok 0)) .Unhealthy).history.ProcessLevel =
        [unhealthyLevel]) ∧
    (intAdd 800 100 ≤ sampleElasticsearchConfig.MaximumShardsNumber ∧
      (checkElasticsearch sampleElasticsearchConfig sampleRuntime (sampleElasticsearch 800 100)
        .Unhealthy).status = .Unhealthy ∧
      (checkElasticsearch sampleElasticsearchConfig sampleRuntime (sampleElasticsearch 800 100)
        .Unhealthy).history.ProcessLevel = [unhealthyLevel]) ∧
    (4 * GiB ≤ sampleSwarmpitConfig.SwarmpitAppMaxMemoryUsage ∧
      (checkSwarmpit sampleSwarmpitConfig sampleRuntime (sampleDocker (4 * GiB))
        .Unhealthy).status = .Unhealthy ∧
      (checkSwarmpit sampleSwarmpitConfig sampleRuntime (sampleDocker (4 * GiB))
        .Unhealthy).history.ProcessLevel = [unhealthyLevel]) := by
  refine ⟨⟨by decide, ?_, ?_⟩, ⟨by decide, ?_, ?_⟩, ⟨by decide, ?_, ?_⟩⟩
  · simp [checkDisk, checkDiskProbed, sampleDisk]
  · simp [checkDisk, checkDiskProbed, sampleDisk]
  · simp [checkElasticsearch, checkElasticsearchProbed, sampleElasticsearch,
      sampleElasticsearchConfig, (by decide : intAdd 800 100 = 900)]
  · simp [checkElasticsearch, checkElasticsearchProbed, sampleElasticsearch,
      sampleElasticsearchConfig, (by decide : intAdd 800 100 = 900)]
  · simp [checkSwarmpit, checkSwarmpitProbed, sampleDocker, sampleSwarmpitConfig]
  · simp [checkSwarmpit, checkSwarmpitProbed, sampleDocker, sampleSwarmpitConfig]

/-- C4 (amended): for the Disk, Elasticsearch and Swarmpit checks, a tick entered UNHEALTHY
whose probe succeeds ends HEALTHY with process level exactly `[RECOVERED]` and one
"heart" chat when the probed value is strictly on the healthy side of the threshold
(disk: remaining > min capacity; Elasticsearch: active + unassigned shards < maximum
shards, the sum being the Go sum the code computes; Swarmpit: memory usage < maximum
memory); otherwise the status stays UNHEALTHY, the process level is exactly `[UNHEALTHY]`
and no chat is sent. -/
theorem C4_unhealthy_tick_recovers_strictly_past_threshold
    (dcfg : diskCheckUsecaseConfig) (ecfg : elasticsearchCheckUsecaseConfig)
    (scfg : swarmpitCheckUsecaseConfig) (rt : Runtime)
    (dsa : diskSysAgency) (ea : elasticsearchAgency) (da : dockerAgency)
    (r : Nat) (cluster : ClusterHealth) (ctn : Container)
    (hd : dsa.GetRemainDiskCapacity 0 = .ok r)
    (he : ea.GetClusterHealth 0 = .ok cluster)
    (hs : da.GetContainerWithServiceName 0 scfg.SwarmpitAppServiceName = .ok ctn) :
    ((dcfg.DiskMinCapacity < r →
        (checkDisk dcfg rt dsa .Unhealthy).status = .Healthy ∧
        (checkDisk dcfg rt dsa .Unhealthy).history.ProcessLevel = [recoveredLevel] ∧
        sentEmojis (checkDisk dcfg rt dsa .Unhealthy).trace = ["heart"]) ∧
      (¬ dcfg.DiskMinCapacity < r →
        (checkDisk dcfg rt dsa .Unhealthy).status = .Unhealthy ∧
        (checkDisk dcfg rt dsa .Unhealthy).history.ProcessLevel = [unhealthyLevel] ∧
        sentEmojis (checkDisk dcfg rt dsa .Unhealthy).trace = [])) ∧
    ((intAdd cluster.ActiveShards cluster.UnassignedShards < ecfg.MaximumShardsNumber →
        (checkElasticsearch ecfg rt ea .Unhealthy).status = .Healthy ∧
        (checkElasticsearch ecfg rt ea .Unhealthy).history.ProcessLevel = [recoveredLevel] ∧
        sentEmojis (checkElasticsearch ecfg rt ea .Unhealthy).trace = ["heart"]) ∧
      (¬ intAdd cluster.ActiveShards cluster.UnassignedShards < ecfg.MaximumShardsNumber →
        (checkElasticsearch ecfg rt ea .Unhealthy).status = .Unhealthy ∧
        (checkElasticsearch ecfg rt ea .Unhealthy).history.ProcessLevel = [unhealthyLevel] ∧
        sentEmojis (checkElasticsearch ecfg rt ea .Unhealthy).trace = [])) ∧
    ((ctn.MemoryUsage < scfg.SwarmpitAppMaxMemoryUsage →
        (checkSwarmpit scfg rt da .Unhealthy).status = .Healthy ∧
        (checkSwarmpit scfg rt da .Unhealthy).history.ProcessLevel = [recoveredLevel] ∧
        sentEmojis (checkSwarmpit scfg rt da .Unhealthy).trace = ["heart"]) ∧
      (¬ ctn.MemoryUsage < scfg.SwarmpitAppMaxMemoryUsage →
        (checkSwarmpit scfg rt da .Unhealthy).status = .Unhealthy ∧
        (checkSwarmpit scfg rt da .Unhealthy).history.ProcessLevel = [unhealthyLevel] ∧
        sentEmojis (checkSwarmpit scfg rt da .Unhealthy).trace = [])) := by
  refine ⟨⟨?_, ?_⟩, ⟨?_, ?_⟩, ⟨?_, ?_⟩⟩
  · intro h; simp [checkDisk, checkDiskProbed, hd, h]
  · intro h; simp [checkDisk, checkDiskProbed, hd, h]
  · intro h; simp [checkElasticsearch, checkElasticsearchProbed, he, h]
  · intro h; simp [checkElasticsearch, checkElasticsearchProbed, he, h]
  · intro h; simp [checkSwarmpit, checkSwarmpitProbed, hs, h]
  · intro h; simp [checkSwarmpit, checkSwarmpitProbed, hs, h]

/-- C4 (amended) at a run: entered UNHEALTHY with 10 GiB left and 2 GiB required, the disk
check recovers. -/
theorem C4_witness :
    (checkDisk { DiskMinCapacity := 2 * GiB } sampleRuntime
      (sampleDisk (.ok (10 * GiB)) (.ok (10 * GiB)) (.ok 0)) .Unhealthy).status = .Healthy ∧
    (checkDisk { DiskMinCapacity := 2 * GiB } sampleRuntime
      (sampleDisk (.ok (10 * GiB)) (.ok (10 * GiB)) (.ok 0)) .Unhealthy).history.ProcessLevel =
      [recoveredLevel] ∧
    sentEmojis (checkDisk { DiskMinCapacity := 2 * GiB } sampleRuntime
      (sampleDisk (.ok (10 * GiB)) (.ok (10 * GiB)) (.ok 0)) .Unhealthy).trace = ["heart"] :=
  (C4_unhealthy_tick_recovers_strictly_past_threshold { DiskMinCapacity := 2 * GiB }
    sampleElasticsearchConfig sampleSwarmpitConfig sampleRuntime
    (sampleDisk (.ok (10 * GiB)) (.ok (10 * GiB)) (.ok 0)) (sampleElasticsearch 500 100)
    (sampleDocker GiB) (10 * GiB)
    { ActivePrimaryShards := 500, ActiveShards := 500, UnassignedShards := 100,
      ActiveShardsPercent := 100 }
    { ID := "id-swarmpit_app", MemoryUsage := GiB } rfl rfl rfl).1.1 (by decide)

/-- C6: a tick entered HEALTHY whose first probe call fails (Disk: `GetRemainDiskCapacity`;
Elasticsearch: `GetClusterHealth`; Swarmpit: `GetContainerWithServiceName`; Consul:
`GetServices` of some target service) returns a record with process level exactly
`[ERROR]`, a non-null error whose text is also the message, sends exactly one chat
message ("x") whose answer is stored as the alarm (`alerted` true), calls no remediation
method and leaves the status HEALTHY. -/
theorem C6_probe_failure_is_reported_once
    (dcfg : diskCheckUsecaseConfig) (ecfg : elasticsearchCheckUsecaseConfig)
    (scfg : swarmpitCheckUsecaseConfig) (ccfg : consulCheckUsecaseConfig) (rt : Runtime)
    (dsa : diskSysAgency) (ea : elasticsearchAgency) (da : dockerAgency) (ca : consulAgency)
    (ga : gRPCAgency) (range : MapRange)
    (e1 e2 e3 e4 srv : String) (k : Nat)
    (hd : dsa.GetRemainDiskCapacity 0 = .error e1)
    (he : ea.GetClusterHealth 0 = .error e2)
    (hs : da.GetContainerWithServiceName 0 scfg.SwarmpitAppServiceName = .error e3)
    (hk : ccfg.CheckTargetServices[k]? = some srv)
    (hc : ca.GetServices k (ccfg.ConsulServiceNameSpace ++ srv) = .error e4) :
    ((checkDisk dcfg rt dsa .Healthy).history.ProcessLevel = [errorLevel] ∧
      (∃ err, (checkDisk dcfg rt dsa .Healthy).history.Error = some err ∧
        (checkDisk dcfg rt dsa .Healthy).history.Message = err) ∧
      sentEmojis (checkDisk dcfg rt dsa .Healthy).trace = ["x"] ∧
      (checkDisk dcfg rt dsa .Healthy).history.alerted = true ∧
      ((checkDisk dcfg rt dsa .Healthy).history.alarmTime,
        (checkDisk dcfg rt dsa .Healthy).history.alarmText,
        (checkDisk dcfg rt dsa .Healthy).history.alarmErr) =
        rt.SendMessage 0 "x" "!disk check error occurred! unable to get remain disk capacity"
          rt.uuid ∧
      (checkDisk dcfg rt dsa .Healthy).trace.filter Event.isRemediation = [] ∧
      (checkDisk dcfg rt dsa .Healthy).status = .Healthy) ∧
    ((checkElasticsearch ecfg rt ea .Healthy).history.ProcessLevel = [errorLevel] ∧
      (∃ err, (checkElasticsearch ecfg rt ea .Healthy).history.Error = some err ∧
        (checkElasticsearch ecfg rt ea .Healthy).history.Message = err) ∧
      sentEmojis (checkElasticsearch ecfg rt ea .Healthy).trace = ["x"] ∧
      (checkElasticsearch ecfg rt ea .Healthy).history.alerted = true ∧
      ((checkElasticsearch ecfg rt ea .Healthy).history.alarmTime,
        (checkElasticsearch ecfg rt ea .Healthy).history.alarmText,
        (checkElasticsearch ecfg rt ea .Healthy).history.alarmErr) =
        rt.SendMessage 0 "x" "!elasticsearch check error occurred! unable to get cluster health"
          rt.uuid ∧
      (checkElasticsearch ecfg rt ea .Healthy).trace.filter Event.isRemediation = [] ∧
      (checkElasticsearch ecfg rt ea .Healthy).status = .Healthy) ∧
    ((checkSwarmpit scfg rt da .Healthy).history.ProcessLevel = [errorLevel] ∧
      (∃ err, (checkSwarmpit scfg rt da .Healthy).history.Error = some err ∧
        (checkSwarmpit scfg rt da .Healthy).history.Message = err) ∧
      sentEmojis (checkSwarmpit scfg rt da .Healthy).trace = ["x"] ∧
      (checkSwarmpit scfg rt da .Healthy).history.alerted = true ∧
      ((checkSwarmpit scfg rt da .Healthy).history.alarmTime,
        (checkSwarmpit scfg rt da .Healthy).history.alarmText,
        (checkSwarmpit scfg rt da .Healthy).history.alarmErr) =
        rt.SendMessage 0 "x"
          "!swarmpit check error occurred! unable to get swarmpit app container" rt.uuid ∧
      (checkSwarmpit scfg rt da .Healthy).trace.filter Event.isRemediation = [] ∧
      (checkSwarmpit scfg rt da .Healthy).status = .Healthy) ∧
    ((checkConsul ccfg rt ca ga da range .Healthy).history.ProcessLevel = [errorLevel] ∧
      (∃ err, (checkConsul ccfg rt ca ga da range .Healthy).history.Error = some err ∧
        (checkConsul ccfg rt ca ga da range .Healthy).history.Message = err) ∧
      sentEmojis (checkConsul ccfg rt ca ga da range .Healthy).trace = ["x"] ∧
      (checkConsul ccfg rt ca ga da range .Healthy).history.alerted = true ∧
      ((checkConsul ccfg rt ca ga da range .Healthy).history.alarmTime,
        (checkConsul ccfg rt ca ga da range .Healthy).history.alarmText,
        (checkConsul ccfg rt ca ga da range .Healthy).history.alarmErr) =
        rt.SendMessage 0 "x" "!consul check error occurred! unable to get services in consul"
          rt.uuid ∧
      (checkConsul ccfg rt ca ga da range .Healthy).trace.filter Event.isRemediation = [] ∧
      (checkConsul ccfg rt ca ga da range .Healthy).status = .Healthy) := by
  refine ⟨?_, ?_, ?_, checkConsul_probe_failed ccfg rt ca ga da range k srv e4 hk hc⟩
  · simp [checkDisk, hd]
  · simp [checkElasticsearch, he]
  · simp [checkSwarmpit, hs]

/-- C6 at a run where every first probe call fails. -/
theorem C6_witness :
    (checkDisk { DiskMinCapacity := 2 * GiB } sampleRuntime
      (sampleDisk (.error "no device") (.ok GiB) (.ok 0)) .Healthy).history.ProcessLevel =
      [errorLevel] ∧
    (checkConsul sampleConsulConfig sampleRuntime (sampleConsul (.error "consul is down"))
      sampleGRPC { GetContainerWithServiceName := fun _ _ => .error "docker is down",
                   RemoveContainer := fun _ _ _ => none }
      sampleRange .Healthy).status = .Healthy := by
  have h := C6_probe_failure_is_reported_once { DiskMinCapacity := 2 * GiB }
    sampleElasticsearchConfig sampleSwarmpitConfig sampleConsulConfig sampleRuntime
    (sampleDisk (.error "no device") (.ok GiB) (.ok 0))
    { GetClusterHealth := fun _ => .error "cluster is down",
      GetIndicesWithPatterns := fun _ _ => .error "cluster is down",
      DeleteIndices := fun _ _ => none }
    { GetContainerWithServiceName := fun _ _ => .error "docker is down",
      RemoveContainer := fun _ _ _ => none }
    (sampleConsul (.error "consul is down")) sampleGRPC sampleRange
    "no device" "cluster is down" "docker is down" "consul is down" "auth" 0
    rfl rfl rfl rfl rfl
  exact ⟨h.1.1, h.2.2.2.2.2.2.2.2.2⟩

/-- C7 as stated fails: in the Disk check a failing prune leaves a record whose error is
non-null while its process level is `[WEAK_DETECTED, WARNING]`, without ERROR. -/
theorem C7_counterexample :
    (checkDisk { DiskMinCapacity := 2 * GiB } sampleRuntime
      (sampleDisk (.ok GiB) (.ok GiB) (.error "prune refused")) .Healthy).history.Error ≠ none ∧
    errorLevel ∉ (checkDisk { DiskMinCapacity := 2 * GiB } sampleRuntime
      (sampleDisk (.ok GiB) (.ok GiB) (.error "prune refused")) .Healthy).history.ProcessLevel := by
  constructor
  · simp [checkDisk, checkDiskProbed, sampleDisk, GiB]
  · simp [checkDisk, checkDiskProbed, sampleDisk, GiB]

/-- C7 (amended): for every entry status and all agency answers, a record of the
Elasticsearch or Swarmpit check with a non-null error has ERROR in its process level; a
record of the Disk check with a non-null error has ERROR in its process level or, after a
failed prune, the process level `[WEAK_DETECTED, WARNING]`; a record of the Consul check
with a non-null error has ERROR in its process level whenever the tick did not take the
container-restart remediation (`if_container_restarted` false). -/
theorem C7_error_is_labelled
    (dcfg : diskCheckUsecaseConfig) (ecfg : elasticsearchCheckUsecaseConfig)
    (scfg : swarmpitCheckUsecaseConfig) (ccfg : consulCheckUsecaseConfig) (rt : Runtime)
    (dsa : diskSysAgency) (ea : elasticsearchAgency) (da : dockerAgency) (ca : consulAgency)
    (ga : gRPCAgency) (range : MapRange) (status : CheckStatus) :
    ((checkDisk dcfg rt dsa status).history.Error ≠ none →
      errorLevel ∈ (checkDisk dcfg rt dsa status).history.ProcessLevel ∨
      ((checkDisk dcfg rt dsa status).history.ProcessLevel =
          [weakDetectedLevel, warningLevel] ∧
        Event.PruneDockerSystem ∈ (checkDisk dcfg rt dsa status).trace)) ∧
    ((checkElasticsearch ecfg rt ea status).history.Error ≠ none →
      errorLevel ∈ (checkElasticsearch ecfg rt ea status).history.ProcessLevel) ∧
    ((checkSwarmpit scfg rt da status).history.Error ≠ none →
      errorLevel ∈ (checkSwarmpit scfg rt da status).history.ProcessLevel) ∧
    ((checkConsul ccfg rt ca ga da range status).fields.IfContainerRestarted = false →
      (checkConsul ccfg rt ca ga da range status).history.Error ≠ none →
      errorLevel ∈ (checkConsul ccfg rt ca ga da range status).history.ProcessLevel) := by
  refine ⟨?_, ?_, ?_, checkConsul_error ccfg rt ca ga da range status⟩
  · unfold checkDisk checkDiskProbed
    cases status <;> simp <;> (repeat' split) <;> simp
  · unfold checkElasticsearch checkElasticsearchProbed
    cases status <;> simp <;> (repeat' split) <;> simp
  · unfold checkSwarmpit checkSwarmpitProbed
    cases status <;> simp <;> (repeat' split) <;> simp

/-- C7 (amended) at a run: an Elasticsearch tick whose probe fails. -/
theorem C7_witness :
    errorLevel ∈ (checkElasticsearch sampleElasticsearchConfig sampleRuntime
      { GetClusterHealth := fun _ => .error "cluster is down",
        GetIndicesWithPatterns := fun _ _ => .error "cluster is down",
        DeleteIndices := fun _ _ => none } .Unhealthy).history.ProcessLevel :=
  (C7_error_is_labelled { DiskMinCapacity := 2 * GiB } sampleElasticsearchConfig
    sampleSwarmpitConfig sampleConsulConfig sampleRuntime
    (sampleDisk (.ok GiB) (.ok GiB) (.error "prune refused"))
    { GetClusterHealth := fun _ => .error "cluster is down",
      GetIndicesWithPatterns := fun _ _ => .error "cluster is down",
      DeleteIndices := fun _ _ => none }
    (sampleDocker GiB) (sampleConsul (.ok [])) sampleGRPC sampleRange .Unhealthy).2.1
    (by simp [checkElasticsearch])

/-- C8: Disk check entered HEALTHY, first probe `r1` below the min capacity, prune
reclaiming `r`, re-probe `r2` above the min capacity: the chats sent are exactly "pill"
then "heart", the status ends HEALTHY, the record has `reclaimed_capacity = r`, process
level exactly `[WEAK_DETECTED]` and no error. -/
theorem C8_disk_prune_recovers (cfg : diskCheckUsecaseConfig) (rt : Runtime)
    (dsa : diskSysAgency) (r1 r r2 : Nat)
    (h1 : dsa.GetRemainDiskCapacity 0 = .ok r1) (hlt : r1 < cfg.DiskMinCapacity)
    (hp : dsa.PruneDockerSystem 0 = .ok r) (h2 : dsa.GetRemainDiskCapacity 1 = .ok r2)
    (hgt : cfg.DiskMinCapacity < r2) :
    sentEmojis (checkDisk cfg rt dsa .Healthy).trace = ["pill", "heart"] ∧
    (checkDisk cfg rt dsa .Healthy).status = .Healthy ∧
    (checkDisk cfg rt dsa .Healthy).fields.ReclaimedCap = r ∧
    (checkDisk cfg rt dsa .Healthy).history.ProcessLevel = [weakDetectedLevel] ∧
    (checkDisk cfg rt dsa .Healthy).history.Error = none := by
  simp [checkDisk, checkDiskProbed, h1, hlt, hp, h2, hgt]

/-- C8 at the run of the claim: 2 GiB required, probes 1 GiB then 5 GiB, prune reclaims
4 GiB. -/
theorem C8_witness :
    sentEmojis (checkDisk { DiskMinCapacity := 2 * GiB } sampleRuntime
      (sampleDisk (.ok GiB) (.ok (5 * GiB)) (.ok (4 * GiB))) .Healthy).trace =
      ["pill", "heart"] ∧
    (checkDisk { DiskMinCapacity := 2 * GiB } sampleRuntime
      (sampleDisk (.ok GiB) (.ok (5 * GiB)) (.ok (4 * GiB))) .Healthy).status = .Healthy ∧
    (checkDisk { DiskMinCapacity := 2 * GiB } sampleRuntime
      (sampleDisk (.ok GiB) (.ok (5 * GiB)) (.ok (4 * GiB))) .Healthy).fields.ReclaimedCap =
      4 * GiB ∧
    (checkDisk { DiskMinCapacity := 2 * GiB } sampleRuntime
      (sampleDisk (.ok GiB) (.ok (5 * GiB)) (.ok (4 * GiB))) .Healthy).history.ProcessLevel =
      [weakDetectedLevel] ∧
    (checkDisk { DiskMinCapacity := 2 * GiB } sampleRuntime
      (sampleDisk (.ok GiB) (.ok (5 * GiB)) (.ok (4 * GiB))) .Healthy).history.Error = none :=
  C8_disk_prune_recovers { DiskMinCapacity := 2 * GiB } sampleRuntime
    (sampleDisk (.ok GiB) (.ok (5 * GiB)) (.ok (4 * GiB))) GiB (4 * GiB) (5 * GiB)
    rfl (by decide) rfl rfl (by decide)

/-- C9: Disk check entered HEALTHY, first probe below the min capacity, prune failing: the
chats sent are exactly "pill" then "anger", the probe is called once only (no re-probe),
the status ends UNHEALTHY, the process level is exactly `[WEAK_DETECTED, WARNING]` and
the error is non-null. -/
theorem C9_disk_prune_failure (cfg : diskCheckUsecaseConfig) (rt : Runtime)
    (dsa : diskSysAgency) (r1 : Nat) (e : String)
    (h1 : dsa.GetRemainDiskCapacity 0 = .ok r1) (hlt : r1 < cfg.DiskMinCapacity)
    (hp : dsa.PruneDockerSystem 0 = .error e) :
    sentEmojis (checkDisk cfg rt dsa .Healthy).trace = ["pill", "anger"] ∧
    callsOf .GetRemainDiskCapacity (checkDisk cfg rt dsa .Healthy).trace = 1 ∧
    (checkDisk cfg rt dsa .Healthy).status = .Unhealthy ∧
    (checkDisk cfg rt dsa .Healthy).history.ProcessLevel = [weakDetectedLevel, warningLevel] ∧
    (checkDisk cfg rt dsa .Healthy).history.Error =
      some (errorsWrap e "failed to prune docker system") := by
  simp [checkDisk, checkDiskProbed, h1, hlt, hp]

/-- C9 at the run of the claim: probe 1 GiB with 2 GiB required, prune fails. -/
theorem C9_witness :
    sentEmojis (checkDisk { DiskMinCapacity := 2 * GiB } sampleRuntime
      (sampleDisk (.ok GiB) (.ok GiB) (.error "prune refused")) .Healthy).trace =
      ["pill", "anger"] ∧
    callsOf .GetRemainDiskCapacity (checkDisk { DiskMinCapacity := 2 * GiB } sampleRuntime
      (sampleDisk (.ok GiB) (.ok GiB) (.error "prune refused")) .Healthy).trace = 1 ∧
    (checkDisk { DiskMinCapacity := 2 * GiB } sampleRuntime
      (sampleDisk (.ok GiB) (.ok GiB) (.error "prune refused")) .Healthy).status = .Unhealthy ∧
    (checkDisk { DiskMinCapacity := 2 * GiB } sampleRuntime
      (sampleDisk (.ok GiB) (.ok GiB) (.error "prune refused")) .Healthy).history.ProcessLevel =
      [weakDetectedLevel, warningLevel] ∧
    (checkDisk { DiskMinCapacity := 2 * GiB } sampleRuntime
      (sampleDisk (.ok GiB) (.ok GiB) (.error "prune refused")) .Healthy).history.Error =
      some (errorsWrap "prune refused" "failed to prune docker system") :=
  C9_disk_prune_failure { DiskMinCapacity := 2 * GiB } sampleRuntime
    (sampleDisk (.ok GiB) (.ok GiB) (.error "prune refused")) GiB "prune refused"
    rfl (by decide) rfl

/-- C10 as stated fails when the re-probe returns exactly the min capacity: the value is
not below the min capacity, yet the status ends UNHEALTHY. -/
theorem C10_counterexample :
    ¬ (2 * GiB < 2 * GiB) ∧
    (checkDisk { DiskMinCapacity := 2 * GiB } sampleRuntime
      (sampleDisk (.ok GiB) (.ok (2 * GiB)) (.ok (4 * GiB))) .Healthy).status = .Unhealthy := by
  constructor
  · decide
  · simp [checkDisk, checkDiskProbed, sampleDisk, GiB]

/-- C10 (amended): Disk check entered HEALTHY, weakness detected, prune succeeded and
re-probe succeeded with value `r2`: the status ends HEALTHY if and only if `r2` is
strictly above the min capacity, and UNHEALTHY if and only if `r2 <= min capacity`. -/
theorem C10_disk_reprobe_decides (cfg : diskCheckUsecaseConfig) (rt : Runtime)
    (dsa : diskSysAgency) (r1 r r2 : Nat)
    (h1 : dsa.GetRemainDiskCapacity 0 = .ok r1) (hlt : r1 < cfg.DiskMinCapacity)
    (hp : dsa.PruneDockerSystem 0 = .ok r) (h2 : dsa.GetRemainDiskCapacity 1 = .ok r2) :
    ((checkDisk cfg rt dsa .Healthy).status = .Healthy ↔ cfg.DiskMinCapacity < r2) ∧
    ((checkDisk cfg rt dsa .Healthy).status = .Unhealthy ↔ r2 ≤ cfg.DiskMinCapacity) := by
  by_cases hgt : cfg.DiskMinCapacity < r2
  · have hle : ¬ r2 ≤ cfg.DiskMinCapacity := Nat.not_le.mpr hgt
    simp [checkDisk, checkDiskProbed, h1, hlt, hp, h2, hgt, hle]
  · have hle : r2 ≤ cfg.DiskMinCapacity := Nat.not_lt.mp hgt
    simp [checkDisk, checkDiskProbed, h1, hlt, hp, h2, hgt, hle]

/-- C10 (amended) at a run: a re-probe of exactly the required 2 GiB ends UNHEALTHY. -/
theorem C10_witness :
    ((checkDisk { DiskMinCapacity := 2 * GiB } sampleRuntime
      (sampleDisk (.ok GiB) (.ok (2 * GiB)) (.ok (4 * GiB))) .Healthy).status = .Healthy ↔
      2 * GiB < 2 * GiB) ∧
    ((checkDisk { DiskMinCapacity := 2 * GiB } sampleRuntime
      (sampleDisk (.ok GiB) (.ok (2 * GiB)) (.ok (4 * GiB))) .Healthy).status = .Unhealthy ↔
      2 * GiB ≤ 2 * GiB) :=
  C10_disk_reprobe_decides { DiskMinCapacity := 2 * GiB } sampleRuntime
    (sampleDisk (.ok GiB) (.ok (2 * GiB)) (.ok (4 * GiB))) GiB (4 * GiB) (2 * GiB)
    rfl (by decide) rfl rfl

attribute [simp] lookupCalls removeCalls deregisterCalls

theorem lookupCalls_append (a b : List Event) :
    lookupCalls (a ++ b) = lookupCalls a ++ lookupCalls b := by
  induction a with
  | nil => simp
  | cons e rest ih => cases e <;> simp [ih]

theorem removeCalls_append (a b : List Event) :
    removeCalls (a ++ b) = removeCalls a ++ removeCalls b := by
  induction a with
  | nil => simp
  | cons e rest ih => cases e <;> simp [ih]

theorem deregisterCalls_append (a b : List Event) :
    deregisterCalls (a ++ b) = deregisterCalls a ++ deregisterCalls b := by
  induction a with
  | nil => simp
  | cons e rest ih => cases e <;> simp [ih]

theorem lookupCalls_nil_of (ext : List Event)
    (h : ∀ e ∈ ext, e.method ≠ some .GetContainerWithServiceName) : lookupCalls ext = [] := by
  induction ext with
  | nil => rfl
  | cons e rest ih =>
    have he := h e (List.mem_cons_self _ _)
    have hr := ih (fun x hx => h x (List.mem_cons_of_mem _ hx))
    cases e <;> simp_all

theorem removeCalls_nil_of (ext : List Event)
    (h : ∀ e ∈ ext, e.method ≠ some .RemoveContainer) : removeCalls ext = [] := by
  induction ext with
  | nil => rfl
  | cons e rest ih =>
    have he := h e (List.mem_cons_self _ _)
    have hr := ih (fun x hx => h x (List.mem_cons_of_mem _ hx))
    cases e <;> simp_all

theorem deregisterCalls_nil_of (ext : List Event)
    (h : ∀ e ∈ ext, e.method ≠ some .DeregisterInstance) : deregisterCalls ext = [] := by
  induction ext with
  | nil => rfl
  | cons e rest ih =>
    have he := h e (List.mem_cons_self _ _)
    have hr := ih (fun x hx => h x (List.mem_cons_of_mem _ hx))
    cases e <;> simp_all

theorem timedOutIDs_append (cfg : consulCheckUsecaseConfig) (ga : gRPCAgency) :
    ∀ (a b : List Instance) (n : Nat),
    timedOutIDs cfg ga n (a ++ b) =
      timedOutIDs cfg ga n a ++ timedOutIDs cfg ga (n + a.length) b := by
  intro a
  induction a with
  | nil => intro b n; simp [timedOutIDs]
  | cons srv rest ih =>
    intro b n
    have hlen : n + (srv :: rest).length = n + 1 + rest.length := by
      simp only [List.length_cons]; omega
    rw [List.cons_append, hlen]
    simp only [timedOutIDs]
    rw [ih]
    split <;> simp

theorem noPingError_append (cfg : consulCheckUsecaseConfig) (ga : gRPCAgency) :
    ∀ (a b : List Instance) (n : Nat),
    noPingError cfg ga n (a ++ b) =
      (noPingError cfg ga n a && noPingError cfg ga (n + a.length) b) := by
  intro a
  induction a with
  | nil => intro b n; simp [noPingError]
  | cons srv rest ih =>
    intro b n
    have hlen : n + (srv :: rest).length = n + 1 + rest.length := by
      simp only [List.length_cons]; omega
    rw [List.cons_append, hlen]
    simp only [noPingError]
    rw [ih, Bool.and_assoc]

theorem consulPingInstances_clean (cfg : consulCheckUsecaseConfig) (ga : gRPCAgency) :
    ∀ (l : List Instance) (ccu : Tick ConsulCheckFields) (ids : List String),
    noPingError cfg ga (callsOf .PingToCheckConn ccu.trace) l = true →
    ∃ t, consulPingInstances cfg ga l ccu ids =
        .next t (ids ++ timedOutIDs cfg ga (callsOf .PingToCheckConn ccu.trace) l) ∧
      callsOf .PingToCheckConn t.trace = callsOf .PingToCheckConn ccu.trace + l.length := by
  intro l
  induction l with
  | nil =>
    intro ccu ids _
    exact ⟨ccu, by simp [consulPingInstances, timedOutIDs], by simp⟩
  | cons srv rest ih =>
    intro ccu ids h
    simp only [noPingError, Bool.and_eq_true, Bool.or_eq_true] at h
    obtain ⟨h1, h2⟩ := h
    have hcalls : callsOf .PingToCheckConn
        (ccu.log (Event.PingToCheckConn cfg.ConnCheckPingTimeOut srv.addr)).trace =
        callsOf .PingToCheckConn ccu.trace + 1 := by simp
    rw [← hcalls] at h2
    simp only [consulPingInstances, timedOutIDs]
    by_cases hc : (ga.PingToCheckConn (callsOf .PingToCheckConn ccu.trace)
        cfg.ConnCheckPingTimeOut srv.addr).ctxErr = true
    · simp only [hc, if_true]
      obtain ⟨t, ht, hn⟩ := ih _ (ids ++ [srv.id]) h2
      refine ⟨t, ?_, ?_⟩
      · rw [ht, hcalls]; simp
      · rw [hn, hcalls]; simp; omega
    · have he : (ga.PingToCheckConn (callsOf .PingToCheckConn ccu.trace)
          cfg.ConnCheckPingTimeOut srv.addr).err = none := by
        rcases h1 with h1 | h1
        · exact absurd h1 hc
        · simpa using h1
      simp only [hc, if_false, he, Bool.false_eq_true]
      obtain ⟨t, ht, hn⟩ := ih _ ids h2
      refine ⟨t, ?_, ?_⟩
      · rw [ht, hcalls]
      · rw [hn, hcalls]; simp; omega

theorem consulPingServices_clean (cfg : consulCheckUsecaseConfig) (ga : gRPCAgency)
    (srvM : GoMap Instance) :
    ∀ (ks : List String) (ccu : Tick ConsulCheckFields) (ids : List String),
    noPingError cfg ga (callsOf .PingToCheckConn ccu.trace) (pingTargets srvM ks) = true →
    ∃ t, consulPingServices cfg ga srvM ks ccu ids =
        .next t (ids ++ timedOutIDs cfg ga (callsOf .PingToCheckConn ccu.trace)
          (pingTargets srvM ks)) ∧
      callsOf .PingToCheckConn t.trace =
        callsOf .PingToCheckConn ccu.trace + (pingTargets srvM ks).length := by
  intro ks
  induction ks with
  | nil =>
    intro ccu ids _
    exact ⟨ccu, by simp [consulPingServices, pingTargets, timedOutIDs], by simp [pingTargets]⟩
  | cons k rest ih =>
    intro ccu ids h
    have hpt : pingTargets srvM (k :: rest) = srvM.index k ++ pingTargets srvM rest := by
      simp [pingTargets]
    rw [hpt, noPingError_append, Bool.and_eq_true] at h
    obtain ⟨h1, h2⟩ := h
    obtain ⟨t1, ht1, hn1⟩ := consulPingInstances_clean cfg ga (srvM.index k) ccu ids h1
    rw [← hn1] at h2
    obtain ⟨t2, ht2, hn2⟩ := ih t1 _ h2
    refine ⟨t2, ?_, ?_⟩
    · simp only [consulPingServices]
      rw [ht1]
      simp only
      rw [ht2, hpt, timedOutIDs_append, hn1, List.append_assoc]
    · rw [hn2, hn1, hpt, List.length_append]; omega

theorem callsOf_zero_of (m : Method) (ext : List Event) (h : ∀ e ∈ ext, e.method ≠ some m) :
    callsOf m ext = 0 := by
  unfold callsOf
  rw [List.countP_eq_zero]
  intro e he
  simpa using h e he

theorem deregister_split_perm (ca : consulAgency) :
    ∀ (l : List String) (n : Nat),
    (deregisterSucceeded ca n l ++ deregisterFailed ca n l).Perm l := by
  intro l
  induction l with
  | nil => intro n; simp [deregisterSucceeded, deregisterFailed]
  | cons id rest ih =>
    intro n
    simp only [deregisterSucceeded, deregisterFailed]
    split
    · exact (ih (n + 1)).cons id
    · exact List.perm_middle.trans ((ih (n + 1)).cons id)

theorem consulDeregister_spec (rt : Runtime) (ca : consulAgency) :
    ∀ (l : List String) (ccu : Tick ConsulCheckFields) (s f : List String),
    (consulDeregister rt ca l ccu s f).2.1 =
      s ++ deregisterSucceeded ca (callsOf .DeregisterInstance ccu.trace) l ∧
    (consulDeregister rt ca l ccu s f).2.2 =
      f ++ deregisterFailed ca (callsOf .DeregisterInstance ccu.trace) l ∧
    deregisterCalls (consulDeregister rt ca l ccu s f).1.trace =
      deregisterCalls ccu.trace ++ l ∧
    (errorLevel ∈ (consulDeregister rt ca l ccu s f).1.history.ProcessLevel ↔
      errorLevel ∈ ccu.history.ProcessLevel ∨
      deregisterFailed ca (callsOf .DeregisterInstance ccu.trace) l ≠ []) := by
  intro l
  induction l with
  | nil =>
    intro ccu s f
    simp [consulDeregister, deregisterSucceeded, deregisterFailed]
  | cons srvID rest ih =>
    intro ccu s f
    simp only [consulDeregister, deregisterSucceeded, deregisterFailed]
    split
    · rename_i err herr
      obtain ⟨h1, h2, h3, h4⟩ := ih
        ((((ccu.log (Event.DeregisterInstance srvID)).AppendLevel errorLevel).SendMessage rt
          "broken_heart" ("!consul check error occurred! failed to deregister service, id: " ++
            srvID ++ ", err: " ++ err)).SetError
          (errorsWrap err "failed to deregister service")) s (f ++ [srvID])
      have hc : callsOf .DeregisterInstance
          ((((ccu.log (Event.DeregisterInstance srvID)).AppendLevel errorLevel).SendMessage rt
          "broken_heart" ("!consul check error occurred! failed to deregister service, id: " ++
            srvID ++ ", err: " ++ err)).SetError
          (errorsWrap err "failed to deregister service")).trace =
          callsOf .DeregisterInstance ccu.trace + 1 := by simp
      rw [hc] at h1 h2 h4
      have hmem : errorLevel ∈
          ((((ccu.log (Event.DeregisterInstance srvID)).AppendLevel errorLevel).SendMessage rt
          "broken_heart" ("!consul check error occurred! failed to deregister service, id: " ++
            srvID ++ ", err: " ++ err)).SetError
          (errorsWrap err "failed to deregister service")).history.ProcessLevel := by
        simp only [Tick.SetError, Tick.SendMessage, Tick.log, Tick.AppendLevel,
          serviceCheckHistoryComponent.SetError, srvcheckProcessLevel.Append]
        split
        · assumption
        · simp
      refine ⟨?_, ?_, ?_, ?_⟩
      · rw [h1, herr]; simp
      · rw [h2, herr]; simp
      · rw [h3]; simp [deregisterCalls_append]
      · rw [h4, herr]
        exact ⟨fun _ => Or.inr (by simp), fun _ => Or.inl hmem⟩
    · rename_i herr
      obtain ⟨h1, h2, h3, h4⟩ := ih (ccu.log (Event.DeregisterInstance srvID))
        (s ++ [srvID]) f
      have hc : callsOf .DeregisterInstance (ccu.log (Event.DeregisterInstance srvID)).trace =
          callsOf .DeregisterInstance ccu.trace + 1 := by simp
      rw [hc] at h1 h2 h4
      refine ⟨?_, ?_, ?_, ?_⟩
      · rw [h1, herr]; simp
      · rw [h2, herr]; simp
      · rw [h3]; simp [deregisterCalls_append]
      · rw [h4, herr]; simp

theorem consulRestart_spec (rt : Runtime) (da : dockerAgency) :
    ∀ (l : List String) (ccu : Tick ConsulCheckFields) (s f : List String),
    lookupCalls (consulRestart rt da l ccu s f).1.trace = lookupCalls ccu.trace ++ l ∧
    removeCalls (consulRestart rt da l ccu s f).1.trace =
      removeCalls ccu.trace ++
        (foundContainers da (callsOf .GetContainerWithServiceName ccu.trace) l).map
          (fun id => (id, true)) := by
  intro l
  induction l with
  | nil =>
    intro ccu s f
    simp [consulRestart, foundContainers]
  | cons srv rest ih =>
    intro ccu s f
    simp only [consulRestart, foundContainers]
    split
    · rename_i err herr
      obtain ⟨h1, h2⟩ := ih
        ((((ccu.log (Event.GetContainerWithServiceName srv)).AppendLevel errorLevel).SendMessage
          rt "broken_heart" ("!consul check error occurred! failed to get container, srv: " ++
            srv ++ ", err: " ++ err)).SetError
          (errorsWrap err "failed to get container")) s (f ++ [srv])
      have hc : callsOf .GetContainerWithServiceName
          ((((ccu.log (Event.GetContainerWithServiceName srv)).AppendLevel
            errorLevel).SendMessage
          rt "broken_heart" ("!consul check error occurred! failed to get container, srv: " ++
            srv ++ ", err: " ++ err)).SetError
          (errorsWrap err "failed to get container")).trace =
          callsOf .GetContainerWithServiceName ccu.trace + 1 := by simp
      rw [hc] at h2
      refine ⟨?_, ?_⟩
      · rw [h1]; simp [lookupCalls_append]
      · rw [h2]; simp only [herr]; simp [removeCalls_append]
    · rename_i container hok
      split
      · rename_i err herr
        obtain ⟨h1, h2⟩ := ih
          (((((ccu.log (Event.GetContainerWithServiceName srv)).log
            (Event.RemoveContainer container.ID true)).AppendLevel errorLevel).SendMessage
            rt "broken_heart" ("!consul check error occurred! failed to restart container, id: " ++
              container.ID ++ ", err: " ++ err)).SetError
            (errorsWrap err "failed to restart container")) s (f ++ [srv])
        have hc : callsOf .GetContainerWithServiceName
            (((((ccu.log (Event.GetContainerWithServiceName srv)).log
            (Event.RemoveContainer container.ID true)).AppendLevel errorLevel).SendMessage
            rt "broken_heart" ("!consul check error occurred! failed to restart container, id: " ++
              container.ID ++ ", err: " ++ err)).SetError
            (errorsWrap err "failed to restart container")).trace =
            callsOf .GetContainerWithServiceName ccu.trace + 1 := by simp
        rw [hc] at h2
        refine ⟨?_, ?_⟩
        · rw [h1]; simp [lookupCalls_append]
        · rw [h2]; simp only [hok]; simp [removeCalls_append]
      · obtain ⟨h1, h2⟩ := ih
          ((ccu.log (Event.GetContainerWithServiceName srv)).log
            (Event.RemoveContainer container.ID true)) (s ++ [srv]) f
        have hc : callsOf .GetContainerWithServiceName
            ((ccu.log (Event.GetContainerWithServiceName srv)).log
            (Event.RemoveContainer container.ID true)).trace =
            callsOf .GetContainerWithServiceName ccu.trace + 1 := by simp
        rw [hc] at h2
        refine ⟨?_, ?_⟩
        · rw [h1]; simp [lookupCalls_append]
        · rw [h2]; simp only [hok]; simp [removeCalls_append]

theorem checkConsulProbed_deregister_eq (cfg : consulCheckUsecaseConfig) (rt : Runtime)
    (ca : consulAgency) (da : dockerAgency) (ccu : Tick ConsulCheckFields)
    (srvM : GoMap Instance) (ids : List String) (h : ids ≠ []) :
    ∃ entry : Tick ConsulCheckFields,
      entry.status = .Recovering ∧
      entry.trace = ccu.trace ++ [Event.setStatus .Recovering,
        Event.SendMessage "pill"
          "!consul check weak detected! start to deregister unable services" rt.uuid,
        Event.SetAlarmResult] ∧
      entry.history = serviceCheckHistoryComponent.SetAlarmResult
        { ccu.history with
          ProcessLevel := [weakDetectedLevel]
          Message := "deregistered services in consul which is unable to check connection pick" }
        (rt.SendMessage (callsOf .SendMessage ccu.trace) "pill"
          "!consul check weak detected! start to deregister unable services" rt.uuid).1
        (rt.SendMessage (callsOf .SendMessage ccu.trace) "pill"
          "!consul check weak detected! start to deregister unable services" rt.uuid).2.1
        (rt.SendMessage (callsOf .SendMessage ccu.trace) "pill"
          "!consul check weak detected! start to deregister unable services" rt.uuid).2.2 ∧
      entry.fields = { ccu.fields with IfInstanceDeregistered := true } ∧
      checkConsulProbed cfg rt ca da ccu srvM ids =
        Tick.setStatus
          { (consulDeregister rt ca ids entry [] []).1 with
            fields :=
              { (consulDeregister rt ca ids entry [] []).1.fields with
                DeregisteredInstances := (consulDeregister rt ca ids entry [] []).2.1
                DeregisterFailedInstances := (consulDeregister rt ca ids entry [] []).2.2 } }
          .Healthy := by
  have hlen : ids.length > 0 := List.length_pos.mpr h
  refine ⟨{ ((ccu.setStatus .Recovering).SetLevel weakDetectedLevel |>.SetMessage
      "deregistered services in consul which is unable to check connection pick"
      |>.SendAlarm rt "pill"
      "!consul check weak detected! start to deregister unable services") with
    fields := { ccu.fields with IfInstanceDeregistered := true } }, rfl, ?_, ?_, rfl, ?_⟩
  · simp
  · simp
  · unfold checkConsulProbed
    simp only [hlen, if_true]
    rfl

theorem checkConsulProbed_restart_eq (cfg : consulCheckUsecaseConfig) (rt : Runtime)
    (ca : consulAgency) (da : dockerAgency) (ccu : Tick ConsulCheckFields)
    (srvM : GoMap Instance) (h : consulUnableSrvs cfg srvM ≠ []) :
    ∃ entry : Tick ConsulCheckFields,
      entry.status = .Recovering ∧
      entry.trace = ccu.trace ++ [Event.setStatus .Recovering,
        Event.SendMessage "pill" "!consul check weak detected! start to restart container"
          rt.uuid,
        Event.SetAlarmResult] ∧
      entry.history = serviceCheckHistoryComponent.SetAlarmResult
        { ccu.history with
          ProcessLevel := [weakDetectedLevel]
          Message := "restart container in docker which is don't have any instances in consul" }
        (rt.SendMessage (callsOf .SendMessage ccu.trace) "pill"
          "!consul check weak detected! start to restart container" rt.uuid).1
        (rt.SendMessage (callsOf .SendMessage ccu.trace) "pill"
          "!consul check weak detected! start to restart container" rt.uuid).2.1
        (rt.SendMessage (callsOf .SendMessage ccu.trace) "pill"
          "!consul check weak detected! start to restart container" rt.uuid).2.2 ∧
      entry.fields = { ccu.fields with IfContainerRestarted := true } ∧
      checkConsulProbed cfg rt ca da ccu srvM [] =
        Tick.SetLevel (Tick.setStatus
          { (consulRestart rt da (consulUnableSrvs cfg srvM) entry [] []).1 with
            fields :=
              { (consulRestart rt da (consulUnableSrvs cfg srvM) entry [] []).1.fields with
                DeregisteredInstances :=
                  (consulRestart rt da (consulUnableSrvs cfg srvM) entry [] []).2.1
                DeregisterFailedInstances :=
                  (consulRestart rt da (consulUnableSrvs cfg srvM) entry [] []).2.2 } }
          .Healthy) healthyLevel := by
  have hlen : (consulUnableSrvs cfg srvM).length > 0 := List.length_pos.mpr h
  refine ⟨{ ((ccu.setStatus .Recovering).SetLevel weakDetectedLevel |>.SetMessage
      "restart container in docker which is don't have any instances in consul"
      |>.SendAlarm rt "pill"
      "!consul check weak detected! start to restart container") with
    fields := { ccu.fields with IfContainerRestarted := true } }, rfl, ?_, ?_, rfl, ?_⟩
  · simp
  · simp
  · unfold checkConsulProbed
    simp only [List.length_nil, gt_iff_lt, lt_self_iff_false, if_false, hlen, if_true]
    rfl

theorem checkConsulProbed_steady_eq (cfg : consulCheckUsecaseConfig) (rt : Runtime)
    (ca : consulAgency) (da : dockerAgency) (ccu : Tick ConsulCheckFields)
    (srvM : GoMap Instance) (h : consulUnableSrvs cfg srvM = []) :
    checkConsulProbed cfg rt ca da ccu srvM [] = ccu.SetLevel healthyLevel := by
  unfold checkConsulProbed
  simp [h]

/-- A tick entered HEALTHY whose `GetServices` calls succeed and whose pings return no
error other than timeouts reaches the remediation part with the ids of the timed-out
pings, having only called `GetServices` and `PingToCheckConn`. -/
theorem checkConsul_probed (cfg : consulCheckUsecaseConfig) (rt : Runtime) (ca : consulAgency)
    (ga : gRPCAgency) (da : dockerAgency) (range : MapRange) (srvM : GoMap Instance)
    (hs : consulSrvM cfg rt ca = some srvM)
    (hok : noPingError cfg ga 0 (pingTargets srvM (range srvM.keys).val) = true) :
    ∃ ccu : Tick ConsulCheckFields,
      checkConsul cfg rt ca ga da range .Healthy =
        checkConsulProbed cfg rt ca da ccu srvM
          (timedOutIDs cfg ga 0 (pingTargets srvM (range srvM.keys).val)) ∧
      ccu.status = .Healthy ∧
      ccu.history = (Tick.start rt "srvcheck" "consul" .Healthy
        ({} : ConsulCheckFields)).history ∧
      ccu.fields.IfInstanceDeregistered = false ∧ ccu.fields.IfContainerRestarted = false ∧
      ccu.fields.DeregisteredInstances = [] ∧ ccu.fields.DeregisterFailedInstances = [] ∧
      ∀ e ∈ ccu.trace, e.method = some .GetServices ∨ e.method = some .PingToCheckConn := by
  unfold consulSrvM at hs
  split at hs
  · rename_i ccu1 m1 h1
    simp only [Option.some.injEq] at hs
    subst hs
    obtain ⟨a1, a2, a3, a4, a5, a6, ext1, a7, a8⟩ :=
      consulGetServices_next cfg rt ca _ _ _ _ _ h1
    have hz : callsOf .PingToCheckConn ccu1.trace = 0 := by
      apply callsOf_zero_of
      intro e he
      rw [a7] at he
      simp only [Tick.start, List.nil_append] at he
      rw [a8 e he]; decide
    rw [← hz] at hok
    obtain ⟨t2, h2, _⟩ := consulPingServices_clean cfg ga m1 (range m1.keys).val ccu1 [] hok
    obtain ⟨b1, b2, b3, ext2, b4, b5⟩ := consulPingServices_next cfg ga m1 _ _ _ _ _ h2
    refine ⟨t2, ?_, ?_, ?_, ?_, ?_, ?_, ?_, ?_⟩
    · unfold checkConsul
      simp only [(checkConsul_start rt .Healthy).1]
      rw [h1]
      simp only
      rw [h2, hz]
      simp
    · rw [b1, a1]; rfl
    · rw [b2, a2]
    · rw [b3, a3]; rfl
    · rw [b3, a4]; rfl
    · rw [b3, a5]; rfl
    · rw [b3, a6]; rfl
    · intro e he
      rw [b4, a7] at he
      simp only [Tick.start, List.nil_append, List.mem_append] at he
      rcases he with he | he
      · exact Or.inl (a8 e he)
      · exact Or.inr (b5 e he)
  · cases hs

theorem probe_trace_facts (tr : List Event)
    (h : ∀ e ∈ tr, e.method = some .GetServices ∨ e.method = some .PingToCheckConn) :
    deregisterCalls tr = [] ∧ lookupCalls tr = [] ∧ removeCalls tr = [] ∧
    callsOf .DeregisterInstance tr = 0 ∧ callsOf .GetContainerWithServiceName tr = 0 ∧
    callsOf .SendMessage tr = 0 ∧ sentEmojis tr = [] := by
  refine ⟨deregisterCalls_nil_of tr ?_, lookupCalls_nil_of tr ?_, removeCalls_nil_of tr ?_,
    callsOf_zero_of _ tr ?_, callsOf_zero_of _ tr ?_, callsOf_zero_of _ tr ?_,
    sentEmojis_nil_of tr ?_⟩ <;>
  · intro e he
    rcases h e he with h1 | h1 <;> rw [h1] <;> decide

/-- The deregistration branch of a Consul tick, in terms of the ids of the timed-out
pings. -/
theorem checkConsul_deregister_facts (cfg : consulCheckUsecaseConfig) (rt : Runtime)
    (ca : consulAgency) (ga : gRPCAgency) (da : dockerAgency) (range : MapRange)
    (srvM : GoMap Instance)
    (hs : consulSrvM cfg rt ca = some srvM)
    (hok : noPingError cfg ga 0 (pingTargets srvM (range srvM.keys).val) = true)
    (hto : timedOutIDs cfg ga 0 (pingTargets srvM (range srvM.keys).val) ≠ []) :
    deregisterCalls (checkConsul cfg rt ca ga da range .Healthy).trace =
      timedOutIDs cfg ga 0 (pingTargets srvM (range srvM.keys).val) ∧
    (checkConsul cfg rt ca ga da range .Healthy).fields.DeregisteredInstances =
      deregisterSucceeded ca 0 (timedOutIDs cfg ga 0 (pingTargets srvM (range srvM.keys).val)) ∧
    (checkConsul cfg rt ca ga da range .Healthy).fields.DeregisterFailedInstances =
      deregisterFailed ca 0 (timedOutIDs cfg ga 0 (pingTargets srvM (range srvM.keys).val)) ∧
    (checkConsul cfg rt ca ga da range .Healthy).fields.IfInstanceDeregistered = true ∧
    (errorLevel ∈ (checkConsul cfg rt ca ga da range .Healthy).history.ProcessLevel ↔
      deregisterFailed ca 0
        (timedOutIDs cfg ga 0 (pingTargets srvM (range srvM.keys).val)) ≠ []) ∧
    (checkConsul cfg rt ca ga da range .Healthy).status = .Healthy ∧
    lookupCalls (checkConsul cfg rt ca ga da range .Healthy).trace = [] ∧
    removeCalls (checkConsul cfg rt ca ga da range .Healthy).trace = [] ∧
    (checkConsul cfg rt ca ga da range .Healthy).fields.IfContainerRestarted = false := by
  obtain ⟨ccu, hres, c1, c2, c3, c4, c5, c6, c7⟩ :=
    checkConsul_probed cfg rt ca ga da range srvM hs hok
  obtain ⟨p1, p2, p3, p4, p5, p6, p7⟩ := probe_trace_facts ccu.trace c7
  obtain ⟨entry, e1, e2, e3, e4, e5⟩ := checkConsulProbed_deregister_eq cfg rt ca da ccu srvM
    (timedOutIDs cfg ga 0 (pingTargets srvM (range srvM.keys).val)) hto
  obtain ⟨s1, s2, s3, s4⟩ := consulDeregister_spec rt ca
    (timedOutIDs cfg ga 0 (pingTargets srvM (range srvM.keys).val)) entry [] []
  obtain ⟨f1, f2, f3, f4, ext, f5, f6⟩ := consulDeregister_frame rt ca
    (timedOutIDs cfg ga 0 (pingTargets srvM (range srvM.keys).val)) entry [] []
  have hcalls : callsOf .DeregisterInstance entry.trace = 0 := by
    have : callsOf .DeregisterInstance entry.trace =
        callsOf .DeregisterInstance ccu.trace := by rw [e2]; simp
    rw [this, p4]
  have hdc : deregisterCalls entry.trace = [] := by
    rw [e2, deregisterCalls_append, p1]; rfl
  have hlk : lookupCalls entry.trace = [] := by
    rw [e2, lookupCalls_append, p2]; rfl
  have hrm : removeCalls entry.trace = [] := by
    rw [e2, removeCalls_append, p3]; rfl
  have hpl : errorLevel ∉ entry.history.ProcessLevel := by
    rw [e3]; simp
  rw [hcalls] at s1 s2 s4
  rw [hres, e5]
  refine ⟨?_, ?_, ?_, ?_, ?_, rfl, ?_, ?_, ?_⟩
  · simp only [Tick.setStatus, deregisterCalls_append, s3, hdc]
    simp
  · simpa using s1
  · simpa using s2
  · simp only [Tick.setStatus]
    rw [f2, e4]
  · simp only [Tick.setStatus]
    rw [s4]
    exact or_iff_right hpl
  · simp only [Tick.setStatus, lookupCalls_append, f5, hlk]
    rw [lookupCalls_nil_of ext
      (fun e he => by rcases f6 e he with h | h <;> rw [h] <;> decide)]
    rfl
  · simp only [Tick.setStatus, removeCalls_append, f5, hrm]
    rw [removeCalls_nil_of ext
      (fun e he => by rcases f6 e he with h | h <;> rw [h] <;> decide)]
    rfl
  · simp only [Tick.setStatus]
    rw [f2, e4]
    exact c4

/-- The container-restart branch of a Consul tick. -/
theorem checkConsul_restart_facts (cfg : consulCheckUsecaseConfig) (rt : Runtime)
    (ca : consulAgency) (ga : gRPCAgency) (da : dockerAgency) (range : MapRange)
    (srvM : GoMap Instance)
    (hs : consulSrvM cfg rt ca = some srvM)
    (hok : noPingError cfg ga 0 (pingTargets srvM (range srvM.keys).val) = true)
    (hto : timedOutIDs cfg ga 0 (pingTargets srvM (range srvM.keys).val) = [])
    (hun : consulUnableSrvs cfg srvM ≠ []) :
    lookupCalls (checkConsul cfg rt ca ga da range .Healthy).trace =
      consulUnableSrvs cfg srvM ∧
    removeCalls (checkConsul cfg rt ca ga da range .Healthy).trace =
      (foundContainers da 0 (consulUnableSrvs cfg srvM)).map (fun id => (id, true)) ∧
    (checkConsul cfg rt ca ga da range .Healthy).fields.IfContainerRestarted = true ∧
    (checkConsul cfg rt ca ga da range .Healthy).status = .Healthy ∧
    (checkConsul cfg rt ca ga da range .Healthy).history.ProcessLevel = [healthyLevel] ∧
    deregisterCalls (checkConsul cfg rt ca ga da range .Healthy).trace = [] := by
  obtain ⟨ccu, hres, c1, c2, c3, c4, c5, c6, c7⟩ :=
    checkConsul_probed cfg rt ca ga da range srvM hs hok
  obtain ⟨p1, p2, p3, p4, p5, p6, p7⟩ := probe_trace_facts ccu.trace c7
  rw [hto] at hres
  obtain ⟨entry, e1, e2, e3, e4, e5⟩ :=
    checkConsulProbed_restart_eq cfg rt ca da ccu srvM hun
  obtain ⟨s1, s2⟩ := consulRestart_spec rt da (consulUnableSrvs cfg srvM) entry [] []
  obtain ⟨f1, f2, f3, ext, f5, f6⟩ :=
    consulRestart_frame rt da (consulUnableSrvs cfg srvM) entry [] []
  have hcalls : callsOf .GetContainerWithServiceName entry.trace = 0 := by
    have : callsOf .GetContainerWithServiceName entry.trace =
        callsOf .GetContainerWithServiceName ccu.trace := by rw [e2]; simp
    rw [this, p5]
  have hdc : deregisterCalls entry.trace = [] := by
    rw [e2, deregisterCalls_append, p1]; rfl
  have hlk : lookupCalls entry.trace = [] := by
    rw [e2, lookupCalls_append, p2]; rfl
  have hrm : removeCalls entry.trace = [] := by
    rw [e2, removeCalls_append, p3]; rfl
  rw [hcalls] at s2
  rw [hres, e5]
  refine ⟨?_, ?_, ?_, rfl, rfl, ?_⟩
  · simp only [Tick.SetLevel, Tick.setStatus, lookupCalls_append, s1, hlk]
    simp
  · simp only [Tick.SetLevel, Tick.setStatus, removeCalls_append, s2, hrm]
    simp
  · simp only [Tick.SetLevel, Tick.setStatus]
    rw [f2, e4]
  · simp only [Tick.SetLevel, Tick.setStatus, deregisterCalls_append, f5, hdc]
    rw [deregisterCalls_nil_of ext
      (fun e he => by rcases f6 e he with h | h | h <;> rw [h] <;> decide)]
    rfl

/-- The branch of a Consul tick without remediation. -/
theorem checkConsul_steady_facts (cfg : consulCheckUsecaseConfig) (rt : Runtime)
    (ca : consulAgency) (ga : gRPCAgency) (da : dockerAgency) (range : MapRange)
    (srvM : GoMap Instance)
    (hs : consulSrvM cfg rt ca = some srvM)
    (hok : noPingError cfg ga 0 (pingTargets srvM (range srvM.keys).val) = true)
    (hto : timedOutIDs cfg ga 0 (pingTargets srvM (range srvM.keys).val) = [])
    (hun : consulUnableSrvs cfg srvM = []) :
    lookupCalls (checkConsul cfg rt ca ga da range .Healthy).trace = [] ∧
    removeCalls (checkConsul cfg rt ca ga da range .Healthy).trace = [] ∧
    (checkConsul cfg rt ca ga da range .Healthy).fields.IfContainerRestarted = false ∧
    deregisterCalls (checkConsul cfg rt ca ga da range .Healthy).trace = [] ∧
    sentEmojis (checkConsul cfg rt ca ga da range .Healthy).trace = [] := by
  obtain ⟨ccu, hres, c1, c2, c3, c4, c5, c6, c7⟩ :=
    checkConsul_probed cfg rt ca ga da range srvM hs hok
  obtain ⟨p1, p2, p3, p4, p5, p6, p7⟩ := probe_trace_facts ccu.trace c7
  rw [hto] at hres
  rw [hres, checkConsulProbed_steady_eq cfg rt ca da ccu srvM hun]
  exact ⟨p2, p3, c4, p1, p7⟩

/-- The shard total wraps as the Go sum does: with 2^63 - 1 active shards and 1 unassigned
shard the total is -2^63, which is below any maximum, so a tick entered UNHEALTHY
recovers and a tick entered HEALTHY finds no weakness. -/
theorem checkElasticsearch_total_wraps :
    intAdd 9223372036854775807 1 = -9223372036854775808 ∧
    (checkElasticsearch sampleElasticsearchConfig sampleRuntime
      (sampleElasticsearch 9223372036854775807 1) .Unhealthy).status = .Healthy ∧
    (checkElasticsearch sampleElasticsearchConfig sampleRuntime
      (sampleElasticsearch 9223372036854775807 1) .Healthy).history.ProcessLevel =
      [healthyLevel] := by
  decide

/-- A Consul tick entered HEALTHY whose `GetServices` calls all succeed, whose pings all
answer in time without error and whose target services all list an instance is silent. -/
theorem checkConsul_steady_silent (cfg : consulCheckUsecaseConfig) (rt : Runtime)
    (ca : consulAgency) (ga : gRPCAgency) (da : dockerAgency) (range : MapRange)
    (srvM : GoMap Instance)
    (hs : consulSrvM cfg rt ca = some srvM)
    (hok : noPingError cfg ga 0 (pingTargets srvM (range srvM.keys).val) = true)
    (hto : timedOutIDs cfg ga 0 (pingTargets srvM (range srvM.keys).val) = [])
    (hun : consulUnableSrvs cfg srvM = []) :
    (checkConsul cfg rt ca ga da range .Healthy).status = .Healthy ∧
    (checkConsul cfg rt ca ga da range .Healthy).history.ProcessLevel = [healthyLevel] ∧
    sentEmojis (checkConsul cfg rt ca ga da range .Healthy).trace = [] ∧
    (checkConsul cfg rt ca ga da range .Healthy).history.alerted = false ∧
    (checkConsul cfg rt ca ga da range .Healthy).trace.filter Event.isRemediation = [] := by
  obtain ⟨ccu, hres, c1, c2, _, _, _, _, c7⟩ :=
    checkConsul_probed cfg rt ca ga da range srvM hs hok
  obtain ⟨_, _, _, _, _, _, p7⟩ := probe_trace_facts ccu.trace c7
  rw [hto] at hres
  rw [hres, checkConsulProbed_steady_eq cfg rt ca da ccu srvM hun]
  refine ⟨c1, by simp, p7, by simp [c2], ?_⟩
  exact remediation_nil_of ccu.trace (fun e he => by
    rcases c7 e he with h | h
    · exact Or.inl h
    · exact Or.inr (Or.inl h))

/-- C5: a tick entered HEALTHY whose probe succeeds without meeting the weakness condition
(disk: remaining >= min capacity; Elasticsearch: the total of active and unassigned shards
the code computes <= maximum shards; Swarmpit: memory <= maximum memory; Consul: every
`GetServices` call of the tick succeeds, every ping of the tick answers in time without
error and every target service lists at least one instance) leaves the status HEALTHY,
with process level exactly `[HEALTHY]`, no chat message, `alerted` false and no
remediation call. The Consul conditions bear on the calls the tick makes only. -/
theorem C5_healthy_tick_is_silent
    (dcfg : diskCheckUsecaseConfig) (ecfg : elasticsearchCheckUsecaseConfig)
    (scfg : swarmpitCheckUsecaseConfig) (ccfg : consulCheckUsecaseConfig) (rt : Runtime)
    (dsa : diskSysAgency) (ea : elasticsearchAgency) (da : dockerAgency) (ca : consulAgency)
    (ga : gRPCAgency) (range : MapRange)
    (r : Nat) (cluster : ClusterHealth) (ctn : Container) (srvM : GoMap Instance)
    (hd : dsa.GetRemainDiskCapacity 0 = .ok r) (hdr : dcfg.DiskMinCapacity ≤ r)
    (he : ea.GetClusterHealth 0 = .ok cluster)
    (hec : intAdd cluster.ActiveShards cluster.UnassignedShards ≤ ecfg.MaximumShardsNumber)
    (hs : da.GetContainerWithServiceName 0 scfg.SwarmpitAppServiceName = .ok ctn)
    (hsc : ctn.MemoryUsage ≤ scfg.SwarmpitAppMaxMemoryUsage)
    (hsrv : consulSrvM ccfg rt ca = some srvM)
    (hok : noPingError ccfg ga 0 (pingTargets srvM (range srvM.keys).val) = true)
    (hto : timedOutIDs ccfg ga 0 (pingTargets srvM (range srvM.keys).val) = [])
    (hun : consulUnableSrvs ccfg srvM = []) :
    ((checkDisk dcfg rt dsa .Healthy).status = .Healthy ∧
      (checkDisk dcfg rt dsa .Healthy).history.ProcessLevel = [healthyLevel] ∧
      sentEmojis (checkDisk dcfg rt dsa .Healthy).trace = [] ∧
      (checkDisk dcfg rt dsa .Healthy).history.alerted = false ∧
      (checkDisk dcfg rt dsa .Healthy).trace.filter Event.isRemediation = []) ∧
    ((checkElasticsearch ecfg rt ea .Healthy).status = .Healthy ∧
      (checkElasticsearch ecfg rt ea .Healthy).history.ProcessLevel = [healthyLevel] ∧
      sentEmojis (checkElasticsearch ecfg rt ea .Healthy).trace = [] ∧
      (checkElasticsearch ecfg rt ea .Healthy).history.alerted = false ∧
      (checkElasticsearch ecfg rt ea .Healthy).trace.filter Event.isRemediation = []) ∧
    ((checkSwarmpit scfg rt da .Healthy).status = .Healthy ∧
      (checkSwarmpit scfg rt da .Healthy).history.ProcessLevel = [healthyLevel] ∧
      sentEmojis (checkSwarmpit scfg rt da .Healthy).trace = [] ∧
      (checkSwarmpit scfg rt da .Healthy).history.alerted = false ∧
      (checkSwarmpit scfg rt da .Healthy).trace.filter Event.isRemediation = []) ∧
    ((checkConsul ccfg rt ca ga da range .Healthy).status = .Healthy ∧
      (checkConsul ccfg rt ca ga da range .Healthy).history.ProcessLevel = [healthyLevel] ∧
      sentEmojis (checkConsul ccfg rt ca ga da range .Healthy).trace = [] ∧
      (checkConsul ccfg rt ca ga da range .Healthy).history.alerted = false ∧
      (checkConsul ccfg rt ca ga da range .Healthy).trace.filter Event.isRemediation = []) := by
  have hdr1 : ¬ r < dcfg.DiskMinCapacity := Nat.not_lt.mpr hdr
  have hec1 : ¬ ecfg.MaximumShardsNumber <
      intAdd cluster.ActiveShards cluster.UnassignedShards := Int.not_lt.mpr hec
  have hsc1 : ¬ scfg.SwarmpitAppMaxMemoryUsage < ctn.MemoryUsage := Nat.not_lt.mpr hsc
  refine ⟨?_, ?_, ?_,
    checkConsul_steady_silent ccfg rt ca ga da range srvM hsrv hok hto hun⟩
  · simp [checkDisk, checkDiskProbed, hd, hdr1]
  · simp [checkElasticsearch, checkElasticsearchProbed, he, hec1]
  · simp [checkSwarmpit, checkSwarmpitProbed, hs, hsc1]

/-- C5 at the runs of the claim: 2 GiB required with 10 GiB remaining, 900 shards allowed
with 500 active and 100 unassigned, and a Consul service auth whose one instance answers
the ping. -/
theorem C5_witness :
    ((checkDisk { DiskMinCapacity := 2 * GiB } sampleRuntime
        (sampleDisk (.ok (10 * GiB)) (.ok (10 * GiB)) (.ok 0)) .Healthy).status = .Healthy ∧
      (checkDisk { DiskMinCapacity := 2 * GiB } sampleRuntime
        (sampleDisk (.ok (10 * GiB)) (.ok (10 * GiB)) (.ok 0)) .Healthy).history.ProcessLevel =
        [healthyLevel] ∧
      sentEmojis (checkDisk { DiskMinCapacity := 2 * GiB } sampleRuntime
        (sampleDisk (.ok (10 * GiB)) (.ok (10 * GiB)) (.ok 0)) .Healthy).trace = [] ∧
      (checkDisk { DiskMinCapacity := 2 * GiB } sampleRuntime
        (sampleDisk (.ok (10 * GiB)) (.ok (10 * GiB)) (.ok 0)) .Healthy).history.alerted =
        false ∧
      (checkDisk { DiskMinCapacity := 2 * GiB } sampleRuntime
        (sampleDisk (.ok (10 * GiB)) (.ok (10 * GiB)) (.ok 0)) .Healthy).trace.filter
        Event.isRemediation = []) ∧
    ((checkElasticsearch sampleElasticsearchConfig sampleRuntime (sampleElasticsearch 500 100)
        .Healthy).status = .Healthy ∧
      (checkElasticsearch sampleElasticsearchConfig sampleRuntime (sampleElasticsearch 500 100)
        .Healthy).history.ProcessLevel = [healthyLevel] ∧
      sentEmojis (checkElasticsearch sampleElasticsearchConfig sampleRuntime
        (sampleElasticsearch 500 100) .Healthy).trace = [] ∧
      (checkElasticsearch sampleElasticsearchConfig sampleRuntime (sampleElasticsearch 500 100)
        .Healthy).history.alerted = false ∧
      (checkElasticsearch sampleElasticsearchConfig sampleRuntime (sampleElasticsearch 500 100)
        .Healthy).trace.filter Event.isRemediation = []) ∧
    ((checkConsul sampleConsulConfig sampleRuntime
        (sampleConsul (.ok [{ id := "A", addr := "10.0.0.1:80" }])) sampleGRPC (sampleDocker GiB)
        sampleRange .Healthy).status = .Healthy ∧
      (checkConsul sampleConsulConfig sampleRuntime
        (sampleConsul (.ok [{ id := "A", addr := "10.0.0.1:80" }])) sampleGRPC (sampleDocker GiB)
        sampleRange .Healthy).history.ProcessLevel = [healthyLevel]) := by
  have h := C5_healthy_tick_is_silent { DiskMinCapacity := 2 * GiB } sampleElasticsearchConfig
    sampleSwarmpitConfig sampleConsulConfig sampleRuntime
    (sampleDisk (.ok (10 * GiB)) (.ok (10 * GiB)) (.ok 0)) (sampleElasticsearch 500 100)
    (sampleDocker GiB) (sampleConsul (.ok [{ id := "A", addr := "10.0.0.1:80" }]))
    sampleGRPC sampleRange (10 * GiB)
    { ActivePrimaryShards := 500, ActiveShards := 500, UnassignedShards := 100,
      ActiveShardsPercent := 100 }
    { ID := "id-swarmpit_app", MemoryUsage := GiB }
    [("DMS.SMS.v1.service.auth", [{ id := "A", addr := "10.0.0.1:80" }])]
    rfl (by decide) rfl (by decide) rfl (by decide)
    (by decide) (by decide) (by decide) (by decide)
  exact ⟨h.1, h.2.1, h.2.2.2.1, h.2.2.2.2.1⟩

/-- C11: Elasticsearch check entered HEALTHY with total shards (the Go sum of active and
unassigned shards the code computes) above the maximum: when
`GetIndicesWithPatterns` fails, or `DeleteIndices` fails, or the second `GetClusterHealth`
fails, the status ends UNHEALTHY, the process level is exactly `[WEAK_DETECTED, ERROR]`,
the error is non-null, and the failing call is the last probe or remediation call of the
tick. -/
theorem C11_elasticsearch_partial_failure (cfg : elasticsearchCheckUsecaseConfig)
    (rt : Runtime) (ea : elasticsearchAgency) (cluster : ClusterHealth)
    (h0 : ea.GetClusterHealth 0 = .ok cluster)
    (hgt : cfg.MaximumShardsNumber < intAdd cluster.ActiveShards cluster.UnassignedShards) :
    (∀ e, ea.GetIndicesWithPatterns 0 [cfg.JaegerIndexPattern] = .error e →
      (checkElasticsearch cfg rt ea .Healthy).status = .Unhealthy ∧
      (checkElasticsearch cfg rt ea .Healthy).history.ProcessLevel =
        [weakDetectedLevel, errorLevel] ∧
      (checkElasticsearch cfg rt ea .Healthy).history.Error =
        some (errorsWrap e "failed to get indices with pattern") ∧
      agencyWork (checkElasticsearch cfg rt ea .Healthy).trace =
        [Event.GetClusterHealth, Event.GetIndicesWithPatterns [cfg.JaegerIndexPattern]]) ∧
    (∀ indices e, ea.GetIndicesWithPatterns 0 [cfg.JaegerIndexPattern] = .ok indices →
      ea.DeleteIndices 0
        ((indices.SetMinLifeCycle cfg.JaegerIndexMinLifeCycle).IndexNames 0) =
        some e →
      (checkElasticsearch cfg rt ea .Healthy).status = .Unhealthy ∧
      (checkElasticsearch cfg rt ea .Healthy).history.ProcessLevel =
        [weakDetectedLevel, errorLevel] ∧
      (checkElasticsearch cfg rt ea .Healthy).history.Error =
        some (errorsWrap e "failed to delete indices") ∧
      agencyWork (checkElasticsearch cfg rt ea .Healthy).trace =
        [Event.GetClusterHealth, Event.GetIndicesWithPatterns [cfg.JaegerIndexPattern],
          Event.DeleteIndices
            ((indices.SetMinLifeCycle cfg.JaegerIndexMinLifeCycle).IndexNames 0)]) ∧
    (∀ indices e, ea.GetIndicesWithPatterns 0 [cfg.JaegerIndexPattern] = .ok indices →
      ea.DeleteIndices 0
        ((indices.SetMinLifeCycle cfg.JaegerIndexMinLifeCycle).IndexNames 0) =
        none →
      ea.GetClusterHealth 1 = .error e →
      (checkElasticsearch cfg rt ea .Healthy).status = .Unhealthy ∧
      (checkElasticsearch cfg rt ea .Healthy).history.ProcessLevel =
        [weakDetectedLevel, errorLevel] ∧
      (checkElasticsearch cfg rt ea .Healthy).history.Error =
        some (errorsWrap e "failed to again get cluster health again") ∧
      agencyWork (checkElasticsearch cfg rt ea .Healthy).trace =
        [Event.GetClusterHealth, Event.GetIndicesWithPatterns [cfg.JaegerIndexPattern],
          Event.DeleteIndices
            ((indices.SetMinLifeCycle cfg.JaegerIndexMinLifeCycle).IndexNames 0),
          Event.GetClusterHealth]) := by
  refine ⟨?_, ?_, ?_⟩
  · intro e h1
    simp [checkElasticsearch, checkElasticsearchProbed, agencyWork, h0, hgt, h1]
  · intro indices e h1 h2
    simp [checkElasticsearch, checkElasticsearchProbed, agencyWork, h0, hgt, h1, h2]
  · intro indices e h1 h2 h3
    simp [checkElasticsearch, checkElasticsearchProbed, agencyWork, h0, hgt, h1, h2, h3]

/-- C11 at three runs with 1000 shards against a maximum of 900, failing in turn at the
index listing, at the deletion and at the second cluster health. -/
theorem C11_witness :
    (checkElasticsearch sampleElasticsearchConfig sampleRuntime
      { sampleElasticsearchThen (800, 200) (800, 200) with
        GetIndicesWithPatterns := fun _ _ => .error "no such index" } .Healthy).status =
      .Unhealthy ∧
    (checkElasticsearch sampleElasticsearchConfig sampleRuntime
      { sampleElasticsearchThen (800, 200) (800, 200) with
        DeleteIndices := fun _ _ => some "forbidden" } .Healthy).history.ProcessLevel =
      [weakDetectedLevel, errorLevel] ∧
    (checkElasticsearch sampleElasticsearchConfig sampleRuntime
      { sampleElasticsearchThen (800, 200) (800, 200) with
        GetClusterHealth := fun n =>
          if n = 0 then (sampleElasticsearchThen (800, 200) (800, 200)).GetClusterHealth 0
          else .error "cluster is down" } .Healthy).history.Error =
      some (errorsWrap "cluster is down" "failed to again get cluster health again") := by
  refine ⟨?_, ?_, ?_⟩
  · exact ((C11_elasticsearch_partial_failure sampleElasticsearchConfig sampleRuntime
      { sampleElasticsearchThen (800, 200) (800, 200) with
        GetIndicesWithPatterns := fun _ _ => .error "no such index" }
      { ActivePrimaryShards := 800, ActiveShards := 800, UnassignedShards := 200,
        ActiveShardsPercent := 100 } rfl (by decide)).1 "no such index" rfl).1
  · exact ((C11_elasticsearch_partial_failure sampleElasticsearchConfig sampleRuntime
      { sampleElasticsearchThen (800, 200) (800, 200) with
        DeleteIndices := fun _ _ => some "forbidden" }
      { ActivePrimaryShards := 800, ActiveShards := 800, UnassignedShards := 200,
        ActiveShardsPercent := 100 } rfl (by decide)).2.1
      { names := fun _ _ => ["jaeger-span-2020-01-01"] } "forbidden" rfl rfl).2.1
  · exact ((C11_elasticsearch_partial_failure sampleElasticsearchConfig sampleRuntime
      { sampleElasticsearchThen (800, 200) (800, 200) with
        GetClusterHealth := fun n =>
          if n = 0 then (sampleElasticsearchThen (800, 200) (800, 200)).GetClusterHealth 0
          else .error "cluster is down" }
      { ActivePrimaryShards := 800, ActiveShards := 800, UnassignedShards := 200,
        ActiveShardsPercent := 100 } rfl (by decide)).2.2
      { names := fun _ _ => ["jaeger-span-2020-01-01"] } "cluster is down" rfl rfl rfl).2.2.1

/-- C12 as stated fails when the re-probe reports exactly the maximum: 900 shards do not
exceed the maximum of 900, yet the status ends UNHEALTHY. -/
theorem C12_counterexample :
    ¬ (intAdd 800 100 > sampleElasticsearchConfig.MaximumShardsNumber) ∧
    (checkElasticsearch sampleElasticsearchConfig sampleRuntime
      (sampleElasticsearchThen (800, 200) (800, 100)) .Healthy).status = .Unhealthy := by
  constructor
  · decide
  · simp [checkElasticsearch, checkElasticsearchProbed, sampleElasticsearchThen,
      sampleElasticsearchConfig, Indices.SetMinLifeCycle, Indices.IndexNames,
      (by decide : intAdd 800 100 = 900), (by decide : intAdd 800 200 = 1000)]

/-- C12 (amended): Elasticsearch check entered HEALTHY with total shards above the maximum,
index listing and deletion succeeding and the re-probe succeeding: the status ends HEALTHY
if and only if the re-probed active + unassigned shards are strictly below the maximum,
and UNHEALTHY if and only if they are at or above it. The totals are the Go sums the code
computes. -/
theorem C12_elasticsearch_reprobe_decides (cfg : elasticsearchCheckUsecaseConfig)
    (rt : Runtime) (ea : elasticsearchAgency) (cluster againCluster : ClusterHealth)
    (indices : Indices)
    (h0 : ea.GetClusterHealth 0 = .ok cluster)
    (hgt : cfg.MaximumShardsNumber < intAdd cluster.ActiveShards cluster.UnassignedShards)
    (h1 : ea.GetIndicesWithPatterns 0 [cfg.JaegerIndexPattern] = .ok indices)
    (h2 : ea.DeleteIndices 0
        ((indices.SetMinLifeCycle cfg.JaegerIndexMinLifeCycle).IndexNames 0) =
      none)
    (h3 : ea.GetClusterHealth 1 = .ok againCluster) :
    ((checkElasticsearch cfg rt ea .Healthy).status = .Healthy ↔
      intAdd againCluster.ActiveShards againCluster.UnassignedShards < cfg.MaximumShardsNumber) ∧
    ((checkElasticsearch cfg rt ea .Healthy).status = .Unhealthy ↔
      cfg.MaximumShardsNumber ≤ intAdd againCluster.ActiveShards againCluster.UnassignedShards) := by
  by_cases hlt : intAdd againCluster.ActiveShards againCluster.UnassignedShards <
      cfg.MaximumShardsNumber
  · have hle : ¬ cfg.MaximumShardsNumber ≤
        intAdd againCluster.ActiveShards againCluster.UnassignedShards := Int.not_le.mpr hlt
    simp [checkElasticsearch, checkElasticsearchProbed, h0, hgt, h1, h2, h3, hlt, hle]
  · have hle : cfg.MaximumShardsNumber ≤
        intAdd againCluster.ActiveShards againCluster.UnassignedShards := Int.not_lt.mp hlt
    simp [checkElasticsearch, checkElasticsearchProbed, h0, hgt, h1, h2, h3, hlt, hle]

/-- C12 (amended) at a run: a re-probe of exactly the allowed 900 shards ends UNHEALTHY. -/
theorem C12_witness :
    ((checkElasticsearch sampleElasticsearchConfig sampleRuntime
      (sampleElasticsearchThen (800, 200) (800, 100)) .Healthy).status = .Healthy ↔
      intAdd 800 100 < sampleElasticsearchConfig.MaximumShardsNumber) ∧
    ((checkElasticsearch sampleElasticsearchConfig sampleRuntime
      (sampleElasticsearchThen (800, 200) (800, 100)) .Healthy).status = .Unhealthy ↔
      sampleElasticsearchConfig.MaximumShardsNumber ≤ intAdd 800 100) :=
  C12_elasticsearch_reprobe_decides sampleElasticsearchConfig sampleRuntime
    (sampleElasticsearchThen (800, 200) (800, 100))
    { ActivePrimaryShards := 800, ActiveShards := 800, UnassignedShards := 200,
      ActiveShardsPercent := 100 }
    { ActivePrimaryShards := 800, ActiveShards := 800, UnassignedShards := 100,
      ActiveShardsPercent := 100 }
    { names := fun _ _ => ["jaeger-span-2020-01-01"] } rfl (by decide) rfl rfl rfl

/-- C13: Swarmpit check entered HEALTHY with probed memory usage above the maximum: the
probed container is removed with `Force = true` exactly once and
`GetContainerWithServiceName` is called exactly once (no re-probe); when the removal
succeeds the status ends HEALTHY with `if_swarmpit_app_restarted` true and process level
exactly `[WEAK_DETECTED]`; when it fails the status ends UNHEALTHY with the flag false,
process level exactly `[WEAK_DETECTED, ERROR]` and a non-null error. -/
theorem C13_swarmpit_restart (cfg : swarmpitCheckUsecaseConfig) (rt : Runtime)
    (da : dockerAgency) (ctn : Container)
    (hs : da.GetContainerWithServiceName 0 cfg.SwarmpitAppServiceName = .ok ctn)
    (hgt : cfg.SwarmpitAppMaxMemoryUsage < ctn.MemoryUsage) :
    removeCalls (checkSwarmpit cfg rt da .Healthy).trace = [(ctn.ID, true)] ∧
    lookupCalls (checkSwarmpit cfg rt da .Healthy).trace = [cfg.SwarmpitAppServiceName] ∧
    (da.RemoveContainer 0 ctn.ID { Force := true } = none →
      (checkSwarmpit cfg rt da .Healthy).status = .Healthy ∧
      (checkSwarmpit cfg rt da .Healthy).fields.IfSwarmpitAppRestarted = true ∧
      (checkSwarmpit cfg rt da .Healthy).history.ProcessLevel = [weakDetectedLevel]) ∧
    (∀ e, da.RemoveContainer 0 ctn.ID { Force := true } = some e →
      (checkSwarmpit cfg rt da .Healthy).status = .Unhealthy ∧
      (checkSwarmpit cfg rt da .Healthy).fields.IfSwarmpitAppRestarted = false ∧
      (checkSwarmpit cfg rt da .Healthy).history.ProcessLevel =
        [weakDetectedLevel, errorLevel] ∧
      (checkSwarmpit cfg rt da .Healthy).history.Error =
        some (errorsWrap e "failed to remove swarmpit app")) := by
  refine ⟨?_, ?_, ?_, ?_⟩
  · simp only [checkSwarmpit, checkSwarmpitProbed]
    simp [hs, hgt]
    split <;> simp
  · simp only [checkSwarmpit, checkSwarmpitProbed]
    simp [hs, hgt]
    split <;> simp
  · intro h
    simp [checkSwarmpit, checkSwarmpitProbed, hs, hgt, h]
  · intro e h
    simp [checkSwarmpit, checkSwarmpitProbed, hs, hgt, h]

/-- C13 at two runs with 5 GiB used against a maximum of 4 GiB: a removal that succeeds
and one that is refused. -/
theorem C13_witness :
    ((checkSwarmpit sampleSwarmpitConfig sampleRuntime (sampleDockerOk (5 * GiB))
        .Healthy).status = .Healthy ∧
      (checkSwarmpit sampleSwarmpitConfig sampleRuntime (sampleDockerOk (5 * GiB))
        .Healthy).fields.IfSwarmpitAppRestarted = true ∧
      (checkSwarmpit sampleSwarmpitConfig sampleRuntime (sampleDockerOk (5 * GiB))
        .Healthy).history.ProcessLevel = [weakDetectedLevel]) ∧
    ((checkSwarmpit sampleSwarmpitConfig sampleRuntime (sampleDocker (5 * GiB))
        .Healthy).status = .Unhealthy ∧
      (checkSwarmpit sampleSwarmpitConfig sampleRuntime (sampleDocker (5 * GiB))
        .Healthy).fields.IfSwarmpitAppRestarted = false ∧
      (checkSwarmpit sampleSwarmpitConfig sampleRuntime (sampleDocker (5 * GiB))
        .Healthy).history.ProcessLevel = [weakDetectedLevel, errorLevel] ∧
      (checkSwarmpit sampleSwarmpitConfig sampleRuntime (sampleDocker (5 * GiB))
        .Healthy).history.Error =
        some (errorsWrap "removal refused" "failed to remove swarmpit app")) :=
  ⟨(C13_swarmpit_restart sampleSwarmpitConfig sampleRuntime (sampleDockerOk (5 * GiB))
      { ID := "id-swarmpit_app", MemoryUsage := 5 * GiB } rfl (by decide)).2.2.1 rfl,
    (C13_swarmpit_restart sampleSwarmpitConfig sampleRuntime (sampleDocker (5 * GiB))
      { ID := "id-swarmpit_app", MemoryUsage := 5 * GiB } rfl (by decide)).2.2.2
      "removal refused" rfl⟩

attribute [simp] firstSend firstSendAnswer serviceCheckHistoryComponent.alarm

theorem checkDisk_alarm (cfg : diskCheckUsecaseConfig) (rt : Runtime) (dsa : diskSysAgency)
    (status : CheckStatus) :
    (checkDisk cfg rt dsa status).trace.count Event.SetAlarmResult ≤ 1 ∧
    ((checkDisk cfg rt dsa status).history.alerted = true →
      sentEmojis (checkDisk cfg rt dsa status).trace ≠ []) ∧
    (sentEmojis (checkDisk cfg rt dsa status).trace = [] →
      (checkDisk cfg rt dsa status).history.alerted = false ∧
      (checkDisk cfg rt dsa status).history.alarmText = "") := by
  unfold checkDisk checkDiskProbed
  cases status <;> simp <;> (repeat' split) <;> simp

theorem checkDisk_mirror (cfg : diskCheckUsecaseConfig) (rt : Runtime) (dsa : diskSysAgency)
    (status : CheckStatus) :
    sentEmojis (checkDisk cfg rt dsa status).trace ≠ [] →
    ((checkDisk cfg rt dsa status).history.alerted = true ∧
      some (checkDisk cfg rt dsa status).history.alarm =
        firstSendAnswer rt (checkDisk cfg rt dsa status).trace) ∨
    (status = .Unhealthy ∧ sentEmojis (checkDisk cfg rt dsa status).trace = ["heart"] ∧
      (checkDisk cfg rt dsa status).history.alerted = false) := by
  unfold checkDisk checkDiskProbed
  cases status <;> simp <;> (repeat' split) <;> simp

theorem checkElasticsearch_alarm (cfg : elasticsearchCheckUsecaseConfig) (rt : Runtime)
    (ea : elasticsearchAgency) (status : CheckStatus) :
    (checkElasticsearch cfg rt ea status).trace.count Event.SetAlarmResult ≤ 1 ∧
    ((checkElasticsearch cfg rt ea status).history.alerted = true →
      sentEmojis (checkElasticsearch cfg rt ea status).trace ≠ []) ∧
    (sentEmojis (checkElasticsearch cfg rt ea status).trace = [] →
      (checkElasticsearch cfg rt ea status).history.alerted = false ∧
      (checkElasticsearch cfg rt ea status).history.alarmText = "") := by
  unfold checkElasticsearch checkElasticsearchProbed
  cases status <;> simp <;> (repeat' split) <;> simp

theorem checkElasticsearch_mirror (cfg : elasticsearchCheckUsecaseConfig) (rt : Runtime)
    (ea : elasticsearchAgency) (status : CheckStatus) :
    sentEmojis (checkElasticsearch cfg rt ea status).trace ≠ [] →
    ((checkElasticsearch cfg rt ea status).history.alerted = true ∧
      some (checkElasticsearch cfg rt ea status).history.alarm =
        firstSendAnswer rt (checkElasticsearch cfg rt ea status).trace) ∨
    (status = .Unhealthy ∧
      sentEmojis (checkElasticsearch cfg rt ea status).trace = ["heart"] ∧
      (checkElasticsearch cfg rt ea status).history.alerted = false) := by
  unfold checkElasticsearch checkElasticsearchProbed
  cases status <;> simp <;> (repeat' split) <;> simp

theorem checkSwarmpit_alarm (cfg : swarmpitCheckUsecaseConfig) (rt : Runtime)
    (da : dockerAgency) (status : CheckStatus) :
    (checkSwarmpit cfg rt da status).trace.count Event.SetAlarmResult ≤ 1 ∧
    ((checkSwarmpit cfg rt da status).history.alerted = true →
      sentEmojis (checkSwarmpit cfg rt da status).trace ≠ []) ∧
    (sentEmojis (checkSwarmpit cfg rt da status).trace = [] →
      (checkSwarmpit cfg rt da status).history.alerted = false ∧
      (checkSwarmpit cfg rt da status).history.alarmText = "") := by
  unfold checkSwarmpit checkSwarmpitProbed
  cases status <;> simp <;> (repeat' split) <;> simp

theorem checkSwarmpit_mirror (cfg : swarmpitCheckUsecaseConfig) (rt : Runtime)
    (da : dockerAgency) (status : CheckStatus) :
    sentEmojis (checkSwarmpit cfg rt da status).trace ≠ [] →
    ((checkSwarmpit cfg rt da status).history.alerted = true ∧
      some (checkSwarmpit cfg rt da status).history.alarm =
        firstSendAnswer rt (checkSwarmpit cfg rt da status).trace) ∨
    (status = .Unhealthy ∧ sentEmojis (checkSwarmpit cfg rt da status).trace = ["heart"] ∧
      (checkSwarmpit cfg rt da status).history.alerted = false) := by
  unfold checkSwarmpit checkSwarmpitProbed
  cases status <;> simp <;> (repeat' split) <;> simp

theorem firstSend_append_of_none (a b : List Event) (h : firstSend a = none) :
    firstSend (a ++ b) = firstSend b := by
  induction a with
  | nil => rfl
  | cons e rest ih => cases e <;> simp_all

theorem firstSend_append_of_some (a b : List Event) (m : String × String × String)
    (h : firstSend a = some m) : firstSend (a ++ b) = some m := by
  induction a with
  | nil => simp at h
  | cons e rest ih => cases e <;> simp_all

theorem firstSend_nil_of (ext : List Event) (h : ∀ e ∈ ext, e.method ≠ some .SendMessage) :
    firstSend ext = none := by
  induction ext with
  | nil => rfl
  | cons e rest ih =>
    have he := h e (List.mem_cons_self _ _)
    have hr := ih (fun x hx => h x (List.mem_cons_of_mem _ hx))
    cases e <;> simp_all

theorem count_alarm_zero_of (ext : List Event) (h : ∀ e ∈ ext, e.method ≠ none) :
    ext.count Event.SetAlarmResult = 0 := by
  rw [List.count_eq_zero]
  intro hmem
  exact h _ hmem rfl

theorem consulDeregister_alarm (rt : Runtime) (ca : consulAgency) :
    ∀ (l : List String) (ccu : Tick ConsulCheckFields) (s f : List String),
    (consulDeregister rt ca l ccu s f).1.history.alarm = ccu.history.alarm := by
  intro l
  induction l with
  | nil => intro ccu s f; rfl
  | cons srvID rest ih =>
    intro ccu s f
    simp only [consulDeregister]
    split
    · rw [ih]; simp
    · rw [ih]; simp

theorem consulRestart_alarm (rt : Runtime) (da : dockerAgency) :
    ∀ (l : List String) (ccu : Tick ConsulCheckFields) (s f : List String),
    (consulRestart rt da l ccu s f).1.history.alarm = ccu.history.alarm := by
  intro l
  induction l with
  | nil => intro ccu s f; rfl
  | cons srv rest ih =>
    intro ccu s f
    simp only [consulRestart]
    split
    · rw [ih]; simp
    · split
      · rw [ih]; simp
      · rw [ih]; simp

theorem alarm_facts_of_shape {P : Type} (rt : Runtime) (t : Tick P)
    (pre ext : List Event) (emoji msg : String)
    (hpre : ∀ e ∈ pre, e.method = some .GetServices ∨ e.method = some .PingToCheckConn)
    (hext : ∀ e ∈ ext, e.method ≠ none)
    (htr : t.trace = pre ++ [Event.setStatus .Recovering,
      Event.SendMessage emoji msg rt.uuid, Event.SetAlarmResult] ++ ext ++
      [Event.setStatus .Healthy])
    (hal : t.history.alerted = true)
    (halarm : t.history.alarm = rt.SendMessage 0 emoji msg rt.uuid) :
    t.trace.count Event.SetAlarmResult ≤ 1 ∧
    (t.history.alerted = true → sentEmojis t.trace ≠ []) ∧
    (sentEmojis t.trace = [] → t.history.alerted = false ∧ t.history.alarmText = "") ∧
    (sentEmojis t.trace ≠ [] →
      t.history.alerted = true ∧ some t.history.alarm = firstSendAnswer rt t.trace) := by
  have hpre1 : pre.count Event.SetAlarmResult = 0 :=
    count_alarm_zero_of pre (fun e he => by rcases hpre e he with h | h <;> rw [h] <;> decide)
  have hext1 : ext.count Event.SetAlarmResult = 0 := count_alarm_zero_of ext hext
  have hpre2 : firstSend pre = none :=
    firstSend_nil_of pre (fun e he => by rcases hpre e he with h | h <;> rw [h] <;> decide)
  have hsent : sentEmojis t.trace ≠ [] := by
    rw [htr]
    simp [sentEmojis_append]
  have hfirst : firstSend t.trace = some (emoji, msg, rt.uuid) := by
    rw [htr, List.append_assoc, List.append_assoc, firstSend_append_of_none _ _ hpre2]
    rfl
  refine ⟨?_, fun _ => hsent, fun h => absurd h hsent, fun _ => ⟨hal, ?_⟩⟩
  · rw [htr]
    simp only [List.count_append, hpre1, hext1]
    simp [List.count_cons]
  · simp only [firstSendAnswer, hfirst, Option.map_some']
    rw [halarm]

theorem checkConsulProbed_alarm (cfg : consulCheckUsecaseConfig) (rt : Runtime)
    (ca : consulAgency) (da : dockerAgency) (ccu : Tick ConsulCheckFields)
    (srvM : GoMap Instance) (ids : List String)
    (hprobe : ∀ e ∈ ccu.trace,
      e.method = some .GetServices ∨ e.method = some .PingToCheckConn)
    (hal : ccu.history.alerted = false) (htx : ccu.history.alarmText = "") :
    (checkConsulProbed cfg rt ca da ccu srvM ids).trace.count Event.SetAlarmResult ≤ 1 ∧
    ((checkConsulProbed cfg rt ca da ccu srvM ids).history.alerted = true →
      sentEmojis (checkConsulProbed cfg rt ca da ccu srvM ids).trace ≠ []) ∧
    (sentEmojis (checkConsulProbed cfg rt ca da ccu srvM ids).trace = [] →
      (checkConsulProbed cfg rt ca da ccu srvM ids).history.alerted = false ∧
      (checkConsulProbed cfg rt ca da ccu srvM ids).history.alarmText = "") ∧
    (sentEmojis (checkConsulProbed cfg rt ca da ccu srvM ids).trace ≠ [] →
      (checkConsulProbed cfg rt ca da ccu srvM ids).history.alerted = true ∧
      some (checkConsulProbed cfg rt ca da ccu srvM ids).history.alarm =
        firstSendAnswer rt (checkConsulProbed cfg rt ca da ccu srvM ids).trace) := by
  obtain ⟨p1, p2, p3, p4, p5, p6, p7⟩ := probe_trace_facts ccu.trace hprobe
  by_cases hids : ids = []
  · subst hids
    by_cases hun : consulUnableSrvs cfg srvM = []
    · rw [checkConsulProbed_steady_eq cfg rt ca da ccu srvM hun]
      have hc : ccu.trace.count Event.SetAlarmResult = 0 :=
        count_alarm_zero_of _ (fun e he => by
          rcases hprobe e he with h | h <;> rw [h] <;> decide)
      refine ⟨?_, ?_, ?_, ?_⟩
      · simp only [Tick.SetLevel, hc]; decide
      · intro h
        simp only [Tick.SetLevel] at h
        rw [hal] at h
        cases h
      · intro _
        exact ⟨hal, htx⟩
      · intro h
        exact absurd p7 h
    · obtain ⟨entry, e1, e2, e3, e4, e5⟩ :=
        checkConsulProbed_restart_eq cfg rt ca da ccu srvM hun
      obtain ⟨f1, f2, f3, ext, f5, f6⟩ :=
        consulRestart_frame rt da (consulUnableSrvs cfg srvM) entry [] []
      have f7 := consulRestart_alarm rt da (consulUnableSrvs cfg srvM) entry [] []
      rw [e5]
      apply alarm_facts_of_shape rt _ ccu.trace ext "pill"
        "!consul check weak detected! start to restart container" hprobe
        (fun e he => by rcases f6 e he with h | h | h <;> rw [h] <;> decide)
      · simp only [Tick.SetLevel, Tick.setStatus]
        rw [f5, e2]
      · simp only [Tick.SetLevel, Tick.setStatus]
        rw [f3, e3]
        rfl
      · simp only [Tick.SetLevel, Tick.setStatus]
        show (consulRestart rt da (consulUnableSrvs cfg srvM) entry [] []).1.history.alarm = _
        rw [f7, e3, p6]
        rfl
  · obtain ⟨entry, e1, e2, e3, e4, e5⟩ :=
      checkConsulProbed_deregister_eq cfg rt ca da ccu srvM ids hids
    obtain ⟨f1, f2, f3, _, ext, f5, f6⟩ := consulDeregister_frame rt ca ids entry [] []
    have f7 := consulDeregister_alarm rt ca ids entry [] []
    rw [e5]
    apply alarm_facts_of_shape rt _ ccu.trace ext "pill"
      "!consul check weak detected! start to deregister unable services" hprobe
      (fun e he => by rcases f6 e he with h | h <;> rw [h] <;> decide)
    · simp only [Tick.setStatus]
      rw [f5, e2]
    · simp only [Tick.setStatus]
      rw [f3, e3]
      rfl
    · simp only [Tick.setStatus]
      show (consulDeregister rt ca ids entry [] []).1.history.alarm = _
      rw [f7, e3, p6]
      rfl

theorem checkConsul_alarm (cfg : consulCheckUsecaseConfig) (rt : Runtime) (ca : consulAgency)
    (ga : gRPCAgency) (da : dockerAgency) (range : MapRange) (status : CheckStatus) :
    (checkConsul cfg rt ca ga da range status).trace.count Event.SetAlarmResult ≤ 1 ∧
    ((checkConsul cfg rt ca ga da range status).history.alerted = true →
      sentEmojis (checkConsul cfg rt ca ga da range status).trace ≠ []) ∧
    (sentEmojis (checkConsul cfg rt ca ga da range status).trace = [] →
      (checkConsul cfg rt ca ga da range status).history.alerted = false ∧
      (checkConsul cfg rt ca ga da range status).history.alarmText = "") ∧
    (sentEmojis (checkConsul cfg rt ca ga da range status).trace ≠ [] →
      (checkConsul cfg rt ca ga da range status).history.alerted = true ∧
      some (checkConsul cfg rt ca ga da range status).history.alarm =
        firstSendAnswer rt (checkConsul cfg rt ca ga da range status).trace) := by
  cases status with
  | Recovering => simp [checkConsul]
  | Unhealthy => simp [checkConsul]
  | Healthy =>
    unfold checkConsul
    simp only [(checkConsul_start rt .Healthy).1]
    split
    · rename_i t ht
      obtain ⟨a1, a2, a3, a4, a5, _, _, ext, a6, a7⟩ :=
        consulGetServices_returned cfg rt ca _ _ _ _ ht
      have hsent : sentEmojis t.trace ≠ [] := by
        rw [a6]; simp [sentEmojis_append]
      have hfirst : firstSend t.trace = some ("x",
          "!consul check error occurred! unable to get services in consul", rt.uuid) := by
        rw [a6, List.append_assoc]
        simp only [Tick.start, List.nil_append]
        rw [firstSend_append_of_none _ _
          (firstSend_nil_of ext (fun e he => by rw [a7 e he]; decide))]
        rfl
      refine ⟨?_, fun _ => hsent, fun h => absurd h hsent, fun _ => ⟨a4, ?_⟩⟩
      · rw [a6]
        simp only [Tick.start, List.nil_append, List.count_append,
          count_alarm_zero_of ext (fun e he => by rw [a7 e he]; decide)]
        simp [List.count_cons]
      · simp only [firstSendAnswer, hfirst, Option.map_some',
          serviceCheckHistoryComponent.alarm]
        rw [a5]
        simp
    · rename_i t1 m1 h1
      obtain ⟨a1, a2, _, _, _, _, ext1, a7, a8⟩ :=
        consulGetServices_next cfg rt ca _ _ _ _ _ h1
      split
      · rename_i t ht
        obtain ⟨b1, b2, b3, b4, b5, b6, ext2, b7, b8⟩ :=
          consulPingServices_returned cfg ga m1 _ _ _ _ ht
        have hm : ∀ e ∈ t.trace,
            e.method = some .GetServices ∨ e.method = some .PingToCheckConn := by
          intro e he
          rw [b7, a7] at he
          simp only [Tick.start, List.nil_append, List.mem_append] at he
          rcases he with he | he
          · exact Or.inl (a8 e he)
          · exact Or.inr (b8 e he)
        obtain ⟨_, _, _, _, _, _, p7⟩ := probe_trace_facts t.trace hm
        have hal : t.history.alerted = false := by rw [b4, a2]; rfl
        have htx : t.history.alarmText = "" := by rw [b5, a2]; rfl
        refine ⟨?_, ?_, fun _ => ⟨hal, htx⟩, fun h => absurd p7 h⟩
        · rw [count_alarm_zero_of t.trace (fun e he => by
            rcases hm e he with h | h <;> rw [h] <;> decide)]
          decide
        · intro h
          rw [hal] at h
          cases h
      · rename_i t2 ids h2
        obtain ⟨b1, b2, b3, ext2, b4, b5⟩ := consulPingServices_next cfg ga m1 _ _ _ _ _ h2
        apply checkConsulProbed_alarm
        · intro e he
          rw [b4, a7] at he
          simp only [Tick.start, List.nil_append, List.mem_append] at he
          rcases he with he | he
          · exact Or.inl (a8 e he)
          · exact Or.inr (b5 e he)
        · rw [b2, a2]; rfl
        · rw [b2, a2]; rfl

theorem clearAlarm_eq_iff (a b : serviceCheckHistoryComponent) :
    a.clearAlarm = b.clearAlarm ↔
      a.agent = b.agent ∧ a.version = b.version ∧ a.timestamp = b.timestamp ∧
      a.domain = b.domain ∧ a._type = b._type ∧ a.UUID = b.UUID ∧
      a.ProcessLevel = b.ProcessLevel ∧ a.Message = b.Message ∧ a.Error = b.Error ∧
      a.alerted = b.alerted := by
  cases a
  cases b
  simp [serviceCheckHistoryComponent.clearAlarm]

theorem Tick.sameButAlarm_refl {P : Type} (a : Tick P) : a.sameButAlarm a :=
  ⟨rfl, rfl, rfl, rfl⟩

theorem consulDeregister_sim (rt : Runtime)
    (chat : Nat → String → String → String → Nat × String × Option String)
    (ca : consulAgency) :
    ∀ (l : List String) (ccu1 ccu2 : Tick ConsulCheckFields) (s f : List String),
    ccu1.sameButAlarm ccu2 →
    (consulDeregister rt ca l ccu1 s f).1.sameButAlarm
      (consulDeregister { rt with SendMessage := chat } ca l ccu2 s f).1 ∧
    (consulDeregister rt ca l ccu1 s f).2 =
      (consulDeregister { rt with SendMessage := chat } ca l ccu2 s f).2 := by
  intro l
  induction l with
  | nil => intro ccu1 ccu2 s f h; exact ⟨h, rfl⟩
  | cons srvID rest ih =>
    intro ccu1 ccu2 s f h
    have htr : ccu1.trace = ccu2.trace := h.2.1
    simp only [consulDeregister, htr]
    split
    · apply ih
      simp only [Tick.sameButAlarm, clearAlarm_eq_iff] at h ⊢
      obtain ⟨h1, h2, h3, h4, h5, h6, h7, h8, h9, h10, h11, h12, h13⟩ := h
      simp [*]
    · apply ih
      simp only [Tick.sameButAlarm, clearAlarm_eq_iff] at h ⊢
      obtain ⟨h1, h2, h3, h4, h5, h6, h7, h8, h9, h10, h11, h12, h13⟩ := h
      simp [*]

theorem consulRestart_sim (rt : Runtime)
    (chat : Nat → String → String → String → Nat × String × Option String)
    (da : dockerAgency) :
    ∀ (l : List String) (ccu1 ccu2 : Tick ConsulCheckFields) (s f : List String),
    ccu1.sameButAlarm ccu2 →
    (consulRestart rt da l ccu1 s f).1.sameButAlarm
      (consulRestart { rt with SendMessage := chat } da l ccu2 s f).1 ∧
    (consulRestart rt da l ccu1 s f).2 =
      (consulRestart { rt with SendMessage := chat } da l ccu2 s f).2 := by
  intro l
  induction l with
  | nil => intro ccu1 ccu2 s f h; exact ⟨h, rfl⟩
  | cons srv rest ih =>
    intro ccu1 ccu2 s f h
    have htr : ccu1.trace = ccu2.trace := h.2.1
    simp only [consulRestart, htr]
    split
    · apply ih
      simp only [Tick.sameButAlarm, clearAlarm_eq_iff] at h ⊢
      obtain ⟨h1, h2, h3, h4, h5, h6, h7, h8, h9, h10, h11, h12, h13⟩ := h
      simp [*]
    · simp only [Tick.log, htr]
      split
      · apply ih
        simp only [Tick.sameButAlarm, clearAlarm_eq_iff] at h ⊢
        obtain ⟨h1, h2, h3, h4, h5, h6, h7, h8, h9, h10, h11, h12, h13⟩ := h
        simp [*]
      · apply ih
        simp only [Tick.sameButAlarm, clearAlarm_eq_iff] at h ⊢
        obtain ⟨h1, h2, h3, h4, h5, h6, h7, h8, h9, h10, h11, h12, h13⟩ := h
        simp [*]

theorem consulGetServices_sim (cfg : consulCheckUsecaseConfig) (rt : Runtime)
    (chat : Nat → String → String → String → Nat × String × Option String)
    (ca : consulAgency) :
    ∀ (l : List String) (ccu : Tick ConsulCheckFields) (m : GoMap Instance),
    (∀ t m1, consulGetServices cfg rt ca l ccu m = .next t m1 →
      consulGetServices cfg { rt with SendMessage := chat } ca l ccu m = .next t m1) ∧
    (∀ t, consulGetServices cfg rt ca l ccu m = .returned t →
      ∃ t2, consulGetServices cfg { rt with SendMessage := chat } ca l ccu m = .returned t2 ∧
        t.sameButAlarm t2) := by
  intro l
  induction l with
  | nil =>
    intro ccu m
    simp [consulGetServices]
  | cons srv rest ih =>
    intro ccu m
    simp only [consulGetServices]
    split
    · refine ⟨fun t m1 h => (by cases h), fun t h => ?_⟩
      simp only [Flow.returned.injEq] at h
      subst h
      refine ⟨_, rfl, ?_⟩
      simp [Tick.sameButAlarm, clearAlarm_eq_iff]
    · exact ih _ _

theorem checkConsulProbed_sim (cfg : consulCheckUsecaseConfig) (rt : Runtime)
    (chat : Nat → String → String → String → Nat × String × Option String)
    (ca : consulAgency) (da : dockerAgency) (ccu : Tick ConsulCheckFields)
    (srvM : GoMap Instance) (ids : List String) :
    (checkConsulProbed cfg rt ca da ccu srvM ids).sameButAlarm
      (checkConsulProbed cfg { rt with SendMessage := chat } ca da ccu srvM ids) := by
  by_cases hids : ids = []
  · subst hids
    by_cases hun : consulUnableSrvs cfg srvM = []
    · rw [checkConsulProbed_steady_eq cfg rt ca da ccu srvM hun,
        checkConsulProbed_steady_eq cfg _ ca da ccu srvM hun]
      exact Tick.sameButAlarm_refl _
    · obtain ⟨entry1, a1, a2, a3, a4, a5⟩ :=
        checkConsulProbed_restart_eq cfg rt ca da ccu srvM hun
      obtain ⟨entry2, b1, b2, b3, b4, b5⟩ :=
        checkConsulProbed_restart_eq cfg { rt with SendMessage := chat } ca da ccu srvM hun
      have hentry : entry1.sameButAlarm entry2 := by
        refine ⟨a1.trans b1.symm, a2.trans b2.symm, a4.trans b4.symm, ?_⟩
        rw [a3, b3]
        simp [clearAlarm_eq_iff]
      obtain ⟨⟨s1, s2, s3, s4⟩, s5⟩ :=
        consulRestart_sim rt chat da (consulUnableSrvs cfg srvM) entry1 entry2 [] [] hentry
      rw [a5, b5]
      refine ⟨rfl, ?_, ?_, ?_⟩
      · simp only [Tick.SetLevel, Tick.setStatus, s2]
      · simp only [Tick.SetLevel, Tick.setStatus, s3, s5]
      · simp only [clearAlarm_eq_iff] at s4 ⊢
        obtain ⟨h1, h2, h3, h4, h5, h6, h7, h8, h9, h10⟩ := s4
        simp [*]
  · obtain ⟨entry1, a1, a2, a3, a4, a5⟩ :=
      checkConsulProbed_deregister_eq cfg rt ca da ccu srvM ids hids
    obtain ⟨entry2, b1, b2, b3, b4, b5⟩ :=
      checkConsulProbed_deregister_eq cfg { rt with SendMessage := chat } ca da ccu srvM ids hids
    have hentry : entry1.sameButAlarm entry2 := by
      refine ⟨a1.trans b1.symm, a2.trans b2.symm, a4.trans b4.symm, ?_⟩
      rw [a3, b3]
      simp [clearAlarm_eq_iff]
    obtain ⟨⟨s1, s2, s3, s4⟩, s5⟩ :=
      consulDeregister_sim rt chat ca ids entry1 entry2 [] [] hentry
    rw [a5, b5]
    refine ⟨rfl, ?_, ?_, ?_⟩
    · simp only [Tick.setStatus, s2]
    · simp only [Tick.setStatus, s3, s5]
    · simpa only [Tick.setStatus] using s4

theorem checkConsul_sim (cfg : consulCheckUsecaseConfig) (rt : Runtime)
    (chat : Nat → String → String → String → Nat × String × Option String)
    (ca : consulAgency) (ga : gRPCAgency) (da : dockerAgency) (range : MapRange)
    (status : CheckStatus) :
    (checkConsul cfg rt ca ga da range status).sameButAlarm
      (checkConsul cfg { rt with SendMessage := chat } ca ga da range status) := by
  cases status with
  | Recovering => exact ⟨rfl, rfl, rfl, rfl⟩
  | Unhealthy => exact ⟨rfl, rfl, rfl, rfl⟩
  | Healthy =>
    obtain ⟨hnext, hret⟩ := consulGetServices_sim cfg rt chat ca cfg.CheckTargetServices
      (Tick.start rt "srvcheck" "consul" .Healthy {}) []
    have hstart : (Tick.start { rt with SendMessage := chat } "srvcheck" "consul" .Healthy
        ({} : ConsulCheckFields)) = Tick.start rt "srvcheck" "consul" .Healthy {} := rfl
    unfold checkConsul
    simp only [hstart, (checkConsul_start rt .Healthy).1]
    cases h1 : consulGetServices cfg rt ca cfg.CheckTargetServices
      (Tick.start rt "srvcheck" "consul" .Healthy {}) [] with
    | returned t =>
      obtain ⟨t2, h2, hsim⟩ := hret t h1
      rw [h2]
      exact hsim
    | next t1 m1 =>
      rw [hnext t1 m1 h1]
      simp only
      cases h2 : consulPingServices cfg ga m1 (range m1.keys).val t1 [] with
      | returned t => exact Tick.sameButAlarm_refl _
      | next t2 ids => exact checkConsulProbed_sim cfg rt chat ca da t2 m1 ids

theorem checkDisk_sim (cfg : diskCheckUsecaseConfig) (rt : Runtime)
    (chat : Nat → String → String → String → Nat × String × Option String)
    (dsa : diskSysAgency) (status : CheckStatus) :
    (checkDisk cfg rt dsa status).sameButAlarm
      (checkDisk cfg { rt with SendMessage := chat } dsa status) := by
  unfold checkDisk checkDiskProbed
  cases status <;> simp [Tick.sameButAlarm, clearAlarm_eq_iff] <;> (repeat' split) <;> simp

theorem checkElasticsearch_sim (cfg : elasticsearchCheckUsecaseConfig) (rt : Runtime)
    (chat : Nat → String → String → String → Nat × String × Option String)
    (ea : elasticsearchAgency) (status : CheckStatus) :
    (checkElasticsearch cfg rt ea status).sameButAlarm
      (checkElasticsearch cfg { rt with SendMessage := chat } ea status) := by
  unfold checkElasticsearch checkElasticsearchProbed
  cases status <;> simp [Tick.sameButAlarm, clearAlarm_eq_iff] <;> (repeat' split) <;> simp

theorem checkSwarmpit_sim (cfg : swarmpitCheckUsecaseConfig) (rt : Runtime)
    (chat : Nat → String → String → String → Nat × String × Option String)
    (da : dockerAgency) (status : CheckStatus) :
    (checkSwarmpit cfg rt da status).sameButAlarm
      (checkSwarmpit cfg { rt with SendMessage := chat } da status) := by
  unfold checkSwarmpit checkSwarmpitProbed
  cases status <;> simp [Tick.sameButAlarm, clearAlarm_eq_iff] <;> (repeat' split) <;> simp

theorem consulPingInstances_broken (cfg : consulCheckUsecaseConfig) (ga : gRPCAgency) :
    ∀ (l : List Instance) (ccu : Tick ConsulCheckFields) (ids : List String),
    noPingError cfg ga (callsOf .PingToCheckConn ccu.trace) l = false →
    ∃ t, consulPingInstances cfg ga l ccu ids = .returned t := by
  intro l
  induction l with
  | nil =>
    intro ccu ids h
    simp [noPingError] at h
  | cons srv rest ih =>
    intro ccu ids h
    have hcalls : callsOf .PingToCheckConn
        (ccu.log (Event.PingToCheckConn cfg.ConnCheckPingTimeOut srv.addr)).trace =
        callsOf .PingToCheckConn ccu.trace + 1 := by simp
    simp only [noPingError, Bool.and_eq_false_iff, Bool.or_eq_false_iff] at h
    simp only [consulPingInstances]
    by_cases hc : (ga.PingToCheckConn (callsOf .PingToCheckConn ccu.trace)
        cfg.ConnCheckPingTimeOut srv.addr).ctxErr = true
    · simp only [hc, if_true]
      rcases h with h | h
      · rw [hc] at h
        exact absurd h.1 (by decide)
      · rw [← hcalls] at h
        exact ih _ _ h
    · simp only [hc, if_false, Bool.false_eq_true]
      cases he : (ga.PingToCheckConn (callsOf .PingToCheckConn ccu.trace)
          cfg.ConnCheckPingTimeOut srv.addr).err with
      | some err => exact ⟨_, rfl⟩
      | none =>
        rcases h with h | h
        · rw [he] at h
          exact absurd h.2 (by decide)
        · rw [← hcalls] at h
          exact ih _ _ h

theorem consulPingServices_broken (cfg : consulCheckUsecaseConfig) (ga : gRPCAgency)
    (srvM : GoMap Instance) :
    ∀ (ks : List String) (ccu : Tick ConsulCheckFields) (ids : List String),
    noPingError cfg ga (callsOf .PingToCheckConn ccu.trace) (pingTargets srvM ks) = false →
    ∃ t, consulPingServices cfg ga srvM ks ccu ids = .returned t := by
  intro ks
  induction ks with
  | nil =>
    intro ccu ids h
    simp [noPingError, pingTargets] at h
  | cons k rest ih =>
    intro ccu ids h
    have hpt : pingTargets srvM (k :: rest) = srvM.index k ++ pingTargets srvM rest := by
      simp [pingTargets]
    rw [hpt, noPingError_append] at h
    simp only [consulPingServices]
    cases h1 : noPingError cfg ga (callsOf .PingToCheckConn ccu.trace) (srvM.index k) with
    | false =>
      obtain ⟨t, ht⟩ := consulPingInstances_broken cfg ga (srvM.index k) ccu ids h1
      rw [ht]
      exact ⟨t, rfl⟩
    | true =>
      obtain ⟨t1, ht1, hn1⟩ := consulPingInstances_clean cfg ga (srvM.index k) ccu ids h1
      rw [h1, Bool.true_and, ← hn1] at h
      rw [ht1]
      exact ih t1 _ h

/-- A Consul tick entered HEALTHY in which some ping returns an error without timing out:
the record is `[ERROR]` with an error, the status stays HEALTHY, nothing is deregistered
or removed, and neither a chat message nor an alarm is produced. -/
theorem checkConsul_ping_error (cfg : consulCheckUsecaseConfig) (rt : Runtime)
    (ca : consulAgency) (ga : gRPCAgency) (da : dockerAgency) (range : MapRange)
    (srvM : GoMap Instance)
    (hs : consulSrvM cfg rt ca = some srvM)
    (hbad : noPingError cfg ga 0 (pingTargets srvM (range srvM.keys).val) = false) :
    (checkConsul cfg rt ca ga da range .Healthy).history.ProcessLevel = [errorLevel] ∧
    (∃ err, (checkConsul cfg rt ca ga da range .Healthy).history.Error = some err ∧
      (checkConsul cfg rt ca ga da range .Healthy).history.Message = err) ∧
    (checkConsul cfg rt ca ga da range .Healthy).status = .Healthy ∧
    deregisterCalls (checkConsul cfg rt ca ga da range .Healthy).trace = [] ∧
    lookupCalls (checkConsul cfg rt ca ga da range .Healthy).trace = [] ∧
    removeCalls (checkConsul cfg rt ca ga da range .Healthy).trace = [] ∧
    sentEmojis (checkConsul cfg rt ca ga da range .Healthy).trace = [] ∧
    (checkConsul cfg rt ca ga da range .Healthy).history.alerted = false ∧
    (checkConsul cfg rt ca ga da range .Healthy).history.alarmText = "" ∧
    (checkConsul cfg rt ca ga da range .Healthy).trace.count Event.SetAlarmResult = 0 := by
  unfold consulSrvM at hs
  split at hs
  · rename_i ccu1 m1 h1
    simp only [Option.some.injEq] at hs
    subst hs
    obtain ⟨a1, a2, a3, a4, a5, a6, ext1, a7, a8⟩ :=
      consulGetServices_next cfg rt ca _ _ _ _ _ h1
    have hz : callsOf .PingToCheckConn ccu1.trace = 0 := by
      apply callsOf_zero_of
      intro e he
      rw [a7] at he
      simp only [Tick.start, List.nil_append] at he
      rw [a8 e he]; decide
    rw [← hz] at hbad
    obtain ⟨t, ht⟩ := consulPingServices_broken cfg ga m1 (range m1.keys).val ccu1 [] hbad
    obtain ⟨b1, b2, b3, b4, b5, b6, ext2, b7, b8⟩ :=
      consulPingServices_returned cfg ga m1 _ _ _ _ ht
    have hres : checkConsul cfg rt ca ga da range .Healthy = t := by
      unfold checkConsul
      simp only [(checkConsul_start rt .Healthy).1]
      rw [h1]
      simp only
      rw [ht]
    have hm : ∀ e ∈ t.trace,
        e.method = some .GetServices ∨ e.method = some .PingToCheckConn := by
      intro e he
      rw [b7, a7] at he
      simp only [Tick.start, List.nil_append, List.mem_append] at he
      rcases he with he | he
      · exact Or.inl (a8 e he)
      · exact Or.inr (b8 e he)
    obtain ⟨p1, p2, p3, _, _, _, p7⟩ := probe_trace_facts t.trace hm
    rw [hres]
    refine ⟨b2, b3, ?_, p1, p2, p3, p7, ?_, ?_, ?_⟩
    · rw [b1, a1]; rfl
    · rw [b4, a2]; rfl
    · rw [b5, a2]; rfl
    · rw [List.count_eq_zero]
      intro hmem
      rcases hm _ hmem with h | h <;> simp at h
  · cases hs

/-- C14 refuted as stated: with the target service auth configured twice, its instance A
is listed and pinged twice and both pings time out; `DeregisterInstance` is called twice
for the id A, the first call succeeds and the second fails, and A is in both
`DeregisteredInstances` and `DeregisterFailedInstances`. -/
theorem C14_counterexample :
    deregisterCalls (checkConsul { sampleConsulConfig with CheckTargetServices := ["auth", "auth"] }
      sampleRuntime sampleConsulOnce (sampleGRPCStale "10.0.0.1:80") (sampleDockerOk 0)
      sampleRange .Healthy).trace = ["A", "A"] ∧
    (checkConsul { sampleConsulConfig with CheckTargetServices := ["auth", "auth"] }
      sampleRuntime sampleConsulOnce (sampleGRPCStale "10.0.0.1:80") (sampleDockerOk 0)
      sampleRange .Healthy).fields.DeregisteredInstances = ["A"] ∧
    (checkConsul { sampleConsulConfig with CheckTargetServices := ["auth", "auth"] }
      sampleRuntime sampleConsulOnce (sampleGRPCStale "10.0.0.1:80") (sampleDockerOk 0)
      sampleRange .Healthy).fields.DeregisterFailedInstances = ["A"] := by
  decide

/-- C14 as amended: Consul check entered HEALTHY, every `GetServices` call succeeding
(building the map `srvM`), no ping returning an error other than a timeout and at least
one ping timing out: the `DeregisterInstance` calls are exactly the ids of the timed-out
pings, in ping order (so each id is called as often as it timed out and no other id is
called);
`deregistered_instances` and `deregister_failed_instances` are the ids whose
deregistration succeeded and failed, in call order, and together rearrange the timed-out
ids; `if_instance_deregistered` is true; the process level contains ERROR if and only if
some deregistration failed; and the status ends HEALTHY. When the timed-out ids are
pairwise distinct, each is deregistered exactly once and is in exactly one of the two
lists. -/
theorem C14_consul_deregisters_timed_out (cfg : consulCheckUsecaseConfig) (rt : Runtime)
    (ca : consulAgency) (ga : gRPCAgency) (da : dockerAgency) (range : MapRange)
    (srvM : GoMap Instance)
    (hs : consulSrvM cfg rt ca = some srvM)
    (hok : noPingError cfg ga 0 (pingTargets srvM (range srvM.keys).val) = true)
    (hto : timedOutIDs cfg ga 0 (pingTargets srvM (range srvM.keys).val) ≠ []) :
    deregisterCalls (checkConsul cfg rt ca ga da range .Healthy).trace =
      timedOutIDs cfg ga 0 (pingTargets srvM (range srvM.keys).val) ∧
    (∀ id, (deregisterCalls (checkConsul cfg rt ca ga da range .Healthy).trace).count id =
      (timedOutIDs cfg ga 0 (pingTargets srvM (range srvM.keys).val)).count id) ∧
    (checkConsul cfg rt ca ga da range .Healthy).fields.DeregisteredInstances =
      deregisterSucceeded ca 0 (timedOutIDs cfg ga 0 (pingTargets srvM (range srvM.keys).val)) ∧
    (checkConsul cfg rt ca ga da range .Healthy).fields.DeregisterFailedInstances =
      deregisterFailed ca 0 (timedOutIDs cfg ga 0 (pingTargets srvM (range srvM.keys).val)) ∧
    ((checkConsul cfg rt ca ga da range .Healthy).fields.DeregisteredInstances ++
      (checkConsul cfg rt ca ga da range .Healthy).fields.DeregisterFailedInstances).Perm
      (timedOutIDs cfg ga 0 (pingTargets srvM (range srvM.keys).val)) ∧
    (checkConsul cfg rt ca ga da range .Healthy).fields.IfInstanceDeregistered = true ∧
    (errorLevel ∈ (checkConsul cfg rt ca ga da range .Healthy).history.ProcessLevel ↔
      (checkConsul cfg rt ca ga da range .Healthy).fields.DeregisterFailedInstances ≠ []) ∧
    (checkConsul cfg rt ca ga da range .Healthy).status = .Healthy ∧
    ((timedOutIDs cfg ga 0 (pingTargets srvM (range srvM.keys).val)).Nodup →
      ∀ id ∈ timedOutIDs cfg ga 0 (pingTargets srvM (range srvM.keys).val),
        (deregisterCalls (checkConsul cfg rt ca ga da range .Healthy).trace).count id = 1 ∧
        (id ∈ (checkConsul cfg rt ca ga da range .Healthy).fields.DeregisteredInstances ↔
          id ∉ (checkConsul cfg rt ca ga da range
            .Healthy).fields.DeregisterFailedInstances)) := by
  obtain ⟨h1, h2, h3, h4, h5, h6, _, _, _⟩ :=
    checkConsul_deregister_facts cfg rt ca ga da range srvM hs hok hto
  have hperm := deregister_split_perm ca
    (timedOutIDs cfg ga 0 (pingTargets srvM (range srvM.keys).val)) 0
  refine ⟨h1, fun id => by rw [h1], h2, h3, ?_, h4, ?_, h6, ?_⟩
  · rw [h2, h3]
    exact hperm
  · rw [h3]
    exact h5
  · intro hnd id hid
    have hnd2 := (List.Perm.nodup_iff hperm).mpr hnd
    have hmem := (List.Perm.mem_iff hperm).mpr hid
    rw [h1, h2, h3]
    refine ⟨List.count_eq_one_of_mem hnd hid, ?_, ?_⟩
    · intro hd hf
      exact (List.nodup_append.mp hnd2).2.2 hd hf
    · intro hf
      rcases List.mem_append.mp hmem with h | h
      · exact h
      · exact absurd h hf

/-- C14 (amended) at the run of the claim: service auth with instances A (ping times out) and B
(ping succeeds). -/
theorem C14_witness :
    deregisterCalls (checkConsul sampleConsulConfig sampleRuntime
      (sampleConsul (.ok [{ id := "A", addr := "10.0.0.1:80" },
        { id := "B", addr := "10.0.0.2:80" }]))
      (sampleGRPCStale "10.0.0.1:80") (sampleDockerOk 0) sampleRange .Healthy).trace = ["A"] ∧
    (checkConsul sampleConsulConfig sampleRuntime
      (sampleConsul (.ok [{ id := "A", addr := "10.0.0.1:80" },
        { id := "B", addr := "10.0.0.2:80" }]))
      (sampleGRPCStale "10.0.0.1:80") (sampleDockerOk 0) sampleRange
      .Healthy).fields.DeregisteredInstances = ["A"] ∧
    (checkConsul sampleConsulConfig sampleRuntime
      (sampleConsul (.ok [{ id := "A", addr := "10.0.0.1:80" },
        { id := "B", addr := "10.0.0.2:80" }]))
      (sampleGRPCStale "10.0.0.1:80") (sampleDockerOk 0) sampleRange
      .Healthy).fields.DeregisterFailedInstances = [] ∧
    (checkConsul sampleConsulConfig sampleRuntime
      (sampleConsul (.ok [{ id := "A", addr := "10.0.0.1:80" },
        { id := "B", addr := "10.0.0.2:80" }]))
      (sampleGRPCStale "10.0.0.1:80") (sampleDockerOk 0) sampleRange
      .Healthy).fields.IfInstanceDeregistered = true ∧
    (checkConsul sampleConsulConfig sampleRuntime
      (sampleConsul (.ok [{ id := "A", addr := "10.0.0.1:80" },
        { id := "B", addr := "10.0.0.2:80" }]))
      (sampleGRPCStale "10.0.0.1:80") (sampleDockerOk 0) sampleRange
      .Healthy).status = .Healthy := by
  have h := C14_consul_deregisters_timed_out sampleConsulConfig sampleRuntime
    (sampleConsul (.ok [{ id := "A", addr := "10.0.0.1:80" },
      { id := "B", addr := "10.0.0.2:80" }]))
    (sampleGRPCStale "10.0.0.1:80") (sampleDockerOk 0) sampleRange
    [("DMS.SMS.v1.service.auth",
      [{ id := "A", addr := "10.0.0.1:80" }, { id := "B", addr := "10.0.0.2:80" }])]
    (by decide) (by decide) (by decide)
  exact ⟨h.1.trans (by decide), h.2.2.1.trans (by decide), h.2.2.2.1.trans (by decide),
    h.2.2.2.2.2.1, h.2.2.2.2.2.2.2.1⟩

theorem append_left_injective (p : String) : Function.Injective (fun s : String => p ++ s) := by
  intro a b h
  have h1 : (p ++ a).data = (p ++ b).data := congrArg String.data h
  rw [String.data_append, String.data_append] at h1
  exact String.ext (List.append_cancel_left h1)

theorem consulUnableSrvs_nodup (cfg : consulCheckUsecaseConfig) (srvM : GoMap Instance)
    (h : cfg.CheckTargetServices.Nodup) : (consulUnableSrvs cfg srvM).Nodup := by
  unfold consulUnableSrvs
  exact List.Nodup.map (append_left_injective cfg.DockerServiceNameSpace) (List.Nodup.filter _ h)

/-- C15 refuted as stated: with the target service club configured twice and no instance
of it in Consul, `GetContainerWithServiceName` is called twice for the one empty service
and its container is force-removed twice. -/
theorem C15_counterexample :
    lookupCalls (checkConsul { sampleConsulConfig with CheckTargetServices := ["club", "club"] }
      sampleRuntime (sampleConsul (.ok [])) sampleGRPC (sampleDockerOk 0) sampleRange
      .Healthy).trace = ["DSM_SMS_service-club", "DSM_SMS_service-club"] ∧
    removeCalls (checkConsul { sampleConsulConfig with CheckTargetServices := ["club", "club"] }
      sampleRuntime (sampleConsul (.ok [])) sampleGRPC (sampleDockerOk 0) sampleRange
      .Healthy).trace =
      [("id-DSM_SMS_service-club", true), ("id-DSM_SMS_service-club", true)] := by
  decide

/-- C15 as amended: Consul check entered HEALTHY, every `GetServices` call succeeding
(building the map `srvM`) and no ping returning an error other than a timeout: the
container restart is taken (`if_container_restarted` true) if and only if no ping timed
out and some target service has an empty instance list; then
`GetContainerWithServiceName` is called once for each entry of the target list whose
service is empty, in configured order, with the docker namespace prepended (a service
listed twice is looked up twice, and no name is looked up twice when the target list has
no repeats), every container found is removed with `Force = true`, and the status ends
HEALTHY; otherwise, in particular when some ping timed out, no Docker agency method is
called. -/
theorem C15_consul_restarts_empty_services (cfg : consulCheckUsecaseConfig) (rt : Runtime)
    (ca : consulAgency) (ga : gRPCAgency) (da : dockerAgency) (range : MapRange)
    (srvM : GoMap Instance)
    (hs : consulSrvM cfg rt ca = some srvM)
    (hok : noPingError cfg ga 0 (pingTargets srvM (range srvM.keys).val) = true) :
    consulUnableSrvs cfg srvM =
      (cfg.CheckTargetServices.filter
        (fun srv => decide (srvM.index (cfg.ConsulServiceNameSpace ++ srv) = []))).map
        (fun srv => cfg.DockerServiceNameSpace ++ srv) ∧
    ((checkConsul cfg rt ca ga da range .Healthy).fields.IfContainerRestarted = true ↔
      timedOutIDs cfg ga 0 (pingTargets srvM (range srvM.keys).val) = [] ∧
        consulUnableSrvs cfg srvM ≠ []) ∧
    (timedOutIDs cfg ga 0 (pingTargets srvM (range srvM.keys).val) = [] →
      consulUnableSrvs cfg srvM ≠ [] →
      lookupCalls (checkConsul cfg rt ca ga da range .Healthy).trace =
        consulUnableSrvs cfg srvM ∧
      removeCalls (checkConsul cfg rt ca ga da range .Healthy).trace =
        (foundContainers da 0 (consulUnableSrvs cfg srvM)).map (fun id => (id, true)) ∧
      (checkConsul cfg rt ca ga da range .Healthy).status = .Healthy ∧
      (cfg.CheckTargetServices.Nodup →
        (lookupCalls (checkConsul cfg rt ca ga da range .Healthy).trace).Nodup)) ∧
    (¬ (timedOutIDs cfg ga 0 (pingTargets srvM (range srvM.keys).val) = [] ∧
        consulUnableSrvs cfg srvM ≠ []) →
      lookupCalls (checkConsul cfg rt ca ga da range .Healthy).trace = [] ∧
      removeCalls (checkConsul cfg rt ca ga da range .Healthy).trace = []) := by
  refine ⟨?_, ?_, ?_, ?_⟩
  · unfold consulUnableSrvs
    congr 1
    apply List.filter_congr
    intro srv _
    cases srvM.index (cfg.ConsulServiceNameSpace ++ srv) <;> simp
  · by_cases hto : timedOutIDs cfg ga 0 (pingTargets srvM (range srvM.keys).val) = []
    · by_cases hun : consulUnableSrvs cfg srvM = []
      · have h := checkConsul_steady_facts cfg rt ca ga da range srvM hs hok hto hun
        rw [h.2.2.1]
        simp [hun]
      · have h := checkConsul_restart_facts cfg rt ca ga da range srvM hs hok hto hun
        rw [h.2.2.1]
        simp [hto, hun]
    · have h := checkConsul_deregister_facts cfg rt ca ga da range srvM hs hok hto
      rw [h.2.2.2.2.2.2.2.2]
      simp [hto]
  · intro hto hun
    have h := checkConsul_restart_facts cfg rt ca ga da range srvM hs hok hto hun
    exact ⟨h.1, h.2.1, h.2.2.2.1, fun hnd => by
      rw [h.1]; exact consulUnableSrvs_nodup cfg srvM hnd⟩
  · intro hnot
    by_cases hto : timedOutIDs cfg ga 0 (pingTargets srvM (range srvM.keys).val) = []
    · have hun : consulUnableSrvs cfg srvM = [] := by
        by_contra hne
        exact hnot ⟨hto, hne⟩
      have h := checkConsul_steady_facts cfg rt ca ga da range srvM hs hok hto hun
      exact ⟨h.1, h.2.1⟩
    · have h := checkConsul_deregister_facts cfg rt ca ga da range srvM hs hok hto
      exact ⟨h.2.2.2.2.2.2.1, h.2.2.2.2.2.2.2.1⟩

/-- C15 (amended) at the run of the claim: services `[club]` with no instance in Consul. -/
theorem C15_witness :
    lookupCalls (checkConsul { sampleConsulConfig with CheckTargetServices := ["club"] }
      sampleRuntime (sampleConsul (.ok [])) sampleGRPC (sampleDockerOk 0) sampleRange
      .Healthy).trace = ["DSM_SMS_service-club"] ∧
    removeCalls (checkConsul { sampleConsulConfig with CheckTargetServices := ["club"] }
      sampleRuntime (sampleConsul (.ok [])) sampleGRPC (sampleDockerOk 0) sampleRange
      .Healthy).trace = [("id-DSM_SMS_service-club", true)] ∧
    (checkConsul { sampleConsulConfig with CheckTargetServices := ["club"] }
      sampleRuntime (sampleConsul (.ok [])) sampleGRPC (sampleDockerOk 0) sampleRange
      .Healthy).status = .Healthy ∧
    (checkConsul { sampleConsulConfig with CheckTargetServices := ["club"] }
      sampleRuntime (sampleConsul (.ok [])) sampleGRPC (sampleDockerOk 0) sampleRange
      .Healthy).fields.IfContainerRestarted = true := by
  have h := C15_consul_restarts_empty_services
    { sampleConsulConfig with CheckTargetServices := ["club"] }
    sampleRuntime (sampleConsul (.ok [])) sampleGRPC (sampleDockerOk 0) sampleRange
    [("DMS.SMS.v1.service.club", [])] (by decide) (by decide)
  have h3 := h.2.2.1 (by decide) (by decide)
  exact ⟨h3.1.trans (by decide), h3.2.1.trans (by decide), h3.2.2.1,
    h.2.1.mpr ⟨by decide, by decide⟩⟩

/-- C16 (the code departs from the claim): in the run with services `[club]` and no
instance in Consul the tick takes the container restart, and the record it returns has
process level exactly `[HEALTHY]`, without WEAK_DETECTED; when the removal is refused the
record has a non-null error and still no ERROR in its process level. -/
theorem C16_restart_record_is_relabelled_healthy :
    (checkConsul { sampleConsulConfig with CheckTargetServices := ["club"] }
      sampleRuntime (sampleConsul (.ok [])) sampleGRPC (sampleDockerOk 0) sampleRange
      .Healthy).fields.IfContainerRestarted = true ∧
    (checkConsul { sampleConsulConfig with CheckTargetServices := ["club"] }
      sampleRuntime (sampleConsul (.ok [])) sampleGRPC (sampleDockerOk 0) sampleRange
      .Healthy).history.ProcessLevel = [healthyLevel] ∧
    weakDetectedLevel ∉ (checkConsul { sampleConsulConfig with CheckTargetServices := ["club"] }
      sampleRuntime (sampleConsul (.ok [])) sampleGRPC (sampleDockerOk 0) sampleRange
      .Healthy).history.ProcessLevel ∧
    (checkConsul { sampleConsulConfig with CheckTargetServices := ["club"] }
      sampleRuntime (sampleConsul (.ok [])) sampleGRPC (sampleDocker 0) sampleRange
      .Healthy).history.Error = some "failed to restart container: removal refused" ∧
    (checkConsul { sampleConsulConfig with CheckTargetServices := ["club"] }
      sampleRuntime (sampleConsul (.ok [])) sampleGRPC (sampleDocker 0) sampleRange
      .Healthy).history.ProcessLevel = [healthyLevel] ∧
    errorLevel ∉ (checkConsul { sampleConsulConfig with CheckTargetServices := ["club"] }
      sampleRuntime (sampleConsul (.ok [])) sampleGRPC (sampleDocker 0) sampleRange
      .Healthy).history.ProcessLevel := by
  decide

/-- C17 (the code departs from the claim): in the run with service auth, instance A whose
ping is refused at once and instance B whose ping times out, the record has process level
exactly `[ERROR]` and a non-null error, the status stays HEALTHY and nothing is
deregistered or removed, but no chat message is sent and `alerted` stays false. -/
theorem C17_ping_error_sends_no_alarm :
    (checkConsul sampleConsulConfig sampleRuntime
      (sampleConsul (.ok [{ id := "B", addr := "10.0.0.2:80" },
        { id := "A", addr := "10.0.0.1:80" }]))
      (sampleGRPCBroken "10.0.0.1:80") (sampleDockerOk 0) sampleRange
      .Healthy).history.ProcessLevel = [errorLevel] ∧
    (checkConsul sampleConsulConfig sampleRuntime
      (sampleConsul (.ok [{ id := "B", addr := "10.0.0.2:80" },
        { id := "A", addr := "10.0.0.1:80" }]))
      (sampleGRPCBroken "10.0.0.1:80") (sampleDockerOk 0) sampleRange
      .Healthy).history.Error =
      some "failed to ping connection check, id: A: connection refused" ∧
    (checkConsul sampleConsulConfig sampleRuntime
      (sampleConsul (.ok [{ id := "B", addr := "10.0.0.2:80" },
        { id := "A", addr := "10.0.0.1:80" }]))
      (sampleGRPCBroken "10.0.0.1:80") (sampleDockerOk 0) sampleRange
      .Healthy).status = .Healthy ∧
    deregisterCalls (checkConsul sampleConsulConfig sampleRuntime
      (sampleConsul (.ok [{ id := "B", addr := "10.0.0.2:80" },
        { id := "A", addr := "10.0.0.1:80" }]))
      (sampleGRPCBroken "10.0.0.1:80") (sampleDockerOk 0) sampleRange
      .Healthy).trace = [] ∧
    removeCalls (checkConsul sampleConsulConfig sampleRuntime
      (sampleConsul (.ok [{ id := "B", addr := "10.0.0.2:80" },
        { id := "A", addr := "10.0.0.1:80" }]))
      (sampleGRPCBroken "10.0.0.1:80") (sampleDockerOk 0) sampleRange
      .Healthy).trace = [] ∧
    sentEmojis (checkConsul sampleConsulConfig sampleRuntime
      (sampleConsul (.ok [{ id := "B", addr := "10.0.0.2:80" },
        { id := "A", addr := "10.0.0.1:80" }]))
      (sampleGRPCBroken "10.0.0.1:80") (sampleDockerOk 0) sampleRange
      .Healthy).trace = [] ∧
    (checkConsul sampleConsulConfig sampleRuntime
      (sampleConsul (.ok [{ id := "B", addr := "10.0.0.2:80" },
        { id := "A", addr := "10.0.0.1:80" }]))
      (sampleGRPCBroken "10.0.0.1:80") (sampleDockerOk 0) sampleRange
      .Healthy).history.alerted = false := by
  decide

/-- C18 as stated fails: the Disk tick entered UNHEALTHY that finds 10 GiB left with 2 GiB
required sends one chat message ("heart") and its record has `alerted` false. -/
theorem C18_counterexample :
    sentEmojis (checkDisk { DiskMinCapacity := 2 * GiB } sampleRuntime
      (sampleDisk (.ok (10 * GiB)) (.ok (10 * GiB)) (.ok 0)) .Unhealthy).trace = ["heart"] ∧
    (checkDisk { DiskMinCapacity := 2 * GiB } sampleRuntime
      (sampleDisk (.ok (10 * GiB)) (.ok (10 * GiB)) (.ok 0)) .Unhealthy).history.alerted =
      false := by
  constructor
  · simp [checkDisk, checkDiskProbed, sampleDisk, GiB]
  · simp [checkDisk, checkDiskProbed, sampleDisk, GiB]

/-- C18 (amended): in every tick that sends at least one chat message the record has
`alerted` true and alarm fields equal to the `(time, text, error)` answered to the first
chat message of the tick, except in a Disk, Elasticsearch or Swarmpit tick entered
UNHEALTHY whose only chat message is the "heart" of the recovery, where `alerted` is
false; the Consul check has no such exception. -/
theorem C18_first_chat_is_the_alarm
    (dcfg : diskCheckUsecaseConfig) (ecfg : elasticsearchCheckUsecaseConfig)
    (scfg : swarmpitCheckUsecaseConfig) (ccfg : consulCheckUsecaseConfig) (rt : Runtime)
    (dsa : diskSysAgency) (ea : elasticsearchAgency) (da : dockerAgency) (ca : consulAgency)
    (ga : gRPCAgency) (range : MapRange) (status : CheckStatus) :
    (sentEmojis (checkDisk dcfg rt dsa status).trace ≠ [] →
      ((checkDisk dcfg rt dsa status).history.alerted = true ∧
        some (checkDisk dcfg rt dsa status).history.alarm =
          firstSendAnswer rt (checkDisk dcfg rt dsa status).trace) ∨
      (status = .Unhealthy ∧ sentEmojis (checkDisk dcfg rt dsa status).trace = ["heart"] ∧
        (checkDisk dcfg rt dsa status).history.alerted = false)) ∧
    (sentEmojis (checkElasticsearch ecfg rt ea status).trace ≠ [] →
      ((checkElasticsearch ecfg rt ea status).history.alerted = true ∧
        some (checkElasticsearch ecfg rt ea status).history.alarm =
          firstSendAnswer rt (checkElasticsearch ecfg rt ea status).trace) ∨
      (status = .Unhealthy ∧
        sentEmojis (checkElasticsearch ecfg rt ea status).trace = ["heart"] ∧
        (checkElasticsearch ecfg rt ea status).history.alerted = false)) ∧
    (sentEmojis (checkSwarmpit scfg rt da status).trace ≠ [] →
      ((checkSwarmpit scfg rt da status).history.alerted = true ∧
        some (checkSwarmpit scfg rt da status).history.alarm =
          firstSendAnswer rt (checkSwarmpit scfg rt da status).trace) ∨
      (status = .Unhealthy ∧ sentEmojis (checkSwarmpit scfg rt da status).trace = ["heart"] ∧
        (checkSwarmpit scfg rt da status).history.alerted = false)) ∧
    (sentEmojis (checkConsul ccfg rt ca ga da range status).trace ≠ [] →
      (checkConsul ccfg rt ca ga da range status).history.alerted = true ∧
      some (checkConsul ccfg rt ca ga da range status).history.alarm =
        firstSendAnswer rt (checkConsul ccfg rt ca ga da range status).trace) :=
  ⟨checkDisk_mirror dcfg rt dsa status, checkElasticsearch_mirror ecfg rt ea status,
    checkSwarmpit_mirror scfg rt da status,
    (checkConsul_alarm ccfg rt ca ga da range status).2.2.2⟩

/-- C18 (amended) at a run: the Consul tick that deregisters the stale instance A sends
the "pill" message first and stores its answer as the alarm. -/
theorem C18_witness :
    (checkConsul sampleConsulConfig sampleRuntime
      (sampleConsul (.ok [{ id := "A", addr := "10.0.0.1:80" }]))
      (sampleGRPCStale "10.0.0.1:80") (sampleDockerOk 0) sampleRange
      .Healthy).history.alerted = true ∧
    some (checkConsul sampleConsulConfig sampleRuntime
      (sampleConsul (.ok [{ id := "A", addr := "10.0.0.1:80" }]))
      (sampleGRPCStale "10.0.0.1:80") (sampleDockerOk 0) sampleRange
      .Healthy).history.alarm =
      firstSendAnswer sampleRuntime (checkConsul sampleConsulConfig sampleRuntime
        (sampleConsul (.ok [{ id := "A", addr := "10.0.0.1:80" }]))
        (sampleGRPCStale "10.0.0.1:80") (sampleDockerOk 0) sampleRange .Healthy).trace :=
  (C18_first_chat_is_the_alarm { DiskMinCapacity := 2 * GiB } sampleElasticsearchConfig
    sampleSwarmpitConfig sampleConsulConfig sampleRuntime
    (sampleDisk (.ok GiB) (.ok GiB) (.ok 0)) (sampleElasticsearch 500 100) (sampleDockerOk 0)
    (sampleConsul (.ok [{ id := "A", addr := "10.0.0.1:80" }]))
    (sampleGRPCStale "10.0.0.1:80") sampleRange .Healthy).2.2.2 (by decide)

/-- C19: in every tick of each check `SetAlarmResult` is called at most once, `alerted` is
true only if a chat message was sent in the tick, and a tick that sends no chat message
has `alerted` false and an empty alarm text. -/
theorem C19_alarm_set_at_most_once
    (dcfg : diskCheckUsecaseConfig) (ecfg : elasticsearchCheckUsecaseConfig)
    (scfg : swarmpitCheckUsecaseConfig) (ccfg : consulCheckUsecaseConfig) (rt : Runtime)
    (dsa : diskSysAgency) (ea : elasticsearchAgency) (da : dockerAgency) (ca : consulAgency)
    (ga : gRPCAgency) (range : MapRange) (status : CheckStatus) :
    ((checkDisk dcfg rt dsa status).trace.count Event.SetAlarmResult ≤ 1 ∧
      ((checkDisk dcfg rt dsa status).history.alerted = true →
        sentEmojis (checkDisk dcfg rt dsa status).trace ≠ []) ∧
      (sentEmojis (checkDisk dcfg rt dsa status).trace = [] →
        (checkDisk dcfg rt dsa status).history.alerted = false ∧
        (checkDisk dcfg rt dsa status).history.alarmText = "")) ∧
    ((checkElasticsearch ecfg rt ea status).trace.count Event.SetAlarmResult ≤ 1 ∧
      ((checkElasticsearch ecfg rt ea status).history.alerted = true →
        sentEmojis (checkElasticsearch ecfg rt ea status).trace ≠ []) ∧
      (sentEmojis (checkElasticsearch ecfg rt ea status).trace = [] →
        (checkElasticsearch ecfg rt ea status).history.alerted = false ∧
        (checkElasticsearch ecfg rt ea status).history.alarmText = "")) ∧
    ((checkSwarmpit scfg rt da status).trace.count Event.SetAlarmResult ≤ 1 ∧
      ((checkSwarmpit scfg rt da status).history.alerted = true →
        sentEmojis (checkSwarmpit scfg rt da status).trace ≠ []) ∧
      (sentEmojis (checkSwarmpit scfg rt da status).trace = [] →
        (checkSwarmpit scfg rt da status).history.alerted = false ∧
        (checkSwarmpit scfg rt da status).history.alarmText = "")) ∧
    ((checkConsul ccfg rt ca ga da range status).trace.count Event.SetAlarmResult ≤ 1 ∧
      ((checkConsul ccfg rt ca ga da range status).history.alerted = true →
        sentEmojis (checkConsul ccfg rt ca ga da range status).trace ≠ []) ∧
      (sentEmojis (checkConsul ccfg rt ca ga da range status).trace = [] →
        (checkConsul ccfg rt ca ga da range status).history.alerted = false ∧
        (checkConsul ccfg rt ca ga da range status).history.alarmText = "")) :=
  ⟨checkDisk_alarm dcfg rt dsa status, checkElasticsearch_alarm ecfg rt ea status,
    checkSwarmpit_alarm scfg rt da status,
    ⟨(checkConsul_alarm ccfg rt ca ga da range status).1,
      (checkConsul_alarm ccfg rt ca ga da range status).2.1,
      (checkConsul_alarm ccfg rt ca ga da range status).2.2.1⟩⟩

/-- C19 at two runs: a silent Disk tick has no alarm, and the Consul tick whose record is
alerted did send a chat message. -/
theorem C19_witness :
    ((checkDisk { DiskMinCapacity := 2 * GiB } sampleRuntime
        (sampleDisk (.ok (10 * GiB)) (.ok (10 * GiB)) (.ok 0)) .Healthy).history.alerted =
        false ∧
      (checkDisk { DiskMinCapacity := 2 * GiB } sampleRuntime
        (sampleDisk (.ok (10 * GiB)) (.ok (10 * GiB)) (.ok 0)) .Healthy).history.alarmText =
        "") ∧
    sentEmojis (checkConsul sampleConsulConfig sampleRuntime
      (sampleConsul (.ok [{ id := "A", addr := "10.0.0.1:80" }]))
      (sampleGRPCStale "10.0.0.1:80") (sampleDockerOk 0) sampleRange .Healthy).trace ≠ [] := by
  have h := C19_alarm_set_at_most_once { DiskMinCapacity := 2 * GiB }
    sampleElasticsearchConfig sampleSwarmpitConfig sampleConsulConfig sampleRuntime
    (sampleDisk (.ok (10 * GiB)) (.ok (10 * GiB)) (.ok 0)) (sampleElasticsearch 500 100)
    (sampleDockerOk 0) (sampleConsul (.ok [{ id := "A", addr := "10.0.0.1:80" }]))
    (sampleGRPCStale "10.0.0.1:80") sampleRange .Healthy
  exact ⟨h.1.2.2 (by decide), h.2.2.2.2.1 (by decide)⟩

/-- C20: for each check, a tick run against another chat agency (any other answers of
`SendMessage`), with the same entry status, configuration and other agency answers, ends
with the same status, the same trace of agency calls, the same check-specific fields and
the same record except for the alarm time, text and error. -/
theorem C20_chat_answers_do_not_influence
    (dcfg : diskCheckUsecaseConfig) (ecfg : elasticsearchCheckUsecaseConfig)
    (scfg : swarmpitCheckUsecaseConfig) (ccfg : consulCheckUsecaseConfig) (rt : Runtime)
    (chat : Nat → String → String → String → Nat × String × Option String)
    (dsa : diskSysAgency) (ea : elasticsearchAgency) (da : dockerAgency) (ca : consulAgency)
    (ga : gRPCAgency) (range : MapRange) (status : CheckStatus) :
    (checkDisk dcfg rt dsa status).sameButAlarm
      (checkDisk dcfg { rt with SendMessage := chat } dsa status) ∧
    (checkElasticsearch ecfg rt ea status).sameButAlarm
      (checkElasticsearch ecfg { rt with SendMessage := chat } ea status) ∧
    (checkSwarmpit scfg rt da status).sameButAlarm
      (checkSwarmpit scfg { rt with SendMessage := chat } da status) ∧
    (checkConsul ccfg rt ca ga da range status).sameButAlarm
      (checkConsul ccfg { rt with SendMessage := chat } ca ga da range status) :=
  ⟨checkDisk_sim dcfg rt chat dsa status, checkElasticsearch_sim ecfg rt chat ea status,
    checkSwarmpit_sim scfg rt chat da status,
    checkConsul_sim ccfg rt chat ca ga da range status⟩

theorem checkDisk_status (cfg : diskCheckUsecaseConfig) (rt : Runtime) (dsa : diskSysAgency)
    (s : CheckStatus) :
    (checkDisk cfg rt dsa s).status =
      ((statusWrites (checkDisk cfg rt dsa s).trace).getLast?).getD s := by
  unfold checkDisk checkDiskProbed
  cases s <;> simp <;> (repeat' split) <;> simp

theorem checkElasticsearch_status (cfg : elasticsearchCheckUsecaseConfig) (rt : Runtime)
    (ea : elasticsearchAgency) (s : CheckStatus) :
    (checkElasticsearch cfg rt ea s).status =
      ((statusWrites (checkElasticsearch cfg rt ea s).trace).getLast?).getD s := by
  unfold checkElasticsearch checkElasticsearchProbed
  cases s <;> simp <;> (repeat' split) <;> simp

theorem checkSwarmpit_status (cfg : swarmpitCheckUsecaseConfig) (rt : Runtime)
    (da : dockerAgency) (s : CheckStatus) :
    (checkSwarmpit cfg rt da s).status =
      ((statusWrites (checkSwarmpit cfg rt da s).trace).getLast?).getD s := by
  unfold checkSwarmpit checkSwarmpitProbed
  cases s <;> simp <;> (repeat' split) <;> simp

theorem consulDeregister_levels (rt : Runtime) (ca : consulAgency) :
    ∀ (l : List String) (ccu : Tick ConsulCheckFields) (s f : List String),
    ∀ x ∈ (consulDeregister rt ca l ccu s f).1.history.ProcessLevel,
      x ∈ ccu.history.ProcessLevel ∨ x = errorLevel := by
  intro l
  induction l with
  | nil => intro ccu s f x hx; exact Or.inl hx
  | cons id rest ih =>
    intro ccu s f x hx
    simp only [consulDeregister] at hx
    split at hx
    · rcases ih _ _ _ x hx with h | h
      · simp only [Tick.SetError, Tick.SendMessage, Tick.AppendLevel, Tick.log,
          serviceCheckHistoryComponent.SetError, srvcheckProcessLevel.Append] at h
        split at h
        · exact Or.inl h
        · rcases List.mem_append.mp h with h | h
          · exact Or.inl h
          · exact Or.inr (by simpa using h)
      · exact Or.inr h
    · rcases ih _ _ _ x hx with h | h
      · exact Or.inl (by simpa using h)
      · exact Or.inr h

theorem checkConsulProbed_exit (cfg : consulCheckUsecaseConfig) (rt : Runtime)
    (ca : consulAgency) (da : dockerAgency) (ccu : Tick ConsulCheckFields)
    (srvM : GoMap Instance) (ids : List String) :
    ((checkConsulProbed cfg rt ca da ccu srvM ids).status = .Healthy ∨
      (checkConsulProbed cfg rt ca da ccu srvM ids).status = ccu.status) ∧
    ∀ x ∈ (checkConsulProbed cfg rt ca da ccu srvM ids).history.ProcessLevel,
      x = healthyLevel ∨ x = errorLevel ∨
      (x = weakDetectedLevel ∧
        .Recovering ∈ statusWrites (checkConsulProbed cfg rt ca da ccu srvM ids).trace) := by
  unfold checkConsulProbed
  by_cases hlen : ids.length > 0
  · simp only [hlen, if_true]
    refine ⟨Or.inl rfl, ?_⟩
    intro x hx
    obtain ⟨_, _, _, _, ext, h5, _⟩ := consulDeregister_frame rt ca ids
      { ((ccu.setStatus .Recovering).SetLevel weakDetectedLevel |>.SetMessage
          "deregistered services in consul which is unable to check connection pick"
          |>.SendAlarm rt "pill"
          "!consul check weak detected! start to deregister unable services") with
        fields := { ccu.fields with IfInstanceDeregistered := true } } [] []
    rcases consulDeregister_levels rt ca ids _ [] [] x hx with h | h
    · right; right
      refine ⟨by simpa using h, ?_⟩
      simp only [Tick.setStatus, Tick.SetLevel, Tick.SetMessage, Tick.SendAlarm,
        Tick.SendMessage, Tick.SetAlarmResult, Tick.log] at h5 ⊢
      rw [h5]
      simp [statusWrites_append]
    · exact Or.inr (Or.inl h)
  · simp only [hlen, if_false]
    by_cases hlen2 : (consulUnableSrvs cfg srvM).length > 0
    · simp only [hlen2, if_true]
      refine ⟨Or.inl rfl, ?_⟩
      intro x hx
      exact Or.inl (by simpa using hx)
    · simp only [hlen2, if_false]
      refine ⟨Or.inr rfl, ?_⟩
      intro x hx
      exact Or.inl (by simpa using hx)

theorem checkConsul_exit (cfg : consulCheckUsecaseConfig) (rt : Runtime) (ca : consulAgency)
    (ga : gRPCAgency) (da : dockerAgency) (range : MapRange) (status : CheckStatus) :
    (checkConsul cfg rt ca ga da range status).status = status ∧
    ∀ x ∈ (checkConsul cfg rt ca ga da range status).history.ProcessLevel,
      x = healthyLevel ∨ x = errorLevel ∨ x = recoveringLevel ∨ x = unhealthyLevel ∨
      (x = weakDetectedLevel ∧ status = .Healthy ∧
        .Recovering ∈ statusWrites (checkConsul cfg rt ca ga da range status).trace) := by
  cases status with
  | Recovering => simp [checkConsul]
  | Unhealthy => simp [checkConsul]
  | Healthy =>
    unfold checkConsul
    simp only [(checkConsul_start rt .Healthy).1]
    split
    · rename_i t ht
      obtain ⟨a1, a2, _⟩ := consulGetServices_returned cfg rt ca _ _ _ _ ht
      refine ⟨by rw [a1]; rfl, ?_⟩
      rw [a2]
      intro x hx
      exact Or.inr (Or.inl (by simpa using hx))
    · rename_i t1 m1 h1
      obtain ⟨a1, _⟩ := consulGetServices_next cfg rt ca _ _ _ _ _ h1
      split
      · rename_i t ht
        obtain ⟨b1, b2, _⟩ := consulPingServices_returned cfg ga m1 _ _ _ _ ht
        refine ⟨by rw [b1, a1]; rfl, ?_⟩
        rw [b2]
        intro x hx
        exact Or.inr (Or.inl (by simpa using hx))
      · rename_i t2 ids h2
        obtain ⟨b1, _⟩ := consulPingServices_next cfg ga m1 _ _ _ _ _ h2
        obtain ⟨c1, c2⟩ := checkConsulProbed_exit cfg rt ca da t2 m1 ids
        have hs : t2.status = .Healthy := by rw [b1, a1]; rfl
        refine ⟨?_, ?_⟩
        · rcases c1 with h | h
          · exact h
          · rw [h, hs]
        · intro x hx
          rcases c2 x hx with h | h | ⟨h, hw⟩
          · exact Or.inl h
          · exact Or.inr (Or.inl h)
          · exact Or.inr (Or.inr (Or.inr (Or.inr ⟨h, trivial, hw⟩)))
/-- C21: each public entry point hands the record of its tick to `historyRepo.Store`
exactly once, and the error it returns is the wrapped error of `Store` when `Store`
answers one and nil otherwise; so it returns an error exactly when `Store` does, whatever
errors the probe, the remediation and the chat produced inside the tick. -/
theorem C21_only_store_errors_are_returned
    (dcfg : diskCheckUsecaseConfig) (ecfg : elasticsearchCheckUsecaseConfig)
    (scfg : swarmpitCheckUsecaseConfig) (ccfg : consulCheckUsecaseConfig) (rt : Runtime)
    (dsa : diskSysAgency) (ea : elasticsearchAgency) (da : dockerAgency) (ca : consulAgency)
    (ga : gRPCAgency) (range : MapRange)
    (drepo : historyRepository DiskCheckFields)
    (erepo : historyRepository ElasticsearchCheckFields)
    (srepo : historyRepository SwarmpitCheckFields)
    (crepo : historyRepository ConsulCheckFields) (status : CheckStatus) :
    ((CheckDisk dcfg rt dsa drepo status).tick = checkDisk dcfg rt dsa status ∧
      (CheckDisk dcfg rt dsa drepo status).stored =
        [((checkDisk dcfg rt dsa status).history, (checkDisk dcfg rt dsa status).fields)] ∧
      (CheckDisk dcfg rt dsa drepo status).err =
        (drepo.Store (checkDisk dcfg rt dsa status).history
          (checkDisk dcfg rt dsa status).fields).2.map (fun err => errorsWrap err
            ("failed to store disk check history, response: " ++
              (drepo.Store (checkDisk dcfg rt dsa status).history
                (checkDisk dcfg rt dsa status).fields).1)) ∧
      ((CheckDisk dcfg rt dsa drepo status).err ≠ none ↔
        (drepo.Store (checkDisk dcfg rt dsa status).history
          (checkDisk dcfg rt dsa status).fields).2 ≠ none)) ∧
    ((CheckElasticsearch ecfg rt ea erepo status).tick = checkElasticsearch ecfg rt ea status ∧
      (CheckElasticsearch ecfg rt ea erepo status).stored =
        [((checkElasticsearch ecfg rt ea status).history,
          (checkElasticsearch ecfg rt ea status).fields)] ∧
      (CheckElasticsearch ecfg rt ea erepo status).err =
        (erepo.Store (checkElasticsearch ecfg rt ea status).history
          (checkElasticsearch ecfg rt ea status).fields).2.map (fun err => errorsWrap err
            ("failed to store elasticsearch check history, response: " ++
              (erepo.Store (checkElasticsearch ecfg rt ea status).history
                (checkElasticsearch ecfg rt ea status).fields).1)) ∧
      ((CheckElasticsearch ecfg rt ea erepo status).err ≠ none ↔
        (erepo.Store (checkElasticsearch ecfg rt ea status).history
          (checkElasticsearch ecfg rt ea status).fields).2 ≠ none)) ∧
    ((CheckSwarmpit scfg rt da srepo status).tick = checkSwarmpit scfg rt da status ∧
      (CheckSwarmpit scfg rt da srepo status).stored =
        [((checkSwarmpit scfg rt da status).history,
          (checkSwarmpit scfg rt da status).fields)] ∧
      (CheckSwarmpit scfg rt da srepo status).err =
        (srepo.Store (checkSwarmpit scfg rt da status).history
          (checkSwarmpit scfg rt da status).fields).2.map (fun err => errorsWrap err
            ("failed to store swarmpit check history, response: " ++
              (srepo.Store (checkSwarmpit scfg rt da status).history
                (checkSwarmpit scfg rt da status).fields).1)) ∧
      ((CheckSwarmpit scfg rt da srepo status).err ≠ none ↔
        (srepo.Store (checkSwarmpit scfg rt da status).history
          (checkSwarmpit scfg rt da status).fields).2 ≠ none)) ∧
    ((CheckConsul ccfg rt ca ga da range crepo status).tick =
        checkConsul ccfg rt ca ga da range status ∧
      (CheckConsul ccfg rt ca ga da range crepo status).stored =
        [((checkConsul ccfg rt ca ga da range status).history,
          (checkConsul ccfg rt ca ga da range status).fields)] ∧
      (CheckConsul ccfg rt ca ga da range crepo status).err =
        (crepo.Store (checkConsul ccfg rt ca ga da range status).history
          (checkConsul ccfg rt ca ga da range status).fields).2.map (fun err => errorsWrap err
            ("failed to store consul check history, response: " ++
              (crepo.Store (checkConsul ccfg rt ca ga da range status).history
                (checkConsul ccfg rt ca ga da range status).fields).1)) ∧
      ((CheckConsul ccfg rt ca ga da range crepo status).err ≠ none ↔
        (crepo.Store (checkConsul ccfg rt ca ga da range status).history
          (checkConsul ccfg rt ca ga da range status).fields).2 ≠ none)) := by
  refine ⟨?_, ?_, ?_, ?_⟩
  · unfold CheckDisk
    generalize checkDisk dcfg rt dsa status = t
    rcases h : drepo.Store t.history t.fields with ⟨b, _ | err⟩ <;> simp [h]
  · unfold CheckElasticsearch
    generalize checkElasticsearch ecfg rt ea status = t
    rcases h : erepo.Store t.history t.fields with ⟨b, _ | err⟩ <;> simp [h]
  · unfold CheckSwarmpit
    generalize checkSwarmpit scfg rt da status = t
    rcases h : srepo.Store t.history t.fields with ⟨b, _ | err⟩ <;> simp [h]
  · unfold CheckConsul
    generalize checkConsul ccfg rt ca ga da range status = t
    rcases h : crepo.Store t.history t.fields with ⟨b, _ | err⟩ <;> simp [h]

/-- C21 at two runs: a Disk tick whose probe fails records the probe error and alarms,
yet `CheckDisk` returns nil when the repository accepts the record; and a healthy Disk
tick makes `CheckDisk` return the wrapped error when the repository refuses it. -/
theorem C21_witness :
    (CheckDisk { DiskMinCapacity := 2 * GiB } sampleRuntime
      (sampleDisk (.error "no device") (.ok GiB) (.ok 0))
      (sampleRepo DiskCheckFields) .Healthy).tick.history.Error =
        some "failed to get disk capacity: no device" ∧
    (CheckDisk { DiskMinCapacity := 2 * GiB } sampleRuntime
      (sampleDisk (.error "no device") (.ok GiB) (.ok 0))
      (sampleRepo DiskCheckFields) .Healthy).err = none ∧
    (CheckDisk { DiskMinCapacity := 2 * GiB } sampleRuntime
      (sampleDisk (.ok (10 * GiB)) (.ok (10 * GiB)) (.ok 0))
      (sampleRepoRefusing DiskCheckFields "index is read-only") .Healthy).err =
        some "failed to store disk check history, response: status 503: index is read-only" ∧
    ((CheckDisk { DiskMinCapacity := 2 * GiB } sampleRuntime
        (sampleDisk (.ok (10 * GiB)) (.ok (10 * GiB)) (.ok 0))
        (sampleRepoRefusing DiskCheckFields "index is read-only") .Healthy).err ≠ none ↔
      ((sampleRepoRefusing DiskCheckFields "index is read-only").Store
        (checkDisk { DiskMinCapacity := 2 * GiB } sampleRuntime
          (sampleDisk (.ok (10 * GiB)) (.ok (10 * GiB)) (.ok 0)) .Healthy).history
        (checkDisk { DiskMinCapacity := 2 * GiB } sampleRuntime
          (sampleDisk (.ok (10 * GiB)) (.ok (10 * GiB)) (.ok 0)) .Healthy).fields).2 ≠ none) :=
  ⟨by decide, by decide, by decide,
    (C21_only_store_errors_are_returned { DiskMinCapacity := 2 * GiB } sampleElasticsearchConfig
      sampleSwarmpitConfig sampleConsulConfig sampleRuntime
      (sampleDisk (.ok (10 * GiB)) (.ok (10 * GiB)) (.ok 0)) (sampleElasticsearch 10 0)
      (sampleDocker GiB) (sampleConsul (.ok [])) sampleGRPC sampleRange
      (sampleRepoRefusing DiskCheckFields "index is read-only")
      (sampleRepo ElasticsearchCheckFields) (sampleRepo SwarmpitCheckFields)
      (sampleRepo ConsulCheckFields) .Healthy).1.2.2.2⟩
theorem appendLoop_eq (pl : srvcheckProcessLevel) (level : String) :
    ∀ rest : List String,
      appendLoop pl level rest = if level ∈ rest then pl else pl ++ [level] := by
  intro rest
  induction rest with
  | nil => simp [appendLoop]
  | cons l rest ih =>
    simp only [appendLoop, ih, List.mem_cons, beq_iff_eq]
    by_cases h : l = level
    · simp [h]
    · have h1 : ¬ level = l := fun e => h e.symm
      simp [h, h1]

theorem Append_nodup (pl : srvcheckProcessLevel) (level : String) (h : pl.Nodup) :
    (pl.Append level).Nodup := by
  unfold srvcheckProcessLevel.Append
  split
  · exact h
  · rename_i hmem
    exact List.nodup_append.mpr ⟨h, List.nodup_singleton level, by
      intro a ha hb
      have : a = level := by simpa using hb
      exact hmem (this ▸ ha)⟩

theorem foldl_apply_nodup (ops : List LevelOp) :
    ∀ pl : srvcheckProcessLevel, pl.Nodup → (ops.foldl LevelOp.apply pl).Nodup := by
  induction ops with
  | nil => intro pl h; exact h
  | cons op rest ih =>
    intro pl h
    simp only [List.foldl_cons]
    apply ih
    cases op with
    | Set level => simp [LevelOp.apply]
    | Append level => exact Append_nodup pl level h

/-- C22: on a process level list, `Set(label)` yields exactly `[label]`; the loop of
`Append(label)` leaves the list unchanged when the label is present and otherwise adds it
as the last element, so that appending a label twice is appending it once; and every list
built from the empty list by a sequence of `Set` and `Append` calls has no duplicate. -/
theorem C22_process_level_is_duplicate_free (pl : srvcheckProcessLevel) (label : String)
    (ops : List LevelOp) :
    pl.Set label = [label] ∧
    appendLoop pl label pl = pl.Append label ∧
    (label ∈ pl → pl.Append label = pl) ∧
    (label ∉ pl → pl.Append label = pl ++ [label]) ∧
    (pl.Append label).Append label = pl.Append label ∧
    (buildLevels ops).Nodup := by
  refine ⟨rfl, ?_, ?_, ?_, ?_, foldl_apply_nodup ops [] List.nodup_nil⟩
  · rw [appendLoop_eq]; rfl
  · intro h; simp [h]
  · intro h; simp [h]
  · by_cases h : label ∈ pl <;> simp [h]

/-- C22 at a run: the calls of a Disk tick whose prune fails, followed by a second append
of the same label, build `[WEAK_DETECTED, WARNING]`; the label present is not added again
and the absent one goes last. -/
theorem C22_witness :
    buildLevels [.Set errorLevel, .Set weakDetectedLevel, .Append warningLevel,
      .Append warningLevel] = [weakDetectedLevel, warningLevel] ∧
    srvcheckProcessLevel.Append [weakDetectedLevel, warningLevel] warningLevel =
      [weakDetectedLevel, warningLevel] ∧
    srvcheckProcessLevel.Append [weakDetectedLevel] warningLevel =
      [weakDetectedLevel] ++ [warningLevel] :=
  ⟨by decide,
    (C22_process_level_is_duplicate_free [weakDetectedLevel, warningLevel] warningLevel []).2.2.1
      (by decide),
    (C22_process_level_is_duplicate_free [weakDetectedLevel] warningLevel []).2.2.2.1
      (by decide)⟩
theorem checkDisk_levels (cfg : diskCheckUsecaseConfig) (rt : Runtime) (dsa : diskSysAgency)
    (s : CheckStatus) :
    (recoveredLevel ∈ (checkDisk cfg rt dsa s).history.ProcessLevel →
      s = .Unhealthy ∧ (checkDisk cfg rt dsa s).status = .Healthy) ∧
    (weakDetectedLevel ∈ (checkDisk cfg rt dsa s).history.ProcessLevel →
      s = .Healthy ∧ .Recovering ∈ statusWrites (checkDisk cfg rt dsa s).trace) := by
  unfold checkDisk checkDiskProbed
  cases s <;> simp <;> (repeat' split) <;> simp

theorem checkElasticsearch_levels (cfg : elasticsearchCheckUsecaseConfig) (rt : Runtime)
    (ea : elasticsearchAgency) (s : CheckStatus) :
    (recoveredLevel ∈ (checkElasticsearch cfg rt ea s).history.ProcessLevel →
      s = .Unhealthy ∧ (checkElasticsearch cfg rt ea s).status = .Healthy) ∧
    (weakDetectedLevel ∈ (checkElasticsearch cfg rt ea s).history.ProcessLevel →
      s = .Healthy ∧ .Recovering ∈ statusWrites (checkElasticsearch cfg rt ea s).trace) := by
  unfold checkElasticsearch checkElasticsearchProbed
  cases s <;> simp <;> (repeat' split) <;> simp

theorem checkSwarmpit_levels (cfg : swarmpitCheckUsecaseConfig) (rt : Runtime)
    (da : dockerAgency) (s : CheckStatus) :
    (recoveredLevel ∈ (checkSwarmpit cfg rt da s).history.ProcessLevel →
      s = .Unhealthy ∧ (checkSwarmpit cfg rt da s).status = .Healthy) ∧
    (weakDetectedLevel ∈ (checkSwarmpit cfg rt da s).history.ProcessLevel →
      s = .Healthy ∧ .Recovering ∈ statusWrites (checkSwarmpit cfg rt da s).trace) := by
  unfold checkSwarmpit checkSwarmpitProbed
  cases s <;> simp <;> (repeat' split) <;> simp

theorem checkConsul_levels (cfg : consulCheckUsecaseConfig) (rt : Runtime) (ca : consulAgency)
    (ga : gRPCAgency) (da : dockerAgency) (range : MapRange) (s : CheckStatus) :
    (recoveredLevel ∈ (checkConsul cfg rt ca ga da range s).history.ProcessLevel →
      s = .Unhealthy ∧ (checkConsul cfg rt ca ga da range s).status = .Healthy) ∧
    (weakDetectedLevel ∈ (checkConsul cfg rt ca ga da range s).history.ProcessLevel →
      s = .Healthy ∧
        .Recovering ∈ statusWrites (checkConsul cfg rt ca ga da range s).trace) := by
  obtain ⟨_, h⟩ := checkConsul_exit cfg rt ca ga da range s
  constructor
  · intro hx
    rcases h _ hx with h | h | h | h | ⟨h, _⟩ <;> exact absurd h (by decide)
  · intro hx
    rcases h _ hx with h | h | h | h | ⟨_, h⟩
    · exact absurd h (by decide)
    · exact absurd h (by decide)
    · exact absurd h (by decide)
    · exact absurd h (by decide)
    · exact h

/-- C23: in every tick of the Disk, Elasticsearch, Swarmpit and Consul checks, the
record's process level contains RECOVERED only if the tick was entered UNHEALTHY and
leaves the status HEALTHY, and contains WEAK_DETECTED only if the tick was entered
HEALTHY and wrote the status RECOVERING. -/
theorem C23_recovered_and_weak_detected_mark_transitions
    (dcfg : diskCheckUsecaseConfig) (ecfg : elasticsearchCheckUsecaseConfig)
    (scfg : swarmpitCheckUsecaseConfig) (ccfg : consulCheckUsecaseConfig) (rt : Runtime)
    (dsa : diskSysAgency) (ea : elasticsearchAgency) (da : dockerAgency) (ca : consulAgency)
    (ga : gRPCAgency) (range : MapRange) (status : CheckStatus) :
    ((recoveredLevel ∈ (checkDisk dcfg rt dsa status).history.ProcessLevel →
        status = .Unhealthy ∧ (checkDisk dcfg rt dsa status).status = .Healthy) ∧
      (weakDetectedLevel ∈ (checkDisk dcfg rt dsa status).history.ProcessLevel →
        status = .Healthy ∧
          .Recovering ∈ statusWrites (checkDisk dcfg rt dsa status).trace)) ∧
    ((recoveredLevel ∈ (checkElasticsearch ecfg rt ea status).history.ProcessLevel →
        status = .Unhealthy ∧ (checkElasticsearch ecfg rt ea status).status = .Healthy) ∧
      (weakDetectedLevel ∈ (checkElasticsearch ecfg rt ea status).history.ProcessLevel →
        status = .Healthy ∧
          .Recovering ∈ statusWrites (checkElasticsearch ecfg rt ea status).trace)) ∧
    ((recoveredLevel ∈ (checkSwarmpit scfg rt da status).history.ProcessLevel →
        status = .Unhealthy ∧ (checkSwarmpit scfg rt da status).status = .Healthy) ∧
      (weakDetectedLevel ∈ (checkSwarmpit scfg rt da status).history.ProcessLevel →
        status = .Healthy ∧
          .Recovering ∈ statusWrites (checkSwarmpit scfg rt da status).trace)) ∧
    ((recoveredLevel ∈ (checkConsul ccfg rt ca ga da range status).history.ProcessLevel →
        status = .Unhealthy ∧
          (checkConsul ccfg rt ca ga da range status).status = .Healthy) ∧
      (weakDetectedLevel ∈ (checkConsul ccfg rt ca ga da range status).history.ProcessLevel →
        status = .Healthy ∧
          .Recovering ∈ statusWrites (checkConsul ccfg rt ca ga da range status).trace)) :=
  ⟨checkDisk_levels dcfg rt dsa status, checkElasticsearch_levels ecfg rt ea status,
    checkSwarmpit_levels scfg rt da status, checkConsul_levels ccfg rt ca ga da range status⟩

/-- C23 at two runs: the Disk tick entered UNHEALTHY with 10 GiB left has RECOVERED in its
record, and the one entered HEALTHY with 1 GiB left has WEAK_DETECTED; the theorem gives
the entry and exit statuses of the first and the RECOVERING write of the second. -/
theorem C23_witness :
    (recoveredLevel ∈ (checkDisk { DiskMinCapacity := 2 * GiB } sampleRuntime
        (sampleDisk (.ok (10 * GiB)) (.ok (10 * GiB)) (.ok 0)) .Unhealthy).history.ProcessLevel ∧
      (checkDisk { DiskMinCapacity := 2 * GiB } sampleRuntime
        (sampleDisk (.ok (10 * GiB)) (.ok (10 * GiB)) (.ok 0)) .Unhealthy).status = .Healthy) ∧
    (weakDetectedLevel ∈ (checkDisk { DiskMinCapacity := 2 * GiB } sampleRuntime
        (sampleDisk (.ok GiB) (.ok (5 * GiB)) (.ok (4 * GiB))) .Healthy).history.ProcessLevel ∧
      CheckStatus.Recovering ∈ statusWrites (checkDisk { DiskMinCapacity := 2 * GiB }
        sampleRuntime (sampleDisk (.ok GiB) (.ok (5 * GiB)) (.ok (4 * GiB))) .Healthy).trace) :=
  ⟨⟨by decide,
      ((C23_recovered_and_weak_detected_mark_transitions { DiskMinCapacity := 2 * GiB }
        sampleElasticsearchConfig sampleSwarmpitConfig sampleConsulConfig sampleRuntime
        (sampleDisk (.ok (10 * GiB)) (.ok (10 * GiB)) (.ok 0)) (sampleElasticsearch 10 0)
        (sampleDocker GiB) (sampleConsul (.ok [])) sampleGRPC sampleRange .Unhealthy).1.1
          (by decide)).2⟩,
    ⟨by decide,
      ((C23_recovered_and_weak_detected_mark_transitions { DiskMinCapacity := 2 * GiB }
        sampleElasticsearchConfig sampleSwarmpitConfig sampleConsulConfig sampleRuntime
        (sampleDisk (.ok GiB) (.ok (5 * GiB)) (.ok (4 * GiB))) (sampleElasticsearch 10 0)
        (sampleDocker GiB) (sampleConsul (.ok [])) sampleGRPC sampleRange .Healthy).1.2
          (by decide)).2⟩⟩
/-- C25 refuted as stated: with the config reader holding 500 for the maximum shards key,
the first call of `MaximumShardsNumber` returns 500; the reader is then set to 700 for
that key, and the second call still returns 500, not the 700 the reader holds at the
time of that call. -/
theorem C25_counterexample :
    (({} : srvcheckConfig).MaximumShardsNumber (sampleViper 500)).1 = 500 ∧
    ((({} : srvcheckConfig).MaximumShardsNumber (sampleViper 500)).2.2.Set
      "srvcheck.elasticsearch.maximumShardsNumber" (.int 700)).Get
        "srvcheck.elasticsearch.maximumShardsNumber" = some (.int 700) ∧
    ((({} : srvcheckConfig).MaximumShardsNumber (sampleViper 500)).2.1.MaximumShardsNumber
      ((({} : srvcheckConfig).MaximumShardsNumber (sampleViper 500)).2.2.Set
        "srvcheck.elasticsearch.maximumShardsNumber" (.int 700))).1 = 500 := by
  decide

/-- C25 as amended: on a config whose getters were not called yet, the first call of
`DiskMinCapacity`, `MaximumShardsNumber` and `CheckTargetServices` returns the value the
config reader holds for the getter's key at the time of that call (the parsed byte size,
the int, the string split on commas), or the default when the key is unset or holds no
such value (2 GB, 900, the five services); and a later call returns the value of the
first call again and leaves the config as it is, whatever the reader holds by then. -/
theorem C25_getters_resolve_on_first_call (viper later : Viper)
    (Parse : String → Except String Nat) (fmtByteSize : Nat → String) :
    ((({} : syscheckConfig).DiskMinCapacity viper Parse fmtByteSize).1 =
        (match Parse (viper.GetString "syscheck.diskcheck.minCapacity") with
          | .ok size => size
          | .error _ => 2 * 1024 * 1024 * 1024) ∧
      ((({} : syscheckConfig).DiskMinCapacity viper Parse fmtByteSize).2.1.DiskMinCapacity
          later Parse fmtByteSize).1 =
        (({} : syscheckConfig).DiskMinCapacity viper Parse fmtByteSize).1 ∧
      ((({} : syscheckConfig).DiskMinCapacity viper Parse fmtByteSize).2.1.DiskMinCapacity
          later Parse fmtByteSize).2.1 =
        (({} : syscheckConfig).DiskMinCapacity viper Parse fmtByteSize).2.1) ∧
    ((({} : srvcheckConfig).MaximumShardsNumber viper).1 =
        (match viper.Get "srvcheck.elasticsearch.maximumShardsNumber" with
          | some (.int i) => i
          | _ => 900) ∧
      ((({} : srvcheckConfig).MaximumShardsNumber viper).2.1.MaximumShardsNumber later).1 =
        (({} : srvcheckConfig).MaximumShardsNumber viper).1 ∧
      ((({} : srvcheckConfig).MaximumShardsNumber viper).2.1.MaximumShardsNumber later).2.1 =
        (({} : srvcheckConfig).MaximumShardsNumber viper).2.1) ∧
    ((({} : srvcheckConfig).CheckTargetServices viper).1 =
        (match viper.Get "srvcheck.consul.checkTargetServices" with
          | some (.str s) => stringsSplit s ','
          | _ => ["announcement", "auth", "club", "outing", "schedule"]) ∧
      ((({} : srvcheckConfig).CheckTargetServices viper).2.1.CheckTargetServices later).1 =
        (({} : srvcheckConfig).CheckTargetServices viper).1 ∧
      ((({} : srvcheckConfig).CheckTargetServices viper).2.1.CheckTargetServices later).2.1 =
        (({} : srvcheckConfig).CheckTargetServices viper).2.1) := by
  have hsplit : stringsSplit defaultCheckTargetServices ',' =
      ["announcement", "auth", "club", "outing", "schedule"] := by decide
  refine ⟨?_, ?_, ?_⟩
  · unfold syscheckConfig.DiskMinCapacity
    rcases h : Parse (viper.GetString "syscheck.diskcheck.minCapacity") with e | size <;>
      simp [h, defaultDiskMinCapacity, GiB]
  · unfold srvcheckConfig.MaximumShardsNumber
    simp only [Viper.GetInt, Viper.Get, Viper.Set]
    rcases h : viper.values "srvcheck.elasticsearch.maximumShardsNumber" with _ | ⟨s | i⟩ <;>
      simp [h, defaultMaximumShardsNumber]
  · unfold srvcheckConfig.CheckTargetServices
    simp only [Viper.GetString, Viper.Get, Viper.Set]
    rcases h : viper.values "srvcheck.consul.checkTargetServices" with _ | ⟨s | i⟩ <;>
      simp [h, hsplit]
theorem statusAfter_settled {W : Type} (step : W → CheckStatus → CheckStatus)
    (hstep : ∀ w s, s = .Healthy ∨ s = .Unhealthy →
      step w s = .Healthy ∨ step w s = .Unhealthy) :
    ∀ (ws : List W) (s : CheckStatus), s = .Healthy ∨ s = .Unhealthy →
      statusAfter step ws s = .Healthy ∨ statusAfter step ws s = .Unhealthy := by
  intro ws
  induction ws with
  | nil => intro s h; exact h
  | cons w rest ih => intro s h; exact ih _ (hstep w s h)

theorem settled_of_writes (s exit : CheckStatus) (writes : List CheckStatus)
    (hw : writes ∈ [[], [.Healthy], [.Recovering, .Healthy], [.Recovering, .Unhealthy]])
    (hexit : exit = (writes.getLast?).getD s) :
    (s = .Healthy ∨ s = .Unhealthy → exit = .Healthy ∨ exit = .Unhealthy) ∧
    (.Recovering ∈ writes →
      (writes.getLast? = some .Healthy ∨ writes.getLast? = some .Unhealthy) ∧
      (exit = .Healthy ∨ exit = .Unhealthy)) := by
  simp only [List.mem_cons, List.mem_singleton, List.not_mem_nil, or_false] at hw
  rcases hw with h | h | h | h <;> subst h <;> simp [hexit]

/-- C28: for each of the four checks, started with the status set by its constructor and
run through any finite sequence of ticks that do not overlap, with any agency answers in
each tick, the status left after the sequence is HEALTHY or UNHEALTHY, never RECOVERING;
and in every tick that writes RECOVERING, the last status write of the tick is HEALTHY or
UNHEALTHY and that is the status the tick leaves. -/
theorem C28_status_between_ticks_is_settled
    (dcfg : diskCheckUsecaseConfig) (ecfg : elasticsearchCheckUsecaseConfig)
    (scfg : swarmpitCheckUsecaseConfig) (ccfg : consulCheckUsecaseConfig)
    (dws : List (Runtime × diskSysAgency)) (ews : List (Runtime × elasticsearchAgency))
    (sws : List (Runtime × dockerAgency)) (cws : List ConsulWorld) (rt : Runtime)
    (dsa : diskSysAgency) (ea : elasticsearchAgency) (da : dockerAgency) (ca : consulAgency)
    (ga : gRPCAgency) (range : MapRange) (status : CheckStatus) :
    ((statusAfter (fun w s => (checkDisk dcfg w.1 w.2 s).status) dws NewDiskCheckUsecase =
          .Healthy ∨
        statusAfter (fun w s => (checkDisk dcfg w.1 w.2 s).status) dws NewDiskCheckUsecase =
          .Unhealthy) ∧
      (.Recovering ∈ statusWrites (checkDisk dcfg rt dsa status).trace →
        ((statusWrites (checkDisk dcfg rt dsa status).trace).getLast? = some .Healthy ∨
          (statusWrites (checkDisk dcfg rt dsa status).trace).getLast? = some .Unhealthy) ∧
        ((checkDisk dcfg rt dsa status).status = .Healthy ∨
          (checkDisk dcfg rt dsa status).status = .Unhealthy))) ∧
    ((statusAfter (fun w s => (checkElasticsearch ecfg w.1 w.2 s).status) ews
          NewElasticsearchCheckUsecase = .Healthy ∨
        statusAfter (fun w s => (checkElasticsearch ecfg w.1 w.2 s).status) ews
          NewElasticsearchCheckUsecase = .Unhealthy) ∧
      (.Recovering ∈ statusWrites (checkElasticsearch ecfg rt ea status).trace →
        ((statusWrites (checkElasticsearch ecfg rt ea status).trace).getLast? =
            some .Healthy ∨
          (statusWrites (checkElasticsearch ecfg rt ea status).trace).getLast? =
            some .Unhealthy) ∧
        ((checkElasticsearch ecfg rt ea status).status = .Healthy ∨
          (checkElasticsearch ecfg rt ea status).status = .Unhealthy))) ∧
    ((statusAfter (fun w s => (checkSwarmpit scfg w.1 w.2 s).status) sws
          NewSwarmpitCheckUsecase = .Healthy ∨
        statusAfter (fun w s => (checkSwarmpit scfg w.1 w.2 s).status) sws
          NewSwarmpitCheckUsecase = .Unhealthy) ∧
      (.Recovering ∈ statusWrites (checkSwarmpit scfg rt da status).trace →
        ((statusWrites (checkSwarmpit scfg rt da status).trace).getLast? = some .Healthy ∨
          (statusWrites (checkSwarmpit scfg rt da status).trace).getLast? =
            some .Unhealthy) ∧
        ((checkSwarmpit scfg rt da status).status = .Healthy ∨
          (checkSwarmpit scfg rt da status).status = .Unhealthy))) ∧
    ((statusAfter (fun w s => (checkConsul ccfg w.rt w.ca w.ga w.da w.range s).status) cws
          NewConsulCheckUsecase = .Healthy ∨
        statusAfter (fun w s => (checkConsul ccfg w.rt w.ca w.ga w.da w.range s).status) cws
          NewConsulCheckUsecase = .Unhealthy) ∧
      (.Recovering ∈ statusWrites (checkConsul ccfg rt ca ga da range status).trace →
        ((statusWrites (checkConsul ccfg rt ca ga da range status).trace).getLast? =
            some .Healthy ∨
          (statusWrites (checkConsul ccfg rt ca ga da range status).trace).getLast? =
            some .Unhealthy) ∧
        ((checkConsul ccfg rt ca ga da range status).status = .Healthy ∨
          (checkConsul ccfg rt ca ga da range status).status = .Unhealthy))) := by
  refine ⟨⟨?_, ?_⟩, ⟨?_, ?_⟩, ⟨?_, ?_⟩, ⟨?_, ?_⟩⟩
  · exact statusAfter_settled _ (fun w s => (settled_of_writes s _ _
      (checkDisk_writes dcfg w.1 w.2 s) (checkDisk_status dcfg w.1 w.2 s)).1) dws _
      (Or.inl rfl)
  · exact (settled_of_writes status _ _ (checkDisk_writes dcfg rt dsa status)
      (checkDisk_status dcfg rt dsa status)).2
  · exact statusAfter_settled _ (fun w s => (settled_of_writes s _ _
      (checkElasticsearch_writes ecfg w.1 w.2 s) (checkElasticsearch_status ecfg w.1 w.2 s)).1)
      ews _ (Or.inl rfl)
  · exact (settled_of_writes status _ _ (checkElasticsearch_writes ecfg rt ea status)
      (checkElasticsearch_status ecfg rt ea status)).2
  · exact statusAfter_settled _ (fun w s => (settled_of_writes s _ _
      (checkSwarmpit_writes scfg w.1 w.2 s) (checkSwarmpit_status scfg w.1 w.2 s)).1) sws _
      (Or.inl rfl)
  · exact (settled_of_writes status _ _ (checkSwarmpit_writes scfg rt da status)
      (checkSwarmpit_status scfg rt da status)).2
  · exact statusAfter_settled _ (fun w s h => by
      rw [(checkConsul_exit ccfg w.rt w.ca w.ga w.da w.range s).1]; exact h) cws _ (Or.inl rfl)
  · intro hmem
    obtain ⟨hs, hl⟩ := checkConsul_exit ccfg rt ca ga da range status
    rcases checkConsul_writes ccfg rt ca ga da range status with h | h
    · rw [h] at hmem; simp at hmem
    · refine ⟨Or.inl (by rw [h]; rfl), ?_⟩
      cases status with
      | Healthy => exact Or.inl hs
      | Unhealthy => exact Or.inr hs
      | Recovering =>
        exfalso
        have : statusWrites (checkConsul ccfg rt ca ga da range .Recovering).trace = [] := by
          simp [checkConsul]
        rw [this] at h
        simp at h

/-- C28 at a run: a Disk check ticked three times, with 1 GiB left and a failing prune,
then with 1 GiB left, then with 10 GiB left, is left UNHEALTHY, UNHEALTHY and HEALTHY; the
first tick writes RECOVERING and then UNHEALTHY. -/
theorem C28_witness :
    (statusAfter (fun w s => (checkDisk { DiskMinCapacity := 2 * GiB } w.1 w.2 s).status)
      [(sampleRuntime, sampleDisk (.ok GiB) (.ok GiB) (.error "prune refused")),
        (sampleRuntime, sampleDisk (.ok GiB) (.ok GiB) (.ok 0)),
        (sampleRuntime, sampleDisk (.ok (10 * GiB)) (.ok (10 * GiB)) (.ok 0))]
      NewDiskCheckUsecase = .Healthy) ∧
    statusWrites (checkDisk { DiskMinCapacity := 2 * GiB } sampleRuntime
      (sampleDisk (.ok GiB) (.ok GiB) (.error "prune refused")) .Healthy).trace =
        [.Recovering, .Unhealthy] ∧
    ((checkDisk { DiskMinCapacity := 2 * GiB } sampleRuntime
        (sampleDisk (.ok GiB) (.ok GiB) (.error "prune refused")) .Healthy).status = .Healthy ∨
      (checkDisk { DiskMinCapacity := 2 * GiB } sampleRuntime
        (sampleDisk (.ok GiB) (.ok GiB) (.error "prune refused")) .Healthy).status =
          .Unhealthy) :=
  ⟨by decide, by decide,
    ((C28_status_between_ticks_is_settled { DiskMinCapacity := 2 * GiB }
      sampleElasticsearchConfig sampleSwarmpitConfig sampleConsulConfig [] [] [] []
      sampleRuntime (sampleDisk (.ok GiB) (.ok GiB) (.error "prune refused"))
      (sampleElasticsearch 10 0) (sampleDocker GiB) (sampleConsul (.ok [])) sampleGRPC
      sampleRange .Healthy).1.2 (by decide)).2⟩
theorem statusAfter_fixed {W : Type} (step : W → CheckStatus → CheckStatus) (s : CheckStatus)
    (hstep : ∀ w, step w s = s) : ∀ ws : List W, statusAfter step ws s = s := by
  intro ws
  induction ws with
  | nil => rfl
  | cons w rest ih => simp only [statusAfter, hstep w, ih]

/-- C29: a Consul check started with the status set by `NewConsulCheckUsecase` and run
through any sequence of ticks, with any answers of the Consul, gRPC, Docker and chat
agencies, is never left UNHEALTHY (it is left HEALTHY); no Consul tick, whatever its
entry status, writes UNHEALTHY; and a Consul tick entered UNHEALTHY makes no agency call
at all, so no probe, and leaves the status UNHEALTHY with the record labelled UNHEALTHY. -/
theorem C29_consul_is_never_unhealthy (cfg : consulCheckUsecaseConfig)
    (cws : List ConsulWorld) (rt : Runtime) (ca : consulAgency) (ga : gRPCAgency)
    (da : dockerAgency) (range : MapRange) (status : CheckStatus) :
    statusAfter (fun w s => (checkConsul cfg w.rt w.ca w.ga w.da w.range s).status) cws
      NewConsulCheckUsecase ≠ .Unhealthy ∧
    statusAfter (fun w s => (checkConsul cfg w.rt w.ca w.ga w.da w.range s).status) cws
      NewConsulCheckUsecase = .Healthy ∧
    CheckStatus.Unhealthy ∉ statusWrites (checkConsul cfg rt ca ga da range status).trace ∧
    (checkConsul cfg rt ca ga da range .Unhealthy).trace = [] ∧
    (checkConsul cfg rt ca ga da range .Unhealthy).status = .Unhealthy ∧
    (checkConsul cfg rt ca ga da range .Unhealthy).history.ProcessLevel = [unhealthyLevel] := by
  have hfix : statusAfter
      (fun w s => (checkConsul cfg w.rt w.ca w.ga w.da w.range s).status) cws
      NewConsulCheckUsecase = .Healthy :=
    statusAfter_fixed _ .Healthy
      (fun w => (checkConsul_exit cfg w.rt w.ca w.ga w.da w.range .Healthy).1) cws
  refine ⟨by rw [hfix]; decide, hfix, ?_, by simp [checkConsul], by simp [checkConsul],
    by simp [checkConsul]⟩
  rcases checkConsul_writes cfg rt ca ga da range status with h | h <;> rw [h] <;> simp
/-- C30: in every Disk tick whose first `GetRemainDiskCapacity` call succeeds with `r1`,
the record's remaining capacity is `r1`, whatever the entry status and whatever the
prune and the second probe answer. -/
theorem C30_remaining_capacity_is_first_probe (cfg : diskCheckUsecaseConfig) (rt : Runtime)
    (dsa : diskSysAgency) (status : CheckStatus) (r1 : Nat)
    (hprobe : dsa.GetRemainDiskCapacity 0 = .ok r1) :
    (checkDisk cfg rt dsa status).fields.RemainingCap = r1 := by
  unfold checkDisk checkDiskProbed
  simp only [Tick.start, Tick.log, callsOf, List.countP_nil, hprobe]
  cases status <;> simp <;> (repeat' split) <;> simp

/-- C30 at a run: with 1 GiB left, a prune and a second probe that reports 5 GiB, the
tick ends HEALTHY on the strength of the second value and the record keeps 1 GiB. -/
theorem C30_witness :
    (checkDisk { DiskMinCapacity := 2 * GiB } sampleRuntime
      (sampleDisk (.ok GiB) (.ok (5 * GiB)) (.ok (4 * GiB))) .Healthy).fields.RemainingCap =
        GiB ∧
    (checkDisk { DiskMinCapacity := 2 * GiB } sampleRuntime
      (sampleDisk (.ok GiB) (.ok (5 * GiB)) (.ok (4 * GiB))) .Healthy).status = .Healthy ∧
    agencyWork (checkDisk { DiskMinCapacity := 2 * GiB } sampleRuntime
      (sampleDisk (.ok GiB) (.ok (5 * GiB)) (.ok (4 * GiB))) .Healthy).trace =
        [.GetRemainDiskCapacity, .PruneDockerSystem, .GetRemainDiskCapacity] :=
  ⟨C30_remaining_capacity_is_first_probe _ _ _ _ GiB rfl, by decide, by decide⟩

/-- C26 refuted as stated: with 1000 shards against a maximum of 900 and an indices view
that lists one jaeger index when its names are read for `DeleteIndices` and none when
they are read again after the deletion, the deletion succeeds and is passed
`[jaeger-span-2020-01-01]`, yet the record has `IfJaegerIndexDeleted = true` with an
empty `DeletedJaegerIndices`. -/
theorem C26_counterexample :
    (checkElasticsearch sampleElasticsearchConfig sampleRuntime sampleElasticsearchLazy
      .Healthy).trace.filter (fun e => decide (e.method = some .DeleteIndices)) =
      [.DeleteIndices ["jaeger-span-2020-01-01"]] ∧
    (checkElasticsearch sampleElasticsearchConfig sampleRuntime sampleElasticsearchLazy
      .Healthy).fields.IfJaegerIndexDeleted = true ∧
    (checkElasticsearch sampleElasticsearchConfig sampleRuntime sampleElasticsearchLazy
      .Healthy).fields.DeletedJaegerIndices = [] := by
  decide

/-- C26 as amended: in an Elasticsearch tick entered HEALTHY whose probe reports more
shards in total (the Go sum) than `MaximumShardsNumber` and whose
`GetIndicesWithPatterns` call succeeds, the tick asks for the indices once, with the
one-element list of `JaegerIndexPattern`; the events after the alarm are that call,
`SetMinLifeCycle(JaegerIndexMinLifeCycle)`, the reading of the index names and
`DeleteIndices` with the names the view lists at that reading, in this order. When the
deletion succeeds the names are read a second time and the record has
`IfJaegerIndexDeleted = true` with the names of the second reading as
`DeletedJaegerIndices`, which are the names passed to `DeleteIndices` when the view lists
the same names at both readings; when the deletion fails the names are read once and the
record has `false` and no names. -/
theorem C26_elasticsearch_deletes_filtered_indices (cfg : elasticsearchCheckUsecaseConfig)
    (rt : Runtime) (ea : elasticsearchAgency) (cluster : ClusterHealth) (indices : Indices)
    (hprobe : ea.GetClusterHealth 0 = .ok cluster)
    (hweak : intAdd cluster.ActiveShards cluster.UnassignedShards > cfg.MaximumShardsNumber)
    (hget : ea.GetIndicesWithPatterns 0 [cfg.JaegerIndexPattern] = .ok indices) :
    (checkElasticsearch cfg rt ea .Healthy).trace.filter
        (fun e => decide (e.method = some .GetIndicesWithPatterns)) =
      [.GetIndicesWithPatterns [cfg.JaegerIndexPattern]] ∧
    (checkElasticsearch cfg rt ea .Healthy).trace.filter
        (fun e => decide (e.method = some .DeleteIndices)) =
      [.DeleteIndices (indices.names 0 (some cfg.JaegerIndexMinLifeCycle))] ∧
    (∃ rest, (checkElasticsearch cfg rt ea .Healthy).trace =
      [.GetClusterHealth, .setStatus .Recovering,
        .SendMessage "pill" "!elasticsearch check weak detected! start to delete jaeger index"
          rt.uuid,
        .SetAlarmResult,
        .GetIndicesWithPatterns [cfg.JaegerIndexPattern],
        .SetMinLifeCycle cfg.JaegerIndexMinLifeCycle,
        .IndexNames,
        .DeleteIndices (indices.names 0 (some cfg.JaegerIndexMinLifeCycle))] ++ rest) ∧
    ((checkElasticsearch cfg rt ea .Healthy).fields.IfJaegerIndexDeleted,
        (checkElasticsearch cfg rt ea .Healthy).fields.DeletedJaegerIndices,
        (checkElasticsearch cfg rt ea .Healthy).trace.count .IndexNames) =
      (match ea.DeleteIndices 0 (indices.names 0 (some cfg.JaegerIndexMinLifeCycle)) with
        | none => (true, indices.names 1 (some cfg.JaegerIndexMinLifeCycle), 2)
        | some _ => (false, [], 1)) ∧
    (ea.DeleteIndices 0 (indices.names 0 (some cfg.JaegerIndexMinLifeCycle)) = none →
      indices.names 1 (some cfg.JaegerIndexMinLifeCycle) =
        indices.names 0 (some cfg.JaegerIndexMinLifeCycle) →
      (checkElasticsearch cfg rt ea .Healthy).fields.DeletedJaegerIndices =
        indices.names 0 (some cfg.JaegerIndexMinLifeCycle)) := by
  have hweak1 : cfg.MaximumShardsNumber <
      intAdd cluster.ActiveShards cluster.UnassignedShards := hweak
  unfold checkElasticsearch checkElasticsearchProbed
  simp only [Tick.start, Tick.log, callsOf, List.countP_nil, hprobe]
  simp [hweak1, hget, Indices.SetMinLifeCycle, Indices.IndexNames,
    ElasticsearchCheckFields.SetClusterHealth]
  rcases hdel : ea.DeleteIndices 0 (indices.names 0 (some cfg.JaegerIndexMinLifeCycle)) with
    _ | err
  · simp
    (repeat' split) <;> simp [List.count_cons]
  · simp [List.count_cons]

/-- C26 (amended) at a run: 1000 active shards against a maximum of 900, one jaeger index
listed at both readings and deleted; the record names that index. -/
theorem C26_witness :
    (checkElasticsearch sampleElasticsearchConfig sampleRuntime
      (sampleElasticsearchThen (1000, 0) (100, 0)) .Healthy).fields.IfJaegerIndexDeleted =
        true ∧
    (checkElasticsearch sampleElasticsearchConfig sampleRuntime
      (sampleElasticsearchThen (1000, 0) (100, 0)) .Healthy).fields.DeletedJaegerIndices =
        ({ names := fun _ _ => ["jaeger-span-2020-01-01"] } : Indices).names 0
          (some sampleElasticsearchConfig.JaegerIndexMinLifeCycle) :=
  ⟨by decide,
    (C26_elasticsearch_deletes_filtered_indices sampleElasticsearchConfig sampleRuntime
      (sampleElasticsearchThen (1000, 0) (100, 0))
      { ActivePrimaryShards := 1000, ActiveShards := 1000, UnassignedShards := 0,
        ActiveShardsPercent := 100 }
      { names := fun _ _ => ["jaeger-span-2020-01-01"] } rfl (by decide) rfl).2.2.2.2
      rfl rfl⟩

theorem float64OfUint64_exact (x : Nat) (h : x < 2 ^ 53) : float64OfUint64 x = x := by
  have h0 : excessBits 11 x = 0 := by
    show (if x < 2 ^ 53 then 0 else excessBits 10 (x / 2) + 1) = 0
    rw [if_pos h]
  unfold float64OfUint64
  rw [h0]
  simp [roundToEven, Nat.mod_one]

theorem getCPUUsagePercentFrom_nonneg (v : StatsJSON) : 0 ≤ getCPUUsagePercentFrom v := by
  unfold getCPUUsagePercentFrom
  simp only
  split
  · rename_i h
    have h1 := h.1
    have h2 := h.2
    positivity
  · exact le_refl 0

theorem getCPUUsagePercentFrom_exact (v : StatsJSON) (h : countersExact v) :
    getCPUUsagePercentFrom v = percentOverRationals v := by
  obtain ⟨h1, h2, h3, h4⟩ := h
  unfold getCPUUsagePercentFrom percentOverRationals
  rw [float64OfUint64_exact _ h1, float64OfUint64_exact _ h2, float64OfUint64_exact _ h3,
    float64OfUint64_exact _ h4]

theorem totalCPUUsageLoop_ok (cli : dockerCli) :
    ∀ (lists : List String) (n : Nat) (usage : Rat) (vs : List StatsJSON),
      readAllStats cli lists n = some vs →
      totalCPUUsageLoop cli lists n usage =
        (usage + (vs.map getCPUUsagePercentFrom).sum, none) := by
  intro lists
  induction lists with
  | nil =>
    intro n usage vs h
    simp only [readAllStats, Option.some.injEq] at h
    subst h
    simp [totalCPUUsageLoop]
  | cons id rest ih =>
    intro n usage vs h
    simp only [readAllStats] at h
    simp only [totalCPUUsageLoop]
    cases hs : cli.ContainerStats n id with
    | error e => simp [hs] at h
    | ok stats =>
      simp only [hs] at h ⊢
      cases hd : cli.Decode stats with
      | error e => simp [hd] at h
      | ok v =>
        simp only [hd] at h ⊢
        cases hr : readAllStats cli rest (n + 1) with
        | none => simp [hr] at h
        | some vs1 =>
          simp only [hr, Option.map_some', Option.some.injEq] at h
          subst h
          rw [ih (n + 1) _ vs1 hr]
          simp [add_assoc]

theorem sum_percent_nonneg (vs : List StatsJSON) :
    0 ≤ (vs.map getCPUUsagePercentFrom).sum := by
  apply List.sum_nonneg
  intro x hx
  obtain ⟨v, _, rfl⟩ := List.mem_map.mp hx
  exact getCPUUsagePercentFrom_nonneg v

/-- C27 refuted as stated: for a container whose cpu counter went from 2^53 to 2^53 + 1
while the system counter went up by 4, on 2 cores, both deltas are strictly positive and
the percent of the claim is 1/4 * 2 * 100 = 50, so the claim gives 4 / 100 * 50 = 2 on 4
CPUs; the conversion to `float64` maps both cpu counters to 2^53, the code's delta is 0
and `GetTotalCPUUsage` returns 0. -/
theorem C27_counterexample :
    sampleDockerCliLong.ContainerList = .ok ["a"] ∧
    readAllStats sampleDockerCliLong ["a"] 0 = some [sampleStatsLong] ∧
    (4 : Rat) / 100 * ([sampleStatsLong].map percentOverRationals).sum = 2 ∧
    GetTotalCPUUsage 4 sampleDockerCliLong = (0, none) := by
  have h1 : float64OfUint64 9007199254740993 = 9007199254740992 := by decide
  have h2 : float64OfUint64 9007199254740992 = 9007199254740992 := by decide
  refine ⟨rfl, by decide, ?_, ?_⟩
  · norm_num [percentOverRationals, sampleStatsLong]
  · simp [GetTotalCPUUsage, sampleDockerCliLong, totalCPUUsageLoop, getCPUUsagePercentFrom,
      sampleStatsLong, h1, h2]

/-- C27 as amended: when the container listing succeeds and the stats of every listed
container are read and decoded with success, `GetTotalCPUUsage` returns, with a nil
error, `cpu_count / 100` times the sum of the per-container percents; the percent of a
container is `(cpuDelta / systemDelta) * number of per-cpu entries * 100` if both deltas
are strictly positive and 0 otherwise, the deltas being taken between the counters as
converted to `float64` (the arithmetic on the converted values over exact rationals); for
counters below 2^53 that is the percent over the exact counters; the result is not
negative, and it is 0 when no container is listed. -/
theorem C27_total_cpu_usage (numCPU : Nat) (cli : dockerCli) (lists : List String)
    (vs : List StatsJSON) (hlist : cli.ContainerList = .ok lists)
    (hstats : readAllStats cli lists 0 = some vs) :
    GetTotalCPUUsage numCPU cli =
      ((numCPU : Rat) / 100 * (vs.map getCPUUsagePercentFrom).sum, none) ∧
    (∀ v : StatsJSON,
      getCPUUsagePercentFrom v =
        if float64OfUint64 v.PreCPUStats.SystemUsage < float64OfUint64 v.CPUStats.SystemUsage ∧
            float64OfUint64 v.PreCPUStats.CPUUsage.TotalUsage <
              float64OfUint64 v.CPUStats.CPUUsage.TotalUsage then
          (((float64OfUint64 v.CPUStats.CPUUsage.TotalUsage : Rat) -
              (float64OfUint64 v.PreCPUStats.CPUUsage.TotalUsage : Rat)) /
            ((float64OfUint64 v.CPUStats.SystemUsage : Rat) -
              (float64OfUint64 v.PreCPUStats.SystemUsage : Rat))) *
            (v.CPUStats.CPUUsage.PercpuUsage.length : Rat) * 100
        else 0) ∧
    (∀ v : StatsJSON, countersExact v → getCPUUsagePercentFrom v = percentOverRationals v) ∧
    0 ≤ (GetTotalCPUUsage numCPU cli).1 ∧
    (lists = [] → (GetTotalCPUUsage numCPU cli).1 = 0) := by
  have hval : GetTotalCPUUsage numCPU cli =
      ((numCPU : Rat) / 100 * (vs.map getCPUUsagePercentFrom).sum, none) := by
    unfold GetTotalCPUUsage
    simp only [hlist, totalCPUUsageLoop_ok cli lists 0 0 vs hstats, zero_add]
  refine ⟨hval, ?_, getCPUUsagePercentFrom_exact, ?_, ?_⟩
  · intro v
    unfold getCPUUsagePercentFrom
    simp only [sub_pos, Nat.cast_lt]
  · rw [hval]
    have := sum_percent_nonneg vs
    show 0 ≤ (numCPU : Rat) / 100 * (vs.map getCPUUsagePercentFrom).sum
    positivity
  · intro hnil
    subst hnil
    simp only [readAllStats, Option.some.injEq] at hstats
    subst hstats
    rw [hval]
    simp

/-- C27 (amended) at a run: on 4 CPUs, two containers that used 1 of 4 and 1 of 8 counter
units on 2 cores have percents 50 and 25, and the total is 4 / 100 * 75 = 3. -/
theorem C27_witness :
    sampleDockerCli.ContainerList = .ok ["a", "b"] ∧
    readAllStats sampleDockerCli ["a", "b"] 0 = some [sampleStats 1 4 2, sampleStats 1 8 2] ∧
    GetTotalCPUUsage 4 sampleDockerCli =
      ((4 : Rat) / 100 *
        ([sampleStats 1 4 2, sampleStats 1 8 2].map getCPUUsagePercentFrom).sum, none) ∧
    (4 : Rat) / 100 *
      ([sampleStats 1 4 2, sampleStats 1 8 2].map percentOverRationals).sum = 3 ∧
    getCPUUsagePercentFrom (sampleStats 1 4 2) = percentOverRationals (sampleStats 1 4 2) :=
  ⟨rfl, by decide,
    (C27_total_cpu_usage 4 sampleDockerCli ["a", "b"] [sampleStats 1 4 2, sampleStats 1 8 2]
      rfl (by decide)).1,
    by norm_num [percentOverRationals, sampleStats],
    (C27_total_cpu_usage 4 sampleDockerCli ["a", "b"] [sampleStats 1 4 2, sampleStats 1 8 2]
      rfl (by decide)).2.2.1 (sampleStats 1 4 2) (by decide)⟩

end HealthCheck
